import Mathlib

/-! MPU6000 driver (flight/PiOS/Common/pios_mpu6000.c) and path loading
(flight/Modules/PathPlanner/path_saving.c)

A shallow embedding of the driver.  The platform services the driver calls
(SPI bus, semaphore, queues) are not part of the driver: every call to one of
them is recorded as an `Event` in a chronological call history, and the value a
call returns is given by a `Platform`, an arbitrary function of the history up
to and including that call.  A driver function takes the history so far and
returns its C result together with the extended history.

C `float` arithmetic is embedded over `ℚ` with an explicit rounding operator
`rnd` applied after every operation and to every literal: `rnd = id` is exact
arithmetic, `rnd = binary32` is IEEE 754 single precision, round to nearest,
ties to even (overflow to infinity is not represented; every quantity computed
by the driver is far below `2 ^ 128`).

A loop that may run for ever (the two polling loops of the long configuration
sequence, the loop of the path loader) takes a number of iterations `fuel` and
yields `none` when it is still running after them.
-/

namespace TauLabs

/-! ## Constants and types -/

/-- The value `PIOS_MPU6000_DEV_MAGIC` of `enum pios_mpu6000_dev_magic`. -/
def PIOS_MPU6000_DEV_MAGIC : Nat := 0x9da9b3ed

/-- The macro `MPU6000_SPI_LOW_SPEED`. -/
def MPU6000_SPI_LOW_SPEED : Nat := 1000000

/-- The macro `PIOS_MPU6000_MAX_QUEUESIZE`. -/
def PIOS_MPU6000_MAX_QUEUESIZE : Nat := 2

/-- Preprocessor switches of the translation unit. -/
structure Build where
  /-- The value of `PIOS_MPU6000_SPI_HIGH_SPEED` when the board defines it. -/
  PIOS_MPU6000_SPI_HIGH_SPEED : Option Nat
  /-- Whether `PIOS_MPU6000_ACCEL` is defined. -/
  PIOS_MPU6000_ACCEL : Bool
  /-- Whether `PIOS_MPU6000_SIMPLE_INIT_SEQUENCE` is defined. -/
  PIOS_MPU6000_SIMPLE_INIT_SEQUENCE : Bool

/-- The macro `MPU6000_SPI_HIGH_SPEED`: the board's value when it is defined,
20000000 otherwise. -/
def MPU6000_SPI_HIGH_SPEED (B : Build) : Nat :=
  match B.PIOS_MPU6000_SPI_HIGH_SPEED with
  | some hz => hz
  | none => 20000000

/-- The values of `enum pios_mpu60x0_range` the driver switches on. -/
inductive pios_mpu60x0_range
  | PIOS_MPU60X0_SCALE_250_DEG
  | PIOS_MPU60X0_SCALE_500_DEG
  | PIOS_MPU60X0_SCALE_1000_DEG
  | PIOS_MPU60X0_SCALE_2000_DEG
  deriving DecidableEq, Repr

/-- The values of `enum pios_mpu60x0_accel_range` the driver switches on. -/
inductive pios_mpu60x0_accel_range
  | PIOS_MPU60X0_ACCEL_2G
  | PIOS_MPU60X0_ACCEL_4G
  | PIOS_MPU60X0_ACCEL_8G
  | PIOS_MPU60X0_ACCEL_16G
  deriving DecidableEq, Repr

/-- The values of `enum pios_mpu60x0_orientation` the acquisition task switches on. -/
inductive pios_mpu60x0_orientation
  | PIOS_MPU60X0_TOP_0DEG
  | PIOS_MPU60X0_TOP_90DEG
  | PIOS_MPU60X0_TOP_180DEG
  | PIOS_MPU60X0_TOP_270DEG
  | PIOS_MPU60X0_BOTTOM_0DEG
  | PIOS_MPU60X0_BOTTOM_90DEG
  | PIOS_MPU60X0_BOTTOM_180DEG
  | PIOS_MPU60X0_BOTTOM_270DEG
  deriving DecidableEq, Repr

/-- Constants the driver takes from `pios_mpu60x0.h` and `physical_constants.h`.
Neither header is among the sources, so their values are parameters: register
addresses, the numeric value of the one `enum pios_mpu60x0_filter` constant the
driver names (a filter setting is kept as its numeric value), `GRAVITY`, the
reset bits and the numeric values of the range constants. -/
structure pios_mpu60x0_hdr where
  PIOS_MPU60X0_SMPLRT_DIV_REG : Nat
  PIOS_MPU60X0_DLPF_CFG_REG : Nat
  PIOS_MPU60X0_GYRO_CFG_REG : Nat
  PIOS_MPU60X0_ACCEL_CFG_REG : Nat
  PIOS_MPU60X0_ACCEL_X_OUT_MSB : Nat
  PIOS_MPU60X0_WHOAMI : Nat
  PIOS_MPU60X0_LOWPASS_256_HZ : Nat
  GRAVITY : ℚ
  PIOS_MPU60X0_PWR_MGMT_REG : Nat
  PIOS_MPU60X0_USER_CTRL_REG : Nat
  PIOS_MPU60X0_INT_CFG_REG : Nat
  PIOS_MPU60X0_INT_EN_REG : Nat
  PIOS_MPU60X0_PWRMGMT_IMU_RST : Nat
  PIOS_MPU60X0_USERCTL_GYRO_RST : Nat
  /-- Numeric value of each `enum pios_mpu60x0_range` constant. -/
  gyro_range_value : pios_mpu60x0_range → Nat
  /-- Numeric value of each `enum pios_mpu60x0_accel_range` constant. -/
  accel_range_value : pios_mpu60x0_accel_range → Nat

/-- The fields of `struct pios_mpu60x0_cfg` the driver reads. -/
structure pios_mpu60x0_cfg where
  Pwr_mgmt_clk : Nat
  User_ctl : Nat
  interrupt_cfg : Nat
  interrupt_en : Nat
  default_filter : Nat
  default_samplerate : Nat
  orientation : pios_mpu60x0_orientation
  deriving DecidableEq, Repr

/-- The `struct mpu6000_dev`.  Queues and the semaphore are held as plain
handles (numbers); `filter` is the numeric value of the enum constant. -/
structure mpu6000_dev where
  spi_id : Nat
  slave_num : Nat
  gyro_range : pios_mpu60x0_range
  gyro_queue : Nat
  accel_range : pios_mpu60x0_accel_range
  accel_queue : Nat
  cfg : pios_mpu60x0_cfg
  configured : Bool
  magic : Nat
  filter : Nat
  data_ready_sema : Nat
  deriving DecidableEq, Repr

/-- The `struct pios_sensor_accel_data` (fields are C floats). -/
structure pios_sensor_accel_data where
  x : ℚ
  y : ℚ
  z : ℚ
  temperature : ℚ
  deriving DecidableEq, Repr

/-- The `struct pios_sensor_gyro_data` (fields are C floats). -/
structure pios_sensor_gyro_data where
  x : ℚ
  y : ℚ
  z : ℚ
  temperature : ℚ
  deriving DecidableEq, Repr

/-- A call from the driver to a platform service, with its arguments. -/
inductive Event
  /-- `PIOS_SPI_ClaimBus(spi_id)` -/
  | spi_claim (spi_id : Nat)
  /-- `PIOS_SPI_ReleaseBus(spi_id)` -/
  | spi_release (spi_id : Nat)
  /-- `PIOS_SPI_SetClockSpeed(spi_id, hz)` -/
  | spi_set_clock (spi_id hz : Nat)
  /-- `PIOS_SPI_RC_PinSet(spi_id, slave_num, level)` -/
  | spi_rc_pin (spi_id slave_num level : Nat)
  /-- `PIOS_SPI_TransferByte(spi_id, b)` -/
  | spi_transfer_byte (spi_id b : Nat)
  /-- `PIOS_SPI_TransferBlock(spi_id, send_buf, rec_buf, len, NULL)` -/
  | spi_transfer_block (spi_id : Nat) (send_buf : List Nat) (len : Nat)
  /-- `PIOS_Semaphore_Take(sema, PIOS_SEMAPHORE_TIMEOUT_MAX)` -/
  | sem_take (sema : Nat)
  /-- `PIOS_Queue_Send(queue, &accel_data, timeout)` -/
  | queue_send_accel (queue : Nat) (data : pios_sensor_accel_data) (timeout : Nat)
  /-- `PIOS_Queue_Send(queue, &gyro_data, timeout)` -/
  | queue_send_gyro (queue : Nat) (data : pios_sensor_gyro_data) (timeout : Nat)
  /-- `PIOS_DELAY_WaitmS(ms)` -/
  | delay_ms (ms : Nat)
  /-- `PIOS_SENSORS_SetMaxGyro(rate)` -/
  | sensors_set_max_gyro (rate : Nat)
  /-- `PIOS_malloc(sizeof(*mpu6000_dev))` -/
  | malloc
  /-- `PIOS_free(ptr)` -/
  | free (ptr : Nat)
  /-- `PIOS_Queue_Create(queue_length, item_size)` -/
  | queue_create (queue_length : Nat)
  /-- `PIOS_Semaphore_Create()` -/
  | semaphore_create
  /-- `PIOS_Thread_Create(PIOS_MPU6000_Task, ...)` -/
  | thread_create
  /-- `PIOS_EXTI_Init(cfg->exti_cfg)` -/
  | exti_init
  /-- `PIOS_SENSORS_Register(PIOS_SENSOR_ACCEL, queue)` -/
  | sensors_register_accel (queue : Nat)
  /-- `PIOS_SENSORS_Register(PIOS_SENSOR_GYRO, queue)` -/
  | sensors_register_gyro (queue : Nat)
  deriving DecidableEq, Repr

/-- What the platform answers.  Each function receives the call history up to
and including the call it answers. -/
structure Platform where
  /-- Status returned by `PIOS_SPI_ClaimBus`. -/
  PIOS_SPI_ClaimBus : List Event → Int
  /-- Status returned by `PIOS_SPI_ReleaseBus`. -/
  PIOS_SPI_ReleaseBus : List Event → Int
  /-- The `int32_t` returned by `PIOS_SPI_TransferByte`. -/
  PIOS_SPI_TransferByte : List Event → Int
  /-- Status returned by `PIOS_SPI_TransferBlock` and the contents it leaves in
  the receive buffer (one number per index). -/
  PIOS_SPI_TransferBlock : List Event → Int × (Nat → Nat)
  /-- Result of `PIOS_Semaphore_Take`. -/
  PIOS_Semaphore_Take : List Event → Bool

/-- What the platform answers to the creation calls of start-up.  Each function
receives the call history up to and including the call it answers and returns
the pointer as a number, 0 being `NULL`. -/
structure Allocator where
  /-- Pointer returned by `PIOS_malloc`. -/
  PIOS_malloc : List Event → Nat
  /-- Pointer returned by `PIOS_Queue_Create`. -/
  PIOS_Queue_Create : List Event → Nat
  /-- Pointer returned by `PIOS_Semaphore_Create`. -/
  PIOS_Semaphore_Create : List Event → Nat
  /-- Pointer returned by `PIOS_Thread_Create`. -/
  PIOS_Thread_Create : List Event → Nat

/-- A resource obtained from the platform and not yet given back. -/
inductive resource
  | memory (ptr : Nat)
  | queue (ptr : Nat)
  | semaphore (ptr : Nat)
  deriving DecidableEq, Repr

/-! ## Handle validation and bus protocol -/

/-- `PIOS_MPU6000_Validate`; `none` is the null pointer. -/
def PIOS_MPU6000_Validate (dev : Option mpu6000_dev) : Int :=
  match dev with
  | none => -1
  | some d =>
    if d.magic ≠ PIOS_MPU6000_DEV_MAGIC then -2
    else if d.spi_id = 0 then -3
    else 0

/-- `PIOS_MPU6000_ClaimBus(lowspeed)` on the global handle `dev`. -/
def PIOS_MPU6000_ClaimBus (P : Platform) (dev : Option mpu6000_dev)
    (lowspeed : Bool) (tr : List Event) : Int × List Event :=
  if PIOS_MPU6000_Validate dev ≠ 0 then (-1, tr)
  else
    match dev with
    | none => (-1, tr)
    | some d =>
      let tr1 := tr ++ [Event.spi_claim d.spi_id]
      if P.PIOS_SPI_ClaimBus tr1 ≠ 0 then (-2, tr1)
      else
        let tr2 := if lowspeed then tr1 ++ [Event.spi_set_clock d.spi_id MPU6000_SPI_LOW_SPEED]
                   else tr1
        (0, tr2 ++ [Event.spi_rc_pin d.spi_id d.slave_num 0])

/-- `PIOS_MPU6000_ReleaseBus(lowspeed)` on the global handle `dev`. -/
def PIOS_MPU6000_ReleaseBus (B : Build) (P : Platform) (dev : Option mpu6000_dev)
    (lowspeed : Bool) (tr : List Event) : Int × List Event :=
  if PIOS_MPU6000_Validate dev ≠ 0 then (-1, tr)
  else
    match dev with
    | none => (-1, tr)
    | some d =>
      let tr1 := tr ++ [Event.spi_rc_pin d.spi_id d.slave_num 1]
      let tr2 := if lowspeed then tr1 ++ [Event.spi_set_clock d.spi_id (MPU6000_SPI_HIGH_SPEED B)]
                 else tr1
      let tr3 := tr2 ++ [Event.spi_release d.spi_id]
      (P.PIOS_SPI_ReleaseBus tr3, tr3)

/-! ## Register access -/

/-- `PIOS_MPU6000_GetReg(reg)`.  `data` is a `uint8_t`, so the value returned
by the transfer is reduced modulo 256. -/
def PIOS_MPU6000_GetReg (B : Build) (P : Platform) (dev : Option mpu6000_dev)
    (reg : Nat) (tr : List Event) : Int × List Event :=
  let c := PIOS_MPU6000_ClaimBus P dev true tr
  if c.1 ≠ 0 then (-1, c.2)
  else
    match dev with
    | none => (-1, c.2)
    | some d =>
      let tr1 := c.2 ++ [Event.spi_transfer_byte d.spi_id ((0x80 ||| reg % 256) % 256)]
      let tr2 := tr1 ++ [Event.spi_transfer_byte d.spi_id 0]
      let data : Int := P.PIOS_SPI_TransferByte tr2 % 256
      let r := PIOS_MPU6000_ReleaseBus B P dev true tr2
      (data, r.2)

/-- `PIOS_MPU6000_SetReg(reg, data)`; both parameters are `uint8_t`. -/
def PIOS_MPU6000_SetReg (B : Build) (P : Platform) (dev : Option mpu6000_dev)
    (reg data : Nat) (tr : List Event) : Int × List Event :=
  let c := PIOS_MPU6000_ClaimBus P dev true tr
  if c.1 ≠ 0 then (-1, c.2)
  else
    match dev with
    | none => (-1, c.2)
    | some d =>
      let tr1 := c.2 ++ [Event.spi_transfer_byte d.spi_id ((0x7f &&& reg % 256) % 256)]
      if P.PIOS_SPI_TransferByte tr1 ≠ 0 then
        (-2, (PIOS_MPU6000_ReleaseBus B P dev true tr1).2)
      else
        let tr2 := tr1 ++ [Event.spi_transfer_byte d.spi_id (data % 256)]
        if P.PIOS_SPI_TransferByte tr2 ≠ 0 then
          (-3, (PIOS_MPU6000_ReleaseBus B P dev true tr2).2)
        else
          (0, (PIOS_MPU6000_ReleaseBus B P dev true tr2).2)

/-- `PIOS_MPU6000_ReadID()`. -/
def PIOS_MPU6000_ReadID (H : pios_mpu60x0_hdr) (B : Build) (P : Platform)
    (dev : Option mpu6000_dev) (tr : List Event) : Int × List Event :=
  let r := PIOS_MPU6000_GetReg B P dev H.PIOS_MPU60X0_WHOAMI tr
  if r.1 < 0 then (-1, r.2) else (r.1, r.2)

/-- `PIOS_MPU6000_Test()`. -/
def PIOS_MPU6000_Test (H : pios_mpu60x0_hdr) (B : Build) (P : Platform)
    (dev : Option mpu6000_dev) (tr : List Event) : Int × List Event :=
  let r := PIOS_MPU6000_ReadID H B P dev tr
  if r.1 < 0 then (-1, r.2)
  else if r.1 ≠ 0x68 then (-2, r.2)
  else (0, r.2)

/-! ## Floating point -/

/-- Round to the nearest integer, ties to the even one. -/
def round_half_even (q : ℚ) : Int :=
  if q - ⌊q⌋ < 1 / 2 then ⌊q⌋
  else if 1 / 2 < q - ⌊q⌋ then ⌊q⌋ + 1
  else if ⌊q⌋ % 2 = 0 then ⌊q⌋ else ⌊q⌋ + 1

/-- IEEE 754 binary32 rounding of a rational (round to nearest, ties to even):
24 significant bits, least exponent -126 (below it the spacing stays
`2 ^ (-149)`, the subnormal numbers). -/
def binary32 (q : ℚ) : ℚ :=
  if q = 0 then 0
  else
    let e : Int := max (Int.log 2 |q|) (-126)
    let ulp : ℚ := (2 : ℚ) ^ (e - 23)
    (if q < 0 then -1 else 1) * ((round_half_even (|q| / ulp) : ℚ) * ulp)

/-- Conversion of a C float to `int32_t`: truncation toward zero. -/
def float_to_int32 (x : ℚ) : Int :=
  if 0 ≤ x then ⌊x⌋ else ⌈x⌉

/-! ## Setters -/

/-- The `int32_t` the conversion of the float `+inf` yields.  C leaves this
conversion undefined; a saturating conversion gives the largest `int32_t`, which
the model takes.  (A conversion that gives the least `int32_t` instead ends at
the same register value, 255, when the following `- 1` wraps around.) -/
def int32_of_float_inf : Int := 2147483647

/-- The divisor `PIOS_MPU6000_SetSampleRate` computes from the handle's filter
and the value of its `uint16_t` parameter, after both clamps (the C variable
`divisor`).  With the rate 0 the float quotient is `+inf`, and so is the sum
with `0.5f`. -/
def sample_rate_divisor (rnd : ℚ → ℚ) (H : pios_mpu60x0_hdr) (filter : Nat)
    (samplerate_hz : Nat) : Int :=
  let filter_frequency : Nat :=
    if filter ≠ H.PIOS_MPU60X0_LOWPASS_256_HZ then 1000 else 8000
  let samplerate_hz : Nat :=
    if samplerate_hz > filter_frequency then filter_frequency else samplerate_hz
  let divisor : Int :=
    if samplerate_hz = 0 then int32_of_float_inf - 1
    else
      float_to_int32
        (rnd (rnd (rnd (filter_frequency : ℚ) / rnd (samplerate_hz : ℚ)) + rnd (1 / 2))) - 1
  let divisor : Int := if divisor < 0 then 0 else divisor
  if divisor > 0xff then 0xff else divisor

/-- `PIOS_MPU6000_SetSampleRate(samplerate_hz)`; the parameter is a `uint16_t`,
so the argument is reduced modulo `2 ^ 16`; the handle is dereferenced without a
check, so it is a non-null `dev`. -/
def PIOS_MPU6000_SetSampleRate (rnd : ℚ → ℚ) (H : pios_mpu60x0_hdr) (B : Build)
    (P : Platform) (dev : mpu6000_dev) (samplerate_hz : Nat) (tr : List Event) :
    Int × List Event :=
  let samplerate_hz : Nat := samplerate_hz % 65536
  PIOS_MPU6000_SetReg B P (some dev) H.PIOS_MPU60X0_SMPLRT_DIV_REG
    (sample_rate_divisor rnd H dev.filter samplerate_hz % 256).toNat tr

/-! ## Scale factors -/

/-- `PIOS_MPU6000_GetGyroScale()`. -/
def PIOS_MPU6000_GetGyroScale (rnd : ℚ → ℚ) (dev : mpu6000_dev) : ℚ :=
  match dev.gyro_range with
  | .PIOS_MPU60X0_SCALE_250_DEG => rnd (rnd 1 / rnd 131)
  | .PIOS_MPU60X0_SCALE_500_DEG => rnd (rnd 1 / rnd (655 / 10))
  | .PIOS_MPU60X0_SCALE_1000_DEG => rnd (rnd 1 / rnd (328 / 10))
  | .PIOS_MPU60X0_SCALE_2000_DEG => rnd (rnd 1 / rnd (164 / 10))

/-- `PIOS_MPU6000_GetAccelScale()`. -/
def PIOS_MPU6000_GetAccelScale (rnd : ℚ → ℚ) (H : pios_mpu60x0_hdr) (dev : mpu6000_dev) : ℚ :=
  match dev.accel_range with
  | .PIOS_MPU60X0_ACCEL_2G => rnd (rnd H.GRAVITY / rnd 16384)
  | .PIOS_MPU60X0_ACCEL_4G => rnd (rnd H.GRAVITY / rnd 8192)
  | .PIOS_MPU60X0_ACCEL_8G => rnd (rnd H.GRAVITY / rnd 4096)
  | .PIOS_MPU60X0_ACCEL_16G => rnd (rnd H.GRAVITY / rnd 2048)

/-! ## Acquisition task -/

/-- Index of a byte of the burst in the receive buffer (the anonymous enum in
`PIOS_MPU6000_Task`). -/
def IDX_SPI_DUMMY_BYTE : Nat := 0
/-- See `IDX_SPI_DUMMY_BYTE`. -/
def IDX_ACCEL_XOUT_H : Nat := 1
/-- See `IDX_SPI_DUMMY_BYTE`. -/
def IDX_ACCEL_XOUT_L : Nat := 2
/-- See `IDX_SPI_DUMMY_BYTE`. -/
def IDX_ACCEL_YOUT_H : Nat := 3
/-- See `IDX_SPI_DUMMY_BYTE`. -/
def IDX_ACCEL_YOUT_L : Nat := 4
/-- See `IDX_SPI_DUMMY_BYTE`. -/
def IDX_ACCEL_ZOUT_H : Nat := 5
/-- See `IDX_SPI_DUMMY_BYTE`. -/
def IDX_ACCEL_ZOUT_L : Nat := 6
/-- See `IDX_SPI_DUMMY_BYTE`. -/
def IDX_TEMP_OUT_H : Nat := 7
/-- See `IDX_SPI_DUMMY_BYTE`. -/
def IDX_TEMP_OUT_L : Nat := 8
/-- See `IDX_SPI_DUMMY_BYTE`. -/
def IDX_GYRO_XOUT_H : Nat := 9
/-- See `IDX_SPI_DUMMY_BYTE`. -/
def IDX_GYRO_XOUT_L : Nat := 10
/-- See `IDX_SPI_DUMMY_BYTE`. -/
def IDX_GYRO_YOUT_H : Nat := 11
/-- See `IDX_SPI_DUMMY_BYTE`. -/
def IDX_GYRO_YOUT_L : Nat := 12
/-- See `IDX_SPI_DUMMY_BYTE`. -/
def IDX_GYRO_ZOUT_H : Nat := 13
/-- See `IDX_SPI_DUMMY_BYTE`. -/
def IDX_GYRO_ZOUT_L : Nat := 14
/-- See `IDX_SPI_DUMMY_BYTE`. -/
def BUFFER_SIZE : Nat := 15

/-- The expression `(int16_t)(rec_buf[hi] << 8 | rec_buf[lo])`: the buffer
holds `uint8_t`, the shift and the or are done in `int`, and the conversion to
`int16_t` wraps modulo `2 ^ 16`. -/
def int16_of_bytes (rec_buf : Nat → Nat) (hi lo : Nat) : Int :=
  let v : Nat := ((rec_buf hi % 256) <<< 8 ||| rec_buf lo % 256) % 65536
  if v < 32768 then (v : Int) else (v : Int) - 65536

/-- The initialiser of `mpu6000_send_buf`. -/
def mpu6000_send_buf (H : pios_mpu60x0_hdr) : List Nat :=
  ((H.PIOS_MPU60X0_ACCEL_X_OUT_MSB ||| 0x80) % 256) :: List.replicate 14 0

/-- The `switch` on the orientation when `PIOS_MPU6000_ACCEL` is defined: the
assignments to the fields of `accel_data` and `gyro_data`, each an `int`
converted to float. -/
def rotate_accel_gyro (rnd : ℚ → ℚ) (orientation : pios_mpu60x0_orientation)
    (rec_buf : Nat → Nat) (accel_data : pios_sensor_accel_data)
    (gyro_data : pios_sensor_gyro_data) :
    pios_sensor_accel_data × pios_sensor_gyro_data :=
  match orientation with
  | .PIOS_MPU60X0_TOP_0DEG =>
    ({ accel_data with
        y := rnd (((int16_of_bytes rec_buf IDX_ACCEL_XOUT_H IDX_ACCEL_XOUT_L) : Int) : ℚ),
        x := rnd (((int16_of_bytes rec_buf IDX_ACCEL_YOUT_H IDX_ACCEL_YOUT_L) : Int) : ℚ),
        z := rnd ((-(int16_of_bytes rec_buf IDX_ACCEL_ZOUT_H IDX_ACCEL_ZOUT_L) : Int) : ℚ) },
     { gyro_data with
        y := rnd (((int16_of_bytes rec_buf IDX_GYRO_XOUT_H IDX_GYRO_XOUT_L) : Int) : ℚ),
        x := rnd (((int16_of_bytes rec_buf IDX_GYRO_YOUT_H IDX_GYRO_YOUT_L) : Int) : ℚ),
        z := rnd ((-(int16_of_bytes rec_buf IDX_GYRO_ZOUT_H IDX_GYRO_ZOUT_L) : Int) : ℚ) })
  | .PIOS_MPU60X0_TOP_90DEG =>
    ({ accel_data with
        y := rnd ((-(int16_of_bytes rec_buf IDX_ACCEL_YOUT_H IDX_ACCEL_YOUT_L) : Int) : ℚ),
        x := rnd (((int16_of_bytes rec_buf IDX_ACCEL_XOUT_H IDX_ACCEL_XOUT_L) : Int) : ℚ),
        z := rnd ((-(int16_of_bytes rec_buf IDX_ACCEL_ZOUT_H IDX_ACCEL_ZOUT_L) : Int) : ℚ) },
     { gyro_data with
        y := rnd ((-(int16_of_bytes rec_buf IDX_GYRO_YOUT_H IDX_GYRO_YOUT_L) : Int) : ℚ),
        x := rnd (((int16_of_bytes rec_buf IDX_GYRO_XOUT_H IDX_GYRO_XOUT_L) : Int) : ℚ),
        z := rnd ((-(int16_of_bytes rec_buf IDX_GYRO_ZOUT_H IDX_GYRO_ZOUT_L) : Int) : ℚ) })
  | .PIOS_MPU60X0_TOP_180DEG =>
    ({ accel_data with
        y := rnd ((-(int16_of_bytes rec_buf IDX_ACCEL_XOUT_H IDX_ACCEL_XOUT_L) : Int) : ℚ),
        x := rnd ((-(int16_of_bytes rec_buf IDX_ACCEL_YOUT_H IDX_ACCEL_YOUT_L) : Int) : ℚ),
        z := rnd ((-(int16_of_bytes rec_buf IDX_ACCEL_ZOUT_H IDX_ACCEL_ZOUT_L) : Int) : ℚ) },
     { gyro_data with
        y := rnd ((-(int16_of_bytes rec_buf IDX_GYRO_XOUT_H IDX_GYRO_XOUT_L) : Int) : ℚ),
        x := rnd ((-(int16_of_bytes rec_buf IDX_GYRO_YOUT_H IDX_GYRO_YOUT_L) : Int) : ℚ),
        z := rnd ((-(int16_of_bytes rec_buf IDX_GYRO_ZOUT_H IDX_GYRO_ZOUT_L) : Int) : ℚ) })
  | .PIOS_MPU60X0_TOP_270DEG =>
    ({ accel_data with
        y := rnd (((int16_of_bytes rec_buf IDX_ACCEL_YOUT_H IDX_ACCEL_YOUT_L) : Int) : ℚ),
        x := rnd ((-(int16_of_bytes rec_buf IDX_ACCEL_XOUT_H IDX_ACCEL_XOUT_L) : Int) : ℚ),
        z := rnd ((-(int16_of_bytes rec_buf IDX_ACCEL_ZOUT_H IDX_ACCEL_ZOUT_L) : Int) : ℚ) },
     { gyro_data with
        y := rnd (((int16_of_bytes rec_buf IDX_GYRO_YOUT_H IDX_GYRO_YOUT_L) : Int) : ℚ),
        x := rnd ((-(int16_of_bytes rec_buf IDX_GYRO_XOUT_H IDX_GYRO_XOUT_L) : Int) : ℚ),
        z := rnd ((-(int16_of_bytes rec_buf IDX_GYRO_ZOUT_H IDX_GYRO_ZOUT_L) : Int) : ℚ) })
  | .PIOS_MPU60X0_BOTTOM_0DEG =>
    ({ accel_data with
        y := rnd ((-(int16_of_bytes rec_buf IDX_ACCEL_XOUT_H IDX_ACCEL_XOUT_L) : Int) : ℚ),
        x := rnd (((int16_of_bytes rec_buf IDX_ACCEL_YOUT_H IDX_ACCEL_YOUT_L) : Int) : ℚ),
        z := rnd (((int16_of_bytes rec_buf IDX_ACCEL_ZOUT_H IDX_ACCEL_ZOUT_L) : Int) : ℚ) },
     { gyro_data with
        y := rnd ((-(int16_of_bytes rec_buf IDX_GYRO_XOUT_H IDX_GYRO_XOUT_L) : Int) : ℚ),
        x := rnd (((int16_of_bytes rec_buf IDX_GYRO_YOUT_H IDX_GYRO_YOUT_L) : Int) : ℚ),
        z := rnd (((int16_of_bytes rec_buf IDX_GYRO_ZOUT_H IDX_GYRO_ZOUT_L) : Int) : ℚ) })
  | .PIOS_MPU60X0_BOTTOM_90DEG =>
    ({ accel_data with
        y := rnd (((int16_of_bytes rec_buf IDX_ACCEL_YOUT_H IDX_ACCEL_YOUT_L) : Int) : ℚ),
        x := rnd ((-(int16_of_bytes rec_buf IDX_ACCEL_XOUT_H IDX_ACCEL_XOUT_L) : Int) : ℚ),
        z := rnd (((int16_of_bytes rec_buf IDX_ACCEL_ZOUT_H IDX_ACCEL_ZOUT_L) : Int) : ℚ) },
     { gyro_data with
        y := rnd (((int16_of_bytes rec_buf IDX_GYRO_YOUT_H IDX_GYRO_YOUT_L) : Int) : ℚ),
        x := rnd ((-(int16_of_bytes rec_buf IDX_GYRO_XOUT_H IDX_GYRO_XOUT_L) : Int) : ℚ),
        z := rnd (((int16_of_bytes rec_buf IDX_GYRO_ZOUT_H IDX_GYRO_ZOUT_L) : Int) : ℚ) })
  | .PIOS_MPU60X0_BOTTOM_180DEG =>
    ({ accel_data with
        y := rnd (((int16_of_bytes rec_buf IDX_ACCEL_XOUT_H IDX_ACCEL_XOUT_L) : Int) : ℚ),
        x := rnd ((-(int16_of_bytes rec_buf IDX_ACCEL_YOUT_H IDX_ACCEL_YOUT_L) : Int) : ℚ),
        z := rnd (((int16_of_bytes rec_buf IDX_ACCEL_ZOUT_H IDX_ACCEL_ZOUT_L) : Int) : ℚ) },
     { gyro_data with
        y := rnd (((int16_of_bytes rec_buf IDX_GYRO_XOUT_H IDX_GYRO_XOUT_L) : Int) : ℚ),
        x := rnd ((-(int16_of_bytes rec_buf IDX_GYRO_YOUT_H IDX_GYRO_YOUT_L) : Int) : ℚ),
        z := rnd (((int16_of_bytes rec_buf IDX_GYRO_ZOUT_H IDX_GYRO_ZOUT_L) : Int) : ℚ) })
  | .PIOS_MPU60X0_BOTTOM_270DEG =>
    ({ accel_data with
        y := rnd ((-(int16_of_bytes rec_buf IDX_ACCEL_YOUT_H IDX_ACCEL_YOUT_L) : Int) : ℚ),
        x := rnd (((int16_of_bytes rec_buf IDX_ACCEL_XOUT_H IDX_ACCEL_XOUT_L) : Int) : ℚ),
        z := rnd (((int16_of_bytes rec_buf IDX_ACCEL_ZOUT_H IDX_ACCEL_ZOUT_L) : Int) : ℚ) },
     { gyro_data with
        y := rnd ((-(int16_of_bytes rec_buf IDX_GYRO_YOUT_H IDX_GYRO_YOUT_L) : Int) : ℚ),
        x := rnd (((int16_of_bytes rec_buf IDX_GYRO_XOUT_H IDX_GYRO_XOUT_L) : Int) : ℚ),
        z := rnd (((int16_of_bytes rec_buf IDX_GYRO_ZOUT_H IDX_GYRO_ZOUT_L) : Int) : ℚ) })

/-- The `switch` on the orientation when `PIOS_MPU6000_ACCEL` is not defined:
only the four top orientations have a case, the others leave `gyro_data` as it
was. -/
def rotate_gyro (rnd : ℚ → ℚ) (orientation : pios_mpu60x0_orientation)
    (rec_buf : Nat → Nat) (gyro_data : pios_sensor_gyro_data) : pios_sensor_gyro_data :=
  match orientation with
  | .PIOS_MPU60X0_TOP_0DEG =>
    { gyro_data with
        y := rnd (((int16_of_bytes rec_buf IDX_GYRO_XOUT_H IDX_GYRO_XOUT_L) : Int) : ℚ),
        x := rnd (((int16_of_bytes rec_buf IDX_GYRO_YOUT_H IDX_GYRO_YOUT_L) : Int) : ℚ) }
  | .PIOS_MPU60X0_TOP_90DEG =>
    { gyro_data with
        y := rnd ((-(int16_of_bytes rec_buf IDX_GYRO_YOUT_H IDX_GYRO_YOUT_L) : Int) : ℚ),
        x := rnd (((int16_of_bytes rec_buf IDX_GYRO_XOUT_H IDX_GYRO_XOUT_L) : Int) : ℚ) }
  | .PIOS_MPU60X0_TOP_180DEG =>
    { gyro_data with
        y := rnd ((-(int16_of_bytes rec_buf IDX_GYRO_XOUT_H IDX_GYRO_XOUT_L) : Int) : ℚ),
        x := rnd ((-(int16_of_bytes rec_buf IDX_GYRO_YOUT_H IDX_GYRO_YOUT_L) : Int) : ℚ) }
  | .PIOS_MPU60X0_TOP_270DEG =>
    { gyro_data with
        y := rnd (((int16_of_bytes rec_buf IDX_GYRO_YOUT_H IDX_GYRO_YOUT_L) : Int) : ℚ),
        x := rnd ((-(int16_of_bytes rec_buf IDX_GYRO_XOUT_H IDX_GYRO_XOUT_L) : Int) : ℚ) }
  | _ => gyro_data

/-- The float `temperature` computed from the burst. -/
def task_temperature (rnd : ℚ → ℚ) (rec_buf : Nat → Nat) : ℚ :=
  let raw_temp : Int := int16_of_bytes rec_buf IDX_TEMP_OUT_H IDX_TEMP_OUT_L
  rnd (rnd 35 + rnd (rnd (rnd (raw_temp : ℚ) + rnd 512) / rnd 340))

/-- The samples one iteration builds from the burst when `PIOS_MPU6000_ACCEL`
is defined.  `accel_data0` and `gyro_data0` are the contents of the two local
structs before the first assignment (they are declared without initialiser). -/
def task_samples_accel (rnd : ℚ → ℚ) (H : pios_mpu60x0_hdr) (dev : mpu6000_dev)
    (rec_buf : Nat → Nat) (accel_data0 : pios_sensor_accel_data)
    (gyro_data0 : pios_sensor_gyro_data) :
    pios_sensor_accel_data × pios_sensor_gyro_data :=
  let r := rotate_accel_gyro rnd dev.cfg.orientation rec_buf accel_data0 gyro_data0
  let accel_data := r.1
  let gyro_data := r.2
  let temperature := task_temperature rnd rec_buf
  let accel_scale := PIOS_MPU6000_GetAccelScale rnd H dev
  let accel_data := { accel_data with x := rnd (accel_data.x * accel_scale) }
  let accel_data := { accel_data with y := rnd (accel_data.y * accel_scale) }
  let accel_data := { accel_data with z := rnd (accel_data.z * accel_scale) }
  let accel_data := { accel_data with temperature := temperature }
  let gyro_scale := PIOS_MPU6000_GetGyroScale rnd dev
  let gyro_data := { gyro_data with x := rnd (gyro_data.x * gyro_scale) }
  let gyro_data := { gyro_data with y := rnd (gyro_data.y * gyro_scale) }
  let gyro_data := { gyro_data with z := rnd (gyro_data.z * gyro_scale) }
  let gyro_data := { gyro_data with temperature := temperature }
  (accel_data, gyro_data)

/-- The sample one iteration builds from the burst when `PIOS_MPU6000_ACCEL`
is not defined; `gyro_data0` is the content of the local struct before the
first assignment. -/
def task_sample_gyro (rnd : ℚ → ℚ) (dev : mpu6000_dev) (rec_buf : Nat → Nat)
    (gyro_data0 : pios_sensor_gyro_data) : pios_sensor_gyro_data :=
  let gyro_data := rotate_gyro rnd dev.cfg.orientation rec_buf gyro_data0
  let gyro_data := { gyro_data with
    z := rnd ((-(int16_of_bytes rec_buf IDX_GYRO_ZOUT_H IDX_GYRO_ZOUT_L) : Int) : ℚ) }
  let temperature := task_temperature rnd rec_buf
  let gyro_scale := PIOS_MPU6000_GetGyroScale rnd dev
  let gyro_data := { gyro_data with x := rnd (gyro_data.x * gyro_scale) }
  let gyro_data := { gyro_data with y := rnd (gyro_data.y * gyro_scale) }
  let gyro_data := { gyro_data with z := rnd (gyro_data.z * gyro_scale) }
  { gyro_data with temperature := temperature }

/-- How an iteration of `while (1)` ends: `next` when control goes back to the
loop head (a `continue`, or the end of the body), `leave` when the loop is left
(a `break` or a `return`). -/
inductive loop_ctl
  | next
  | leave
  deriving DecidableEq, Repr

/-- One iteration of the body of `while (1)` in `PIOS_MPU6000_Task`.  The task is
created by `PIOS_MPU6000_Init` after the handle was allocated, so the handle is
a non-null `dev`. -/
def PIOS_MPU6000_Task_body (rnd : ℚ → ℚ) (H : pios_mpu60x0_hdr) (B : Build)
    (P : Platform) (dev : mpu6000_dev) (accel_data0 : pios_sensor_accel_data)
    (gyro_data0 : pios_sensor_gyro_data) (tr : List Event) : loop_ctl × List Event :=
  let tr1 := tr ++ [Event.sem_take dev.data_ready_sema]
  if P.PIOS_Semaphore_Take tr1 ≠ true then (loop_ctl.next, tr1)
  else
    let c := PIOS_MPU6000_ClaimBus P (some dev) false tr1
    if c.1 ≠ 0 then (loop_ctl.next, c.2)
    else
      let tr2 := c.2 ++ [Event.spi_transfer_block dev.spi_id (mpu6000_send_buf H) BUFFER_SIZE]
      let t := P.PIOS_SPI_TransferBlock tr2
      if t.1 < 0 then
        (loop_ctl.next, (PIOS_MPU6000_ReleaseBus B P (some dev) false tr2).2)
      else
        let tr3 := (PIOS_MPU6000_ReleaseBus B P (some dev) false tr2).2
        if B.PIOS_MPU6000_ACCEL then
          let s := task_samples_accel rnd H dev t.2 accel_data0 gyro_data0
          let tr4 := tr3 ++ [Event.queue_send_accel dev.accel_queue s.1 0]
          (loop_ctl.next, tr4 ++ [Event.queue_send_gyro dev.gyro_queue s.2 0])
        else
          let g := task_sample_gyro rnd dev t.2 gyro_data0
          (loop_ctl.next, tr3 ++ [Event.queue_send_gyro dev.gyro_queue g 0])

/-- The first `n` iterations of `PIOS_MPU6000_Task`: the control state after
them (`leave` if the loop was left on the way) and the call history. -/
def PIOS_MPU6000_Task (rnd : ℚ → ℚ) (H : pios_mpu60x0_hdr) (B : Build)
    (P : Platform) (dev : mpu6000_dev) (accel_data0 : pios_sensor_accel_data)
    (gyro_data0 : pios_sensor_gyro_data) : Nat → List Event → loop_ctl × List Event
  | 0, tr => (loop_ctl.next, tr)
  | n + 1, tr =>
    match PIOS_MPU6000_Task_body rnd H B P dev accel_data0 gyro_data0 tr with
    | (loop_ctl.next, tr1) => PIOS_MPU6000_Task rnd H B P dev accel_data0 gyro_data0 n tr1
    | (loop_ctl.leave, tr1) => (loop_ctl.leave, tr1)

/-! ## Range and filter setters -/

/-- `PIOS_MPU6000_SetGyroRange(gyro_range)`; the handle is dereferenced without
a check, so it is a non-null `dev`.  Returns the handle after the call. -/
def PIOS_MPU6000_SetGyroRange (H : pios_mpu60x0_hdr) (B : Build) (P : Platform)
    (dev : mpu6000_dev) (gyro_range : pios_mpu60x0_range) (tr : List Event) :
    mpu6000_dev × List Event :=
  let r := PIOS_MPU6000_SetReg B P (some dev) H.PIOS_MPU60X0_GYRO_CFG_REG
    (H.gyro_range_value gyro_range) tr
  let tr1 :=
    match gyro_range with
    | .PIOS_MPU60X0_SCALE_250_DEG => r.2 ++ [Event.sensors_set_max_gyro 250]
    | .PIOS_MPU60X0_SCALE_500_DEG => r.2 ++ [Event.sensors_set_max_gyro 500]
    | .PIOS_MPU60X0_SCALE_1000_DEG => r.2 ++ [Event.sensors_set_max_gyro 1000]
    | .PIOS_MPU60X0_SCALE_2000_DEG => r.2 ++ [Event.sensors_set_max_gyro 2000]
  ({ dev with gyro_range := gyro_range }, tr1)

/-- `PIOS_MPU6000_SetAccelRange(accel_range)`. -/
def PIOS_MPU6000_SetAccelRange (H : pios_mpu60x0_hdr) (B : Build) (P : Platform)
    (dev : mpu6000_dev) (accel_range : pios_mpu60x0_accel_range) (tr : List Event) :
    mpu6000_dev × List Event :=
  let r := PIOS_MPU6000_SetReg B P (some dev) H.PIOS_MPU60X0_ACCEL_CFG_REG
    (H.accel_range_value accel_range) tr
  ({ dev with accel_range := accel_range }, r.2)

/-- `PIOS_MPU6000_SetLPF(filter)`. -/
def PIOS_MPU6000_SetLPF (H : pios_mpu60x0_hdr) (B : Build) (P : Platform)
    (dev : mpu6000_dev) (filter : Nat) (tr : List Event) : mpu6000_dev × List Event :=
  let r := PIOS_MPU6000_SetReg B P (some dev) H.PIOS_MPU60X0_DLPF_CFG_REG filter tr
  ({ dev with filter := filter }, r.2)

/-! ## Configuration -/

/-- The value of `x & mask` for an `int32_t` `x` (two's complement) and a
non-negative constant `mask`. -/
def int32_and (x : Int) (mask : Nat) : Nat :=
  (x % 4294967296).toNat &&& mask

/-- The loop `do { PIOS_DELAY_WaitmS(5); } while (PIOS_MPU6000_GetReg(reg) & mask);`
run for at most `fuel` iterations: the history when the loop is left, or `none`
if it is still running. -/
def poll_until_clear (B : Build) (P : Platform) (dev : Option mpu6000_dev)
    (reg mask : Nat) : Nat → List Event → Option (List Event)
  | 0, _ => none
  | fuel + 1, tr =>
    let r := PIOS_MPU6000_GetReg B P dev reg (tr ++ [Event.delay_ms 5])
    if int32_and r.1 mask ≠ 0 then poll_until_clear B P dev reg mask fuel r.2
    else some r.2

/-- The body of `PIOS_MPU6000_Config` when `PIOS_MPU6000_SIMPLE_INIT_SEQUENCE` is
defined, up to and including the last register write. -/
def Config_simple_sequence (rnd : ℚ → ℚ) (H : pios_mpu60x0_hdr) (B : Build) (P : Platform)
    (cfg : pios_mpu60x0_cfg) (dev : mpu6000_dev) (tr : List Event) :
    mpu6000_dev × List Event :=
  let tr := (PIOS_MPU6000_SetReg B P (some dev) H.PIOS_MPU60X0_PWR_MGMT_REG
    H.PIOS_MPU60X0_PWRMGMT_IMU_RST tr).2
  let tr := (PIOS_MPU6000_SetReg B P (some dev) H.PIOS_MPU60X0_USER_CTRL_REG
    H.PIOS_MPU60X0_USERCTL_GYRO_RST tr).2
  let tr := tr ++ [Event.delay_ms 10]
  let tr := (PIOS_MPU6000_SetReg B P (some dev) H.PIOS_MPU60X0_PWR_MGMT_REG
    cfg.Pwr_mgmt_clk tr).2
  let tr := (PIOS_MPU6000_SetReg B P (some dev) H.PIOS_MPU60X0_USER_CTRL_REG
    cfg.User_ctl tr).2
  let s := PIOS_MPU6000_SetLPF H B P dev cfg.default_filter tr
  let tr := (PIOS_MPU6000_SetSampleRate rnd H B P s.1 cfg.default_samplerate s.2).2
  let s := PIOS_MPU6000_SetGyroRange H B P s.1
    pios_mpu60x0_range.PIOS_MPU60X0_SCALE_500_DEG tr
  let s := if B.PIOS_MPU6000_ACCEL then
      PIOS_MPU6000_SetAccelRange H B P s.1
        pios_mpu60x0_accel_range.PIOS_MPU60X0_ACCEL_8G s.2
    else s
  let tr := (PIOS_MPU6000_SetReg B P (some s.1) H.PIOS_MPU60X0_INT_CFG_REG
    cfg.interrupt_cfg s.2).2
  let tr := (PIOS_MPU6000_SetReg B P (some s.1) H.PIOS_MPU60X0_INT_EN_REG
    cfg.interrupt_en tr).2
  (s.1, tr)

/-- The part of the other body of `PIOS_MPU6000_Config` that follows the second
polling loop, up to and including the last register write. -/
def Config_full_sequence_tail (rnd : ℚ → ℚ) (H : pios_mpu60x0_hdr) (B : Build)
    (P : Platform) (cfg : pios_mpu60x0_cfg) (dev : mpu6000_dev) (tr : List Event) :
    mpu6000_dev × List Event :=
  let tr := tr ++ [Event.delay_ms 25]
  let tr := (PIOS_MPU6000_SetReg B P (some dev) H.PIOS_MPU60X0_PWR_MGMT_REG
    cfg.Pwr_mgmt_clk tr).2
  let tr := (PIOS_MPU6000_SetReg B P (some dev) H.PIOS_MPU60X0_INT_CFG_REG
    cfg.interrupt_cfg tr).2
  let tr := (PIOS_MPU6000_SetReg B P (some dev) H.PIOS_MPU60X0_INT_EN_REG
    cfg.interrupt_en tr).2
  let s := if B.PIOS_MPU6000_ACCEL then
      PIOS_MPU6000_SetAccelRange H B P dev
        pios_mpu60x0_accel_range.PIOS_MPU60X0_ACCEL_8G tr
    else (dev, tr)
  let s := PIOS_MPU6000_SetLPF H B P s.1 cfg.default_filter s.2
  let tr := (PIOS_MPU6000_SetSampleRate rnd H B P s.1 cfg.default_samplerate s.2).2
  let s := PIOS_MPU6000_SetGyroRange H B P s.1
    pios_mpu60x0_range.PIOS_MPU60X0_SCALE_500_DEG tr
  let tr := (PIOS_MPU6000_SetReg B P (some s.1) H.PIOS_MPU60X0_USER_CTRL_REG
    cfg.User_ctl s.2).2
  let tr := (PIOS_MPU6000_SetReg B P (some s.1) H.PIOS_MPU60X0_PWR_MGMT_REG
    cfg.Pwr_mgmt_clk tr).2
  let tr := (PIOS_MPU6000_SetReg B P (some s.1) H.PIOS_MPU60X0_INT_CFG_REG
    cfg.interrupt_cfg tr).2
  let tr := (PIOS_MPU6000_SetReg B P (some s.1) H.PIOS_MPU60X0_INT_EN_REG
    cfg.interrupt_en tr).2
  (s.1, tr)

/-- The body of `PIOS_MPU6000_Config` when `PIOS_MPU6000_SIMPLE_INIT_SEQUENCE` is
not defined, up to and including the last register write; each polling loop
gets `fuel` iterations, and the result is `none` if one of them is still
running after that. -/
def Config_full_sequence (rnd : ℚ → ℚ) (H : pios_mpu60x0_hdr) (B : Build) (P : Platform)
    (cfg : pios_mpu60x0_cfg) (dev : mpu6000_dev) (fuel : Nat) (tr : List Event) :
    Option (mpu6000_dev × List Event) :=
  let tr := (PIOS_MPU6000_ClaimBus P (some dev) true tr).2
  let tr := tr ++ [Event.delay_ms 1]
  let tr := (PIOS_MPU6000_ReleaseBus B P (some dev) true tr).2
  let tr := tr ++ [Event.delay_ms 10]
  let tr := (PIOS_MPU6000_SetReg B P (some dev) H.PIOS_MPU60X0_PWR_MGMT_REG
    (0x80 ||| cfg.Pwr_mgmt_clk) tr).2
  match poll_until_clear B P (some dev) H.PIOS_MPU60X0_PWR_MGMT_REG 0x80 fuel tr with
  | none => none
  | some tr =>
    let tr := tr ++ [Event.delay_ms 25]
    let tr := (PIOS_MPU6000_SetReg B P (some dev) H.PIOS_MPU60X0_USER_CTRL_REG
      (0x80 ||| 0x01 ||| 0x02 ||| 0x04) tr).2
    match poll_until_clear B P (some dev) H.PIOS_MPU60X0_USER_CTRL_REG 0x07 fuel tr with
    | none => none
    | some tr => some (Config_full_sequence_tail rnd H B P cfg dev tr)

/-- `PIOS_MPU6000_Config(cfg)` on the non-null global handle `dev`: the handle
and the history when it returns, or `none` if a polling loop is still running
after `fuel` iterations. -/
def PIOS_MPU6000_Config (rnd : ℚ → ℚ) (H : pios_mpu60x0_hdr) (B : Build) (P : Platform)
    (cfg : pios_mpu60x0_cfg) (dev : mpu6000_dev) (fuel : Nat) (tr : List Event) :
    Option (mpu6000_dev × List Event) :=
  let r :=
    if B.PIOS_MPU6000_SIMPLE_INIT_SEQUENCE then
      some (Config_simple_sequence rnd H B P cfg dev tr)
    else
      Config_full_sequence rnd H B P cfg dev fuel tr
  match r with
  | none => none
  | some s => some ({ s.1 with configured := true }, s.2)

/-! ## Allocation and initialisation -/

/-- `PIOS_MPU6000_alloc()`.  `dev0` is the content of the fresh memory, `live`
the resources held before the call; the result is the handle (`none` for
`NULL`), the resources held after the call and the history. -/
def PIOS_MPU6000_alloc (B : Build) (A : Allocator) (dev0 : mpu6000_dev)
    (live : List resource) (tr : List Event) :
    Option mpu6000_dev × List resource × List Event :=
  let tr := tr ++ [Event.malloc]
  let ptr := A.PIOS_malloc tr
  if ptr = 0 then (none, live, tr)
  else
    let live := live ++ [resource.memory ptr]
    let dev := { dev0 with magic := PIOS_MPU6000_DEV_MAGIC }
    let dev := { dev with configured := false }
    let tr1 := if B.PIOS_MPU6000_ACCEL then
        tr ++ [Event.queue_create PIOS_MPU6000_MAX_QUEUESIZE]
      else tr
    let accel_queue := if B.PIOS_MPU6000_ACCEL then A.PIOS_Queue_Create tr1
      else dev.accel_queue
    if B.PIOS_MPU6000_ACCEL = true ∧ accel_queue = 0 then
      (none, live.erase (resource.memory ptr), tr1 ++ [Event.free ptr])
    else
      let live := if B.PIOS_MPU6000_ACCEL then live ++ [resource.queue accel_queue]
        else live
      let dev := { dev with accel_queue := accel_queue }
      let tr2 := tr1 ++ [Event.queue_create PIOS_MPU6000_MAX_QUEUESIZE]
      let gyro_queue := A.PIOS_Queue_Create tr2
      if gyro_queue = 0 then
        (none, live.erase (resource.memory ptr), tr2 ++ [Event.free ptr])
      else
        let live := live ++ [resource.queue gyro_queue]
        let dev := { dev with gyro_queue := gyro_queue }
        let tr3 := tr2 ++ [Event.semaphore_create]
        let data_ready_sema := A.PIOS_Semaphore_Create tr3
        if data_ready_sema = 0 then
          (none, live.erase (resource.memory ptr), tr3 ++ [Event.free ptr])
        else
          (some { dev with data_ready_sema := data_ready_sema },
            live ++ [resource.semaphore data_ready_sema], tr3)

/-- `PIOS_MPU6000_Init(spi_id, slave_num, cfg)`: the result, the global handle,
the resources held and the history when it returns; `none` if it does not
return (a polling loop of the configuration still running after `fuel`
iterations, or the failed `PIOS_Assert`, which halts). -/
def PIOS_MPU6000_Init (rnd : ℚ → ℚ) (H : pios_mpu60x0_hdr) (B : Build) (P : Platform)
    (A : Allocator) (spi_id slave_num : Nat) (cfg : pios_mpu60x0_cfg)
    (dev0 : mpu6000_dev) (fuel : Nat) (live : List resource) (tr : List Event) :
    Option (Int × Option mpu6000_dev × List resource × List Event) :=
  let a := PIOS_MPU6000_alloc B A dev0 live tr
  match a.1 with
  | none => some (-1, none, a.2.1, a.2.2)
  | some d =>
    let d := { d with spi_id := spi_id }
    let d := { d with slave_num := slave_num }
    let d := { d with cfg := cfg }
    let tr := a.2.2 ++ [Event.spi_set_clock d.spi_id MPU6000_SPI_LOW_SPEED]
    match PIOS_MPU6000_Config rnd H B P cfg d fuel tr with
    | none => none
    | some c =>
      let tr := c.2 ++ [Event.spi_set_clock c.1.spi_id (MPU6000_SPI_HIGH_SPEED B)]
      let tr := tr ++ [Event.thread_create]
      if A.PIOS_Thread_Create tr = 0 then none
      else
        let tr := tr ++ [Event.exti_init]
        let tr := if B.PIOS_MPU6000_ACCEL then
            tr ++ [Event.sensors_register_accel c.1.accel_queue]
          else tr
        some (0, some c.1, a.2.1, tr ++ [Event.sensors_register_gyro c.1.gyro_queue])

/-! ## Path loading (flight/Modules/PathPlanner/path_saving.c) -/

/-- A `WaypointData`, kept as the bytes of the struct (`waypoint.h` is not among
the sources). -/
abbrev WaypointData := List Nat

/-- The services `pathplanner_load_path` calls. -/
structure waypoint_services where
  /-- `WaypointHandle()`. -/
  WaypointHandle : Nat
  /-- `PIOS_FLASHFS_ObjLoad(pios_waypoints_settings_fs_id, obj_id, inst_id, ...)`:
  the status and the bytes it leaves in the buffer. -/
  PIOS_FLASHFS_ObjLoad : Nat → Nat → Int × WaypointData
  /-- `WaypointCreateInstance()`: the instance id it returns and the in-memory
  instances after the call, given the instances before it. -/
  WaypointCreateInstance : List WaypointData → Int × List WaypointData

/-- The `for` loop of `pathplanner_load_path` from index `i` on, with `fuel`
iterations: the value returned by the function and the in-memory instances, or
`none` if the loop is still running. -/
def load_path_loop (W : waypoint_services) (path_id num_current_waypoints : Nat) :
    Nat → Nat → List WaypointData → Option (Int × List WaypointData)
  | 0, _, _ => none
  | fuel + 1, i, instances =>
    let r := W.PIOS_FLASHFS_ObjLoad path_id i
    if r.1 = 0 then
      if i ≥ num_current_waypoints then
        let c := W.WaypointCreateInstance instances
        if c.1 = (i : Int) then
          load_path_loop W path_id num_current_waypoints fuel (i + 1) (c.2.set i r.2)
        else some (-1, c.2)
      else load_path_loop W path_id num_current_waypoints fuel (i + 1) instances
    else if r.1 = -3 then some (0, instances)
    else some (-2, instances)

/-- `pathplanner_load_path(path_id)` on the in-memory waypoint instances
`instances`. -/
def pathplanner_load_path (W : waypoint_services) (path_id : Nat) (fuel : Nat)
    (instances : List WaypointData) : Option (Int × List WaypointData) :=
  if W.WaypointHandle = 0 then some (-30, instances)
  else load_path_loop W path_id instances.length fuel 0 instances

/-! ## Notions used to state the properties -/

/-- The bytes handed to `PIOS_SPI_TransferByte` in a call history, in order. -/
def bytes_sent : List Event → List Nat
  | [] => []
  | Event.spi_transfer_byte _ b :: tr => b :: bytes_sent tr
  | _ :: tr => bytes_sent tr

/-- The divisor the specification prescribes for base frequency `F` and
requested rate `r`: `F / min(r, F)` rounded half up, minus one, clamped to
`[0, 255]`. -/
def spec_divisor (F r : ℕ) : Int :=
  max 0 (min 255 (⌊(F : ℚ) / ((min r F : ℕ) : ℚ) + 1 / 2⌋ - 1))

/-- The big-endian signed 16-bit value of a byte pair (each reduced to a byte). -/
def be_int16 (hi lo : Nat) : Int :=
  if 256 * (hi % 256) + lo % 256 < 32768 then ((256 * (hi % 256) + lo % 256 : Nat) : Int)
  else ((256 * (hi % 256) + lo % 256 : Nat) : Int) - 65536

/-- Scale factors of the specification, gyroscope. -/
def spec_gyro_scale : pios_mpu60x0_range → ℚ
  | .PIOS_MPU60X0_SCALE_250_DEG => 1 / 131
  | .PIOS_MPU60X0_SCALE_500_DEG => 1 / (655 / 10)
  | .PIOS_MPU60X0_SCALE_1000_DEG => 1 / (328 / 10)
  | .PIOS_MPU60X0_SCALE_2000_DEG => 1 / (164 / 10)

/-- Scale factors of the specification, accelerometer, for gravity `g`. -/
def spec_accel_scale (g : ℚ) : pios_mpu60x0_accel_range → ℚ
  | .PIOS_MPU60X0_ACCEL_2G => g / 16384
  | .PIOS_MPU60X0_ACCEL_4G => g / 8192
  | .PIOS_MPU60X0_ACCEL_8G => g / 4096
  | .PIOS_MPU60X0_ACCEL_16G => g / 2048

/-- The raw accelerometer axes (X, Y, Z) of a burst. -/
def raw_accel (rec_buf : Nat → Nat) : Fin 3 → Int :=
  ![be_int16 (rec_buf IDX_ACCEL_XOUT_H) (rec_buf IDX_ACCEL_XOUT_L),
    be_int16 (rec_buf IDX_ACCEL_YOUT_H) (rec_buf IDX_ACCEL_YOUT_L),
    be_int16 (rec_buf IDX_ACCEL_ZOUT_H) (rec_buf IDX_ACCEL_ZOUT_L)]

/-- The raw gyroscope axes (X, Y, Z) of a burst. -/
def raw_gyro (rec_buf : Nat → Nat) : Fin 3 → Int :=
  ![be_int16 (rec_buf IDX_GYRO_XOUT_H) (rec_buf IDX_GYRO_XOUT_L),
    be_int16 (rec_buf IDX_GYRO_YOUT_H) (rec_buf IDX_GYRO_YOUT_L),
    be_int16 (rec_buf IDX_GYRO_ZOUT_H) (rec_buf IDX_GYRO_ZOUT_L)]

/-- The number of `PIOS_Semaphore_Take` calls in a call history. -/
def takes : List Event → Nat
  | [] => 0
  | Event.sem_take _ :: tr => takes tr + 1
  | _ :: tr => takes tr

/-! ## Sample values -/

/-- A header with the register map of the MPU-6000 data sheet. -/
def sample_hdr : pios_mpu60x0_hdr :=
  { PIOS_MPU60X0_SMPLRT_DIV_REG := 0x19
    PIOS_MPU60X0_DLPF_CFG_REG := 0x1a
    PIOS_MPU60X0_GYRO_CFG_REG := 0x1b
    PIOS_MPU60X0_ACCEL_CFG_REG := 0x1c
    PIOS_MPU60X0_ACCEL_X_OUT_MSB := 0x3b
    PIOS_MPU60X0_WHOAMI := 0x75
    PIOS_MPU60X0_LOWPASS_256_HZ := 0
    GRAVITY := 9805 / 1000
    PIOS_MPU60X0_PWR_MGMT_REG := 0x6b
    PIOS_MPU60X0_USER_CTRL_REG := 0x6a
    PIOS_MPU60X0_INT_CFG_REG := 0x37
    PIOS_MPU60X0_INT_EN_REG := 0x38
    PIOS_MPU60X0_PWRMGMT_IMU_RST := 0x80
    PIOS_MPU60X0_USERCTL_GYRO_RST := 0x01
    gyro_range_value := fun r =>
      match r with
      | .PIOS_MPU60X0_SCALE_250_DEG => 0x00
      | .PIOS_MPU60X0_SCALE_500_DEG => 0x08
      | .PIOS_MPU60X0_SCALE_1000_DEG => 0x10
      | .PIOS_MPU60X0_SCALE_2000_DEG => 0x18
    accel_range_value := fun r =>
      match r with
      | .PIOS_MPU60X0_ACCEL_2G => 0x00
      | .PIOS_MPU60X0_ACCEL_4G => 0x08
      | .PIOS_MPU60X0_ACCEL_8G => 0x10
      | .PIOS_MPU60X0_ACCEL_16G => 0x18 }

/-- A build with the accelerometer channel and the default clock. -/
def sample_build : Build :=
  { PIOS_MPU6000_SPI_HIGH_SPEED := none
    PIOS_MPU6000_ACCEL := true
    PIOS_MPU6000_SIMPLE_INIT_SEQUENCE := true }

/-- A board configuration. -/
def sample_cfg : pios_mpu60x0_cfg :=
  { Pwr_mgmt_clk := 1
    User_ctl := 0x10
    interrupt_cfg := 0x10
    interrupt_en := 1
    default_filter := 0
    default_samplerate := 500
    orientation := pios_mpu60x0_orientation.PIOS_MPU60X0_TOP_0DEG }

/-- A valid handle. -/
def sample_dev : mpu6000_dev :=
  { spi_id := 1
    slave_num := 0
    gyro_range := pios_mpu60x0_range.PIOS_MPU60X0_SCALE_500_DEG
    gyro_queue := 2
    accel_range := pios_mpu60x0_accel_range.PIOS_MPU60X0_ACCEL_8G
    accel_queue := 1
    cfg := sample_cfg
    configured := true
    magic := PIOS_MPU6000_DEV_MAGIC
    filter := 0
    data_ready_sema := 3 }

/-- A burst: accelerometer (0, 0, 4096), temperature -512, gyroscope
(256, 1, 655). -/
def sample_burst : Nat → Nat :=
  fun i => [0, 0, 0, 0, 0, 0x10, 0x00, 0xfe, 0x00, 0x01, 0x00, 0x00, 0x01, 0x02, 0x8f].getD i 0

/-- A platform on which every call succeeds and every burst is `sample_burst`. -/
def sample_platform : Platform :=
  { PIOS_SPI_ClaimBus := fun _ => 0
    PIOS_SPI_ReleaseBus := fun _ => 0
    PIOS_SPI_TransferByte := fun _ => 0
    PIOS_SPI_TransferBlock := fun _ => (0, sample_burst)
    PIOS_Semaphore_Take := fun _ => true }

/-- A burst: accelerometer (4096, 0, 0), temperature 0, gyroscope (655, 0, 0). -/
def sample_burst_scale : Nat → Nat :=
  fun i => [0, 0x10, 0x00, 0, 0, 0, 0, 0, 0, 0x02, 0x8f, 0, 0, 0, 0].getD i 0

/-- A burst in which every accelerometer and gyroscope axis is -32768. -/
def sample_burst_min : Nat → Nat :=
  fun i => [0, 0x80, 0, 0x80, 0, 0x80, 0, 0, 0, 0x80, 0, 0x80, 0, 0x80, 0].getD i 0

/-- Contents of the local `accel_data` before its first assignment. -/
def sample_accel_data0 : pios_sensor_accel_data :=
  { x := 0, y := 0, z := 0, temperature := 0 }

/-- Contents of the local `gyro_data` before its first assignment. -/
def sample_gyro_data0 : pios_sensor_gyro_data :=
  { x := 0, y := 0, z := 0, temperature := 0 }

/-! ## Further notions and sample values -/

/-- A handle whose magic tag was altered. -/
def sample_dev_bad_magic : mpu6000_dev :=
  { sample_dev with magic := 0 }

/-- A handle whose bus id is 0. -/
def sample_dev_no_bus : mpu6000_dev :=
  { sample_dev with spi_id := 0 }

/-- The rate `PIOS_MPU6000_SetGyroRange` reports for a range. -/
def max_gyro_rate : pios_mpu60x0_range → Nat
  | .PIOS_MPU60X0_SCALE_250_DEG => 250
  | .PIOS_MPU60X0_SCALE_500_DEG => 500
  | .PIOS_MPU60X0_SCALE_1000_DEG => 1000
  | .PIOS_MPU60X0_SCALE_2000_DEG => 2000

/-- A build with the accelerometer channel and the long configuration sequence. -/
def sample_build_full : Build :=
  { PIOS_MPU6000_SPI_HIGH_SPEED := none
    PIOS_MPU6000_ACCEL := true
    PIOS_MPU6000_SIMPLE_INIT_SEQUENCE := false }

/-- A handle as `PIOS_MPU6000_Init` passes it to the configuration: valid, not
yet configured. -/
def sample_dev_fresh : mpu6000_dev :=
  { sample_dev with configured := false }

/-- The reply of `faulty_platform` to a byte transfer: 1 to every non-zero byte,
0 to a zero byte. -/
def faulty_reply : List Event → Int
  | [] => 0
  | [Event.spi_transfer_byte _ b] => if b = 0 then 0 else 1
  | [_] => 0
  | _ :: e :: tr => faulty_reply (e :: tr)

/-- A platform that grants the bus and answers 1 to every non-zero byte sent
(so every register write of the configuration fails on its address byte) and 0
to a zero byte (so every register read returns 0). -/
def faulty_platform : Platform :=
  { sample_platform with PIOS_SPI_TransferByte := faulty_reply }

/-- The bus calls of the two setters in the order the configuration makes them:
the write of `default_filter` to the filter register, then the write of the
divisor computed from `default_filter` and `default_samplerate` (as the
`uint16_t` the setter receives). -/
def lpf_then_samplerate (rnd : ℚ → ℚ) (H : pios_mpu60x0_hdr) (B : Build) (P : Platform)
    (cfg : pios_mpu60x0_cfg) (dev : mpu6000_dev) (tr0 : List Event) : List Event :=
  (PIOS_MPU6000_SetReg B P (some dev) H.PIOS_MPU60X0_SMPLRT_DIV_REG
    (sample_rate_divisor rnd H cfg.default_filter (cfg.default_samplerate % 65536)
      % 256).toNat
    (PIOS_MPU6000_SetReg B P (some dev) H.PIOS_MPU60X0_DLPF_CFG_REG cfg.default_filter
      tr0).2).2

/-- A handle with given bus id, slave number and magic tag (other fields as in
the sample handle). -/
def handle_with (spi_id slave_num magic : Nat) : mpu6000_dev :=
  { sample_dev with spi_id := spi_id, slave_num := slave_num, magic := magic }

/-- A register write on a handle with given bus id, slave number and magic tag. -/
def SetReg_with (B : Build) (P : Platform) (spi_id slave_num magic reg data : Nat)
    (tr : List Event) : Int × List Event :=
  PIOS_MPU6000_SetReg B P (some (handle_with spi_id slave_num magic)) reg data tr

/-- What `PIOS_MPU6000_Config` returns for the sample configuration on the sample
platform with the short sequence, in binary32. -/
def sample_config_result : mpu6000_dev × List Event :=
  ({ (Config_simple_sequence binary32 sample_hdr sample_build sample_platform sample_cfg
        sample_dev_fresh []).1 with configured := true },
    (Config_simple_sequence binary32 sample_hdr sample_build sample_platform sample_cfg
      sample_dev_fresh []).2)

/-- The number of `PIOS_Queue_Create` calls in a call history. -/
def queue_creates : List Event → Nat
  | [] => 0
  | Event.queue_create _ :: tr => queue_creates tr + 1
  | _ :: tr => queue_creates tr

/-- An allocator on which the second queue creation fails: memory is at 100,
the first queue at 200. -/
def allocator_second_queue_fails : Allocator :=
  { PIOS_malloc := fun _ => 100
    PIOS_Queue_Create := fun tr => if queue_creates tr = 1 then 200 else 0
    PIOS_Semaphore_Create := fun _ => 300
    PIOS_Thread_Create := fun _ => 400 }

/-- An allocator on which the semaphore creation fails: memory is at 100, the
queues at 200 and 201. -/
def allocator_semaphore_fails : Allocator :=
  { PIOS_malloc := fun _ => 100
    PIOS_Queue_Create := fun tr => 199 + queue_creates tr
    PIOS_Semaphore_Create := fun _ => 0
    PIOS_Thread_Create := fun _ => 400 }

/-- An allocator on which the first queue creation fails. -/
def allocator_first_queue_fails : Allocator :=
  { PIOS_malloc := fun _ => 100
    PIOS_Queue_Create := fun _ => 0
    PIOS_Semaphore_Create := fun _ => 300
    PIOS_Thread_Create := fun _ => 400 }

/-- Services with one stored path, id 7, of one waypoint `[1, 2, 3]`; creating
an instance appends an empty one and returns its index. -/
def sample_waypoint_services : waypoint_services :=
  { WaypointHandle := 1
    PIOS_FLASHFS_ObjLoad := fun obj_id inst_id =>
      if obj_id = 7 ∧ inst_id = 0 then (0, [1, 2, 3]) else (-3, [])
    WaypointCreateInstance := fun instances =>
      ((instances.length : Int), instances ++ [[]]) }

/-- A burst in which raw accelerometer axis `j` and raw gyroscope axis `j` are 1
and every other raw value is 0. -/
def unit_burst (j : Fin 3) : Nat → Nat :=
  fun i =>
    if i = ![IDX_ACCEL_XOUT_L, IDX_ACCEL_YOUT_L, IDX_ACCEL_ZOUT_L] j ∨
        i = ![IDX_GYRO_XOUT_L, IDX_GYRO_YOUT_L, IDX_GYRO_ZOUT_L] j then 1
    else 0

/-- The matrix of the gyroscope mapping of an orientation: entry `(i, j)` is
output axis `i` (x, y, z) for the burst whose raw axis `j` is 1. -/
def gyro_matrix (orientation : pios_mpu60x0_orientation) : Matrix (Fin 3) (Fin 3) ℚ :=
  Matrix.of fun i j =>
    ![(rotate_accel_gyro id orientation (unit_burst j) sample_accel_data0
          sample_gyro_data0).2.x,
      (rotate_accel_gyro id orientation (unit_burst j) sample_accel_data0
          sample_gyro_data0).2.y,
      (rotate_accel_gyro id orientation (unit_burst j) sample_accel_data0
          sample_gyro_data0).2.z] i

/-- The matrix of the accelerometer mapping of an orientation. -/
def accel_matrix (orientation : pios_mpu60x0_orientation) : Matrix (Fin 3) (Fin 3) ℚ :=
  Matrix.of fun i j =>
    ![(rotate_accel_gyro id orientation (unit_burst j) sample_accel_data0
          sample_gyro_data0).1.x,
      (rotate_accel_gyro id orientation (unit_burst j) sample_accel_data0
          sample_gyro_data0).1.y,
      (rotate_accel_gyro id orientation (unit_burst j) sample_accel_data0
          sample_gyro_data0).1.z] i

/-- The sample build without the accelerometer channel. -/
def sample_build_gyro_only : Build :=
  { sample_build with PIOS_MPU6000_ACCEL := false }

/-- The sample handle with the orientation bottom, 0 degrees. -/
def sample_dev_bottom : mpu6000_dev :=
  { sample_dev with
    cfg := { sample_cfg with
      orientation := pios_mpu60x0_orientation.PIOS_MPU60X0_BOTTOM_0DEG } }

/-- Some contents of the local `gyro_data` before its first assignment. -/
def sample_gyro_data_stale : pios_sensor_gyro_data :=
  { x := 131, y := 262, z := 393, temperature := 0 }

/-! ## Lemmas: binary32 rounding -/

theorem round_half_even_intCast (k : Int) : round_half_even (k : ℚ) = k := by
  simp [round_half_even]

theorem round_half_even_err (q : ℚ) : |(round_half_even q : ℚ) - q| ≤ 1 / 2 := by
  have h1 : (⌊q⌋ : ℚ) ≤ q := Int.floor_le q
  have h2 : q < ⌊q⌋ + 1 := Int.lt_floor_add_one q
  rw [abs_le]
  unfold round_half_even
  split_ifs with a b c
  · constructor <;> linarith
  · push_cast; constructor <;> linarith
  · push_neg at a b
    constructor <;> linarith
  · push_neg at a b
    push_cast; constructor <;> linarith

theorem binary32_of_pos (x : ℚ) (hx : 0 < x) :
    binary32 x = (round_half_even (x / (2 : ℚ) ^ (max (Int.log 2 x) (-126) - 23)) : ℚ) *
      (2 : ℚ) ^ (max (Int.log 2 x) (-126) - 23) := by
  have h0 : x ≠ 0 := ne_of_gt hx
  have h1 : ¬ x < 0 := not_lt.mpr hx.le
  simp [binary32, h0, h1, abs_of_pos hx]

theorem two_zpow_log_le (x : ℚ) (hx : 0 < x) : (2 : ℚ) ^ Int.log 2 x ≤ x := by
  have := Int.zpow_log_le_self (b := 2) (r := x) (by norm_num) hx
  simpa using this

/-- Relative error of binary32 rounding on `[1, ∞)`. -/
theorem binary32_err (x : ℚ) (hx : 1 ≤ x) : |binary32 x - x| ≤ x / 2 ^ 24 := by
  have hx0 : 0 < x := by linarith
  have he : (0 : Int) ≤ Int.log 2 x := by
    rw [Int.log_of_one_le_right 2 hx]; exact Int.natCast_nonneg _
  have hmax : max (Int.log 2 x) (-126) = Int.log 2 x := max_eq_left (by omega)
  rw [binary32_of_pos x hx0, hmax]
  set e := Int.log 2 x with hedef
  have hpow : (2 : ℚ) ^ e ≤ x := two_zpow_log_le x hx0
  have hulp : (2 : ℚ) ^ (e - 23) = (2 : ℚ) ^ e / 2 ^ 23 := by
    rw [zpow_sub₀ (by norm_num : (2 : ℚ) ≠ 0)]; norm_num
  have hpos : (0 : ℚ) < (2 : ℚ) ^ e := zpow_pos (by norm_num) e
  have hupos : (0 : ℚ) < (2 : ℚ) ^ (e - 23) := zpow_pos (by norm_num) _
  have herr := round_half_even_err (x / (2 : ℚ) ^ (e - 23))
  have key : (round_half_even (x / (2 : ℚ) ^ (e - 23)) : ℚ) * (2 : ℚ) ^ (e - 23) - x =
      ((round_half_even (x / (2 : ℚ) ^ (e - 23)) : ℚ) - x / (2 : ℚ) ^ (e - 23)) *
        (2 : ℚ) ^ (e - 23) := by
    field_simp
  rw [key, abs_mul, abs_of_pos hupos]
  calc |(round_half_even (x / (2 : ℚ) ^ (e - 23)) : ℚ) - x / (2 : ℚ) ^ (e - 23)| *
        (2 : ℚ) ^ (e - 23)
      ≤ 1 / 2 * (2 : ℚ) ^ (e - 23) := by
        exact mul_le_mul_of_nonneg_right herr hupos.le
    _ = (2 : ℚ) ^ e / 2 ^ 24 := by rw [hulp]; ring
    _ ≤ x / 2 ^ 24 := by
        apply div_le_div_of_nonneg_right hpow (by positivity)

/-- Half-integers below `2 ^ 23` are binary32 numbers. -/
theorem binary32_half (k : ℕ) (hk0 : 0 < k) (hk : k < 2 ^ 24) :
    binary32 ((k : ℚ) / 2) = (k : ℚ) / 2 := by
  have hx0 : (0 : ℚ) < (k : ℚ) / 2 := by positivity
  have hlo : (-1 : Int) ≤ Int.log 2 ((k : ℚ) / 2) := by
    rw [← Int.zpow_le_iff_le_log (by norm_num) hx0]
    have : (1 : ℚ) ≤ k := by exact_mod_cast hk0
    norm_num
    linarith
  have hhi : Int.log 2 ((k : ℚ) / 2) < 23 := by
    rw [← Int.lt_zpow_iff_log_lt (by norm_num) hx0]
    have : (k : ℚ) < 2 ^ 24 := by exact_mod_cast hk
    norm_num
    linarith
  have hmax : max (Int.log 2 ((k : ℚ) / 2)) (-126) = Int.log 2 ((k : ℚ) / 2) :=
    max_eq_left (by omega)
  rw [binary32_of_pos _ hx0, hmax]
  set e := Int.log 2 ((k : ℚ) / 2) with hedef
  obtain ⟨m, hm⟩ : ∃ m : ℕ, (m : Int) = 22 - e := ⟨(22 - e).toNat, by omega⟩
  have he : e - 23 = -((m : Int) + 1) := by omega
  have hdiv : (k : ℚ) / 2 / (2 : ℚ) ^ (e - 23) = (((k * 2 ^ m : ℕ) : Int) : ℚ) := by
    rw [he, zpow_neg, zpow_add₀ (by norm_num : (2 : ℚ) ≠ 0)]
    push_cast
    field_simp
    ring
  rw [hdiv, round_half_even_intCast, he, zpow_neg, zpow_add₀ (by norm_num : (2 : ℚ) ≠ 0)]
  push_cast
  field_simp
  ring

/-- Two binary32 roundings do not move `F / r + 1 / 2` across an integer. -/
theorem floor_binary32_div (F r : ℕ) (hr : 1 ≤ r) (hrF : r ≤ F) (hF : F ≤ 8000) :
    ⌊binary32 (binary32 ((F : ℚ) / r) + 1 / 2)⌋ = ⌊(F : ℚ) / r + 1 / 2⌋ ∧
      1 ≤ ⌊(F : ℚ) / r + 1 / 2⌋ := by
  have hr0 : (0 : ℚ) < r := by exact_mod_cast hr
  have hrF' : (r : ℚ) ≤ F := by exact_mod_cast hrF
  have hF' : (F : ℚ) ≤ 8000 := by exact_mod_cast hF
  have hq1 : (1 : ℚ) ≤ (F : ℚ) / r := by rw [le_div_iff₀ hr0]; linarith
  set q : ℚ := (F : ℚ) / r with hq
  set n : Int := ⌊q + 1 / 2⌋ with hn
  have hn1 : (1 : Int) ≤ n := by
    rw [hn, Int.le_floor]; push_cast; linarith
  refine ⟨?_, hn1⟩
  have hnle : (n : ℚ) ≤ q + 1 / 2 := Int.floor_le _
  have hnlt : q + 1 / 2 < n + 1 := Int.lt_floor_add_one _
  have hqr : q * r = F := by rw [hq]; field_simp
  by_cases hex : q + 1 / 2 = n
  · -- the quotient is a half-integer: both roundings are exact
    obtain ⟨k, hk⟩ : ∃ k : ℕ, (k : Int) = 2 * n - 1 := ⟨(2 * n - 1).toNat, by omega⟩
    have hkq : q = (k : ℚ) / 2 := by
      have : ((k : Int) : ℚ) = 2 * n - 1 := by rw [hk]; push_cast; ring
      have h' : (k : ℚ) = 2 * n - 1 := by exact_mod_cast this
      rw [h']; linarith
    have hnF : (n : ℚ) ≤ 8001 := by
      have : q ≤ 8000 := by
        rw [hq, div_le_iff₀ hr0]
        have : (1 : ℚ) ≤ r := by exact_mod_cast hr
        nlinarith
      linarith
    have hnF' : n ≤ 8001 := by exact_mod_cast hnF
    have hx1 : binary32 q = q := by
      rw [hkq]; exact binary32_half k (by omega) (by omega)
    obtain ⟨k2, hk2⟩ : ∃ k2 : ℕ, (k2 : Int) = 2 * n := ⟨(2 * n).toNat, by omega⟩
    have hk2q : (n : ℚ) = (k2 : ℚ) / 2 := by
      have : ((k2 : Int) : ℚ) = 2 * n := by rw [hk2]; push_cast; ring
      have h' : (k2 : ℚ) = 2 * n := by exact_mod_cast this
      rw [h']; ring
    rw [hx1, hex, hk2q, binary32_half k2 (by omega) (by omega), ← hk2q]
    exact Int.floor_intCast n
  · -- otherwise the quotient is at least 1 / (2 r) away from the next integers
    have hlt : (n : ℚ) < q + 1 / 2 := lt_of_le_of_ne hnle (Ne.symm hex)
    have h2r : (0 : ℚ) < 2 * r := by linarith
    have hN : (q + 1 / 2) * (2 * r) = ((2 * F + r : ℕ) : ℚ) := by
      push_cast; linear_combination 2 * hqr
    have hlo : (n : ℚ) * (2 * r) + 1 ≤ ((2 * F + r : ℕ) : ℚ) := by
      have h1 : (n : ℚ) * (2 * r) < ((2 * F + r : ℕ) : ℚ) := by
        rw [← hN]; exact mul_lt_mul_of_pos_right hlt h2r
      have h2 : n * (2 * (r : Int)) < ((2 * F + r : ℕ) : Int) := by exact_mod_cast h1
      have h3 : n * (2 * (r : Int)) + 1 ≤ ((2 * F + r : ℕ) : Int) := by omega
      exact_mod_cast h3
    have hhi : ((2 * F + r : ℕ) : ℚ) + 1 ≤ ((n : ℚ) + 1) * (2 * r) := by
      have h1 : ((2 * F + r : ℕ) : ℚ) < ((n : ℚ) + 1) * (2 * r) := by
        rw [← hN]; exact mul_lt_mul_of_pos_right hnlt h2r
      have h2 : ((2 * F + r : ℕ) : Int) < (n + 1) * (2 * (r : Int)) := by exact_mod_cast h1
      have h3 : ((2 * F + r : ℕ) : Int) + 1 ≤ (n + 1) * (2 * (r : Int)) := by omega
      exact_mod_cast h3
    -- u = 1 / (2 r)
    set u : ℚ := 1 / (2 * r) with hu
    have hu0 : 0 < u := by positivity
    have hur : u * (2 * r) = 1 := by rw [hu]; field_simp
    have hlo' : (n : ℚ) + u ≤ q + 1 / 2 := by
      have : ((n : ℚ) + u) * (2 * r) ≤ (q + 1 / 2) * (2 * r) := by
        rw [hN, add_mul, hur]; exact hlo
      exact le_of_mul_le_mul_right this h2r
    have hhi' : q + 1 / 2 ≤ (n : ℚ) + 1 - u := by
      have : (q + 1 / 2) * (2 * r) ≤ ((n : ℚ) + 1 - u) * (2 * r) := by
        rw [hN, sub_mul, hur]; linarith
      exact le_of_mul_le_mul_right this h2r
    have hq_u : q ≤ 16000 * u := by
      have : q * (2 * r) ≤ 16000 * u * (2 * r) := by
        rw [mul_assoc 16000, hur]
        have : q * (2 * r) = 2 * F := by linear_combination 2 * hqr
        linarith
      exact le_of_mul_le_mul_right this h2r
    have hu_lo : 1 / 16000 ≤ u := by
      rw [hu]
      exact one_div_le_one_div_of_le h2r (by linarith)
    have e1 := abs_le.mp (binary32_err q hq1)
    have hy1 : 1 ≤ binary32 q + 1 / 2 := by
      have : q / 2 ^ 24 ≤ q / 2 := by
        apply div_le_div_of_nonneg_left (by linarith) (by norm_num) (by norm_num)
      linarith [e1.1]
    have e2 := abs_le.mp (binary32_err (binary32 q + 1 / 2) hy1)
    have hd1 : q / 2 ^ 24 = q * (1 / 16777216) := by norm_num [div_eq_mul_inv]
    have hd2 : (binary32 q + 1 / 2) / 2 ^ 24 = (binary32 q + 1 / 2) * (1 / 16777216) := by
      norm_num [div_eq_mul_inv]
    rw [hd1] at e1
    rw [hd2] at e2
    rw [Int.floor_eq_iff]
    constructor
    · linarith [e1.1, e1.2, e2.1, e2.2]
    · linarith [e1.1, e1.2, e2.1, e2.2]

theorem binary32_natCast (n : ℕ) (h0 : 0 < n) (h : n < 2 ^ 23) : binary32 (n : ℚ) = n := by
  have h2 := binary32_half (2 * n) (by omega) (by omega)
  have e : (((2 * n : ℕ) : ℚ)) / 2 = n := by push_cast; ring
  rwa [e] at h2

theorem binary32_one_half : binary32 (1 / 2) = 1 / 2 := by
  simpa using binary32_half 1 (by norm_num) (by norm_num)

theorem clamp_eq (n : Int) :
    (if (if n - 1 < 0 then 0 else n - 1) > 0xff then (0xff : Int)
      else (if n - 1 < 0 then 0 else n - 1)) = max 0 (min 255 (n - 1)) := by
  split_ifs <;> omega

theorem sample_rate_divisor_core (rnd : ℚ → ℚ) (F r : ℕ) (h1 : 1 ≤ r) (h2 : r ≤ F)
    (h : ⌊rnd (rnd (rnd (F : ℚ) / rnd (r : ℚ)) + rnd (1 / 2))⌋ = ⌊(F : ℚ) / r + 1 / 2⌋) :
    float_to_int32 (rnd (rnd (rnd (F : ℚ) / rnd (r : ℚ)) + rnd (1 / 2))) =
      ⌊(F : ℚ) / r + 1 / 2⌋ := by
  have hr0 : (0 : ℚ) < r := by exact_mod_cast h1
  have hrF : (r : ℚ) ≤ F := by exact_mod_cast h2
  have hq1 : (1 : ℚ) ≤ (F : ℚ) / r := by rw [le_div_iff₀ hr0]; linarith
  have hn : (1 : Int) ≤ ⌊(F : ℚ) / r + 1 / 2⌋ := by
    rw [Int.le_floor]; push_cast; linarith
  have hx : (0 : ℚ) ≤ rnd (rnd (rnd (F : ℚ) / rnd (r : ℚ)) + rnd (1 / 2)) := by
    have := Int.floor_le (rnd (rnd (rnd (F : ℚ) / rnd (r : ℚ)) + rnd (1 / 2)))
    rw [h] at this
    have h1' : ((1 : Int) : ℚ) ≤ ⌊(F : ℚ) / r + 1 / 2⌋ := by exact_mod_cast hn
    push_cast at h1'
    linarith
  rw [float_to_int32, if_pos hx, h]

theorem sample_rate_divisor_eq (rnd : ℚ → ℚ) (H : pios_mpu60x0_hdr) (filter r : ℕ)
    (hr : 1 ≤ r)
    (h : ∀ F r' : ℕ, 1 ≤ r' → r' ≤ F → F ≤ 8000 →
      ⌊rnd (rnd (rnd (F : ℚ) / rnd (r' : ℚ)) + rnd (1 / 2))⌋ = ⌊(F : ℚ) / r' + 1 / 2⌋) :
    sample_rate_divisor rnd H filter r =
      spec_divisor (if filter = H.PIOS_MPU60X0_LOWPASS_256_HZ then 8000 else 1000) r := by
  have h8 : ¬ ((8000 : ℕ) = 0) := by decide
  have h1 : ¬ ((1000 : ℕ) = 0) := by decide
  have hr0 : ¬ (r = 0) := by omega
  unfold sample_rate_divisor spec_divisor
  by_cases hf : filter = H.PIOS_MPU60X0_LOWPASS_256_HZ
  · simp only [hf, ne_eq, not_true_eq_false, if_false, if_true]
    by_cases hgt : r > 8000
    · have hm : min r 8000 = 8000 := by omega
      simp only [hgt, if_true, hm, h8, if_false]
      rw [sample_rate_divisor_core rnd 8000 8000 (by norm_num) le_rfl
        (h 8000 8000 (by norm_num) le_rfl le_rfl)]
      exact clamp_eq _
    · have hm : min r 8000 = r := by omega
      simp only [hgt, if_false, hm, hr0]
      rw [sample_rate_divisor_core rnd 8000 r hr (by omega) (h 8000 r hr (by omega) le_rfl)]
      exact clamp_eq _
  · simp only [hf, ne_eq, not_false_eq_true, if_false, if_true]
    by_cases hgt : r > 1000
    · have hm : min r 1000 = 1000 := by omega
      simp only [hgt, if_true, hm, h1, if_false]
      rw [sample_rate_divisor_core rnd 1000 1000 (by norm_num) le_rfl
        (h 1000 1000 (by norm_num) le_rfl (by norm_num))]
      exact clamp_eq _
    · have hm : min r 1000 = r := by omega
      simp only [hgt, if_false, hm, hr0]
      rw [sample_rate_divisor_core rnd 1000 r hr (by omega)
        (h 1000 r hr (by omega) (by norm_num))]
      exact clamp_eq _

/-- With the rate 0 the divisor is 255, whatever the filter and the rounding. -/
theorem sample_rate_divisor_zero (rnd : ℚ → ℚ) (H : pios_mpu60x0_hdr) (filter : ℕ) :
    sample_rate_divisor rnd H filter 0 = 255 := by
  unfold sample_rate_divisor int32_of_float_inf
  by_cases hf : filter = H.PIOS_MPU60X0_LOWPASS_256_HZ <;> simp [hf]

theorem sample_rate_divisor_binary32 (H : pios_mpu60x0_hdr) (filter r : ℕ) (hr : 1 ≤ r) :
    sample_rate_divisor binary32 H filter r =
      spec_divisor (if filter = H.PIOS_MPU60X0_LOWPASS_256_HZ then 8000 else 1000) r := by
  apply sample_rate_divisor_eq binary32 H filter r hr
  intro F r' h1 h2 h3
  rw [binary32_natCast F (by omega) (by omega), binary32_natCast r' (by omega) (by omega),
    binary32_one_half]
  exact (floor_binary32_div F r' h1 h2 h3).1

theorem sample_rate_divisor_exact (H : pios_mpu60x0_hdr) (filter r : ℕ) (hr : 1 ≤ r) :
    sample_rate_divisor id H filter r =
      spec_divisor (if filter = H.PIOS_MPU60X0_LOWPASS_256_HZ then 8000 else 1000) r := by
  apply sample_rate_divisor_eq id H filter r hr
  intro F r' _ _ _
  rfl

theorem spec_divisor_range (F r : ℕ) : 0 ≤ spec_divisor F r ∧ spec_divisor F r ≤ 255 := by
  unfold spec_divisor
  constructor <;> omega

theorem spec_divisor_8000_500 : spec_divisor 8000 500 = 15 := by
  have h : ⌊((8000 : ℕ) : ℚ) / ((min 500 8000 : ℕ) : ℚ) + 1 / 2⌋ = 16 := by
    rw [Int.floor_eq_iff]; norm_num
  rw [spec_divisor, h]; decide

theorem spec_divisor_1000_1000 : spec_divisor 1000 1000 = 0 := by
  have h : ⌊((1000 : ℕ) : ℚ) / ((min 1000 1000 : ℕ) : ℚ) + 1 / 2⌋ = 1 := by
    rw [Int.floor_eq_iff]; norm_num
  rw [spec_divisor, h]; decide

theorem spec_divisor_1000_20000 : spec_divisor 1000 20000 = 0 := by
  have h : ⌊((1000 : ℕ) : ℚ) / ((min 20000 1000 : ℕ) : ℚ) + 1 / 2⌋ = 1 := by
    rw [Int.floor_eq_iff]; norm_num
  rw [spec_divisor, h]; decide

theorem binary32_neg (q : ℚ) : binary32 (-q) = -binary32 q := by
  rcases lt_trichotomy q 0 with h | h | h
  · have h1 : ¬ (-q = 0) := by intro h'; linarith
    have h2 : ¬ (-q < 0) := by linarith
    have h3 : ¬ (q = 0) := ne_of_lt h
    simp [binary32, h, h1, h2, h3]
  · simp [h, binary32]
  · have h1 : ¬ (-q = 0) := by intro h'; linarith
    have h2 : -q < 0 := by linarith
    have h3 : ¬ (q = 0) := ne_of_gt h
    have h4 : ¬ (q < 0) := not_lt.mpr h.le
    simp [binary32, h1, h2, h3, h4]

/-- Integers of magnitude below `2 ^ 23` are binary32 numbers. -/
theorem binary32_intCast (k : Int) (h1 : -8388608 < k) (h2 : k < 8388608) :
    binary32 (k : ℚ) = k := by
  rcases lt_trichotomy k 0 with h | h | h
  · obtain ⟨n, hn⟩ : ∃ n : ℕ, k = -(n : Int) := ⟨(-k).toNat, by omega⟩
    subst hn
    push_cast
    rw [binary32_neg, binary32_natCast n (by omega) (by omega)]
  · subst h
    simp [binary32]
  · obtain ⟨n, hn⟩ : ∃ n : ℕ, k = (n : Int) := ⟨k.toNat, by omega⟩
    subst hn
    exact_mod_cast binary32_natCast n (by omega) (by omega)

theorem be_int16_range (hi lo : Nat) : -32768 ≤ be_int16 hi lo ∧ be_int16 hi lo ≤ 32767 := by
  unfold be_int16
  split_ifs <;> omega

/-! ## Lemmas: decoding -/

theorem int16_of_bytes_eq (rec_buf : Nat → Nat) (hi lo : Nat) :
    int16_of_bytes rec_buf hi lo = be_int16 (rec_buf hi) (rec_buf lo) := by
  have hlo : rec_buf lo % 256 < 2 ^ 8 := by omega
  have h1 : (rec_buf hi % 256) <<< 8 ||| rec_buf lo % 256 =
      256 * (rec_buf hi % 256) + rec_buf lo % 256 := by
    rw [Nat.shiftLeft_eq, Nat.mul_comm]
    exact (Nat.mul_add_lt_is_or hlo (rec_buf hi % 256)).symm
  have h2 : (256 * (rec_buf hi % 256) + rec_buf lo % 256) % 65536 =
      256 * (rec_buf hi % 256) + rec_buf lo % 256 := by omega
  simp only [int16_of_bytes, be_int16, h1, h2]

theorem rnd_int16_of_bytes (rnd : ℚ → ℚ)
    (hrnd : ∀ k : Int, -32768 ≤ k → k ≤ 32768 → rnd (k : ℚ) = k)
    (b : Nat → Nat) (hi lo : Nat) :
    rnd ((int16_of_bytes b hi lo : Int) : ℚ) = be_int16 (b hi) (b lo) ∧
    rnd ((-(int16_of_bytes b hi lo) : Int) : ℚ) = -(be_int16 (b hi) (b lo) : ℚ) := by
  have hr := be_int16_range (b hi) (b lo)
  rw [int16_of_bytes_eq]
  constructor
  · exact hrnd _ (by omega) (by omega)
  · rw [hrnd _ (by omega) (by omega)]; push_cast; ring

/-! ## Lemmas: binary32 error bounds and values -/

/-- Absolute error of binary32 rounding below `2 ^ (k + 1)`. -/
theorem binary32_abs_err (x : ℚ) (k : Int) (hk : -126 ≤ k) (hx : |x| < (2 : ℚ) ^ (k + 1)) :
    |binary32 x - x| ≤ (2 : ℚ) ^ (k - 24) := by
  have hpow : (0 : ℚ) < (2 : ℚ) ^ (k - 24) := zpow_pos (by norm_num) _
  have pos : ∀ y : ℚ, 0 < y → y < (2 : ℚ) ^ (k + 1) → |binary32 y - y| ≤ (2 : ℚ) ^ (k - 24) := by
    intro y hy hy2
    have hlog : Int.log 2 y < k + 1 := (Int.lt_zpow_iff_log_lt (by norm_num) hy).mp hy2
    rw [binary32_of_pos y hy]
    set e := max (Int.log 2 y) (-126) with hedef
    have hek : e ≤ k := by rw [hedef]; exact max_le (by omega) hk
    have hupos : (0 : ℚ) < (2 : ℚ) ^ (e - 23) := zpow_pos (by norm_num) _
    have herr := round_half_even_err (y / (2 : ℚ) ^ (e - 23))
    have key : (round_half_even (y / (2 : ℚ) ^ (e - 23)) : ℚ) * (2 : ℚ) ^ (e - 23) - y =
        ((round_half_even (y / (2 : ℚ) ^ (e - 23)) : ℚ) - y / (2 : ℚ) ^ (e - 23)) *
          (2 : ℚ) ^ (e - 23) := by
      field_simp
    rw [key, abs_mul, abs_of_pos hupos]
    calc |(round_half_even (y / (2 : ℚ) ^ (e - 23)) : ℚ) - y / (2 : ℚ) ^ (e - 23)| *
          (2 : ℚ) ^ (e - 23)
        ≤ 1 / 2 * (2 : ℚ) ^ (e - 23) := mul_le_mul_of_nonneg_right herr hupos.le
      _ = (2 : ℚ) ^ (e - 24) := by
          have : e - 23 = (e - 24) + 1 := by ring
          rw [this, zpow_add₀ (by norm_num : (2 : ℚ) ≠ 0)]
          ring
      _ ≤ (2 : ℚ) ^ (k - 24) := zpow_le_zpow_right₀ (by norm_num) (by omega)
  rcases lt_trichotomy x 0 with h | h | h
  · have h1 := pos (-x) (by linarith) (by rwa [abs_of_neg h] at hx)
    rw [binary32_neg] at h1
    have : binary32 x - x = -(-binary32 x - -x) := by ring
    rw [this, abs_neg]
    exact h1
  · subst h
    simp [binary32]
    exact hpow.le
  · exact pos x h (by rwa [abs_of_pos h] at hx)

/-- Relative error of binary32 rounding in the normal range. -/
theorem binary32_rel_err (x : ℚ) (hx : (2 : ℚ) ^ (-126 : Int) ≤ |x|) :
    |binary32 x - x| ≤ |x| / 2 ^ 24 := by
  have hpos : 0 < |x| := lt_of_lt_of_le (zpow_pos (by norm_num) _) hx
  have hk : -126 ≤ Int.log 2 |x| := (Int.zpow_le_iff_le_log (by norm_num) hpos).mp hx
  have hlt : |x| < (2 : ℚ) ^ (Int.log 2 |x| + 1) := by
    have := Int.lt_zpow_succ_log_self (b := 2) (by norm_num) |x|
    simpa using this
  have h1 := binary32_abs_err x (Int.log 2 |x|) hk hlt
  have h2 : (2 : ℚ) ^ (Int.log 2 |x| - 24) = (2 : ℚ) ^ Int.log 2 |x| / 2 ^ 24 := by
    rw [zpow_sub₀ (by norm_num : (2 : ℚ) ≠ 0)]; norm_num
  rw [h2] at h1
  have h3 : (2 : ℚ) ^ Int.log 2 |x| ≤ |x| := two_zpow_log_le |x| hpos
  calc |binary32 x - x| ≤ (2 : ℚ) ^ Int.log 2 |x| / 2 ^ 24 := h1
    _ ≤ |x| / 2 ^ 24 := div_le_div_of_nonneg_right h3 (by positivity)

/-- A binary32 rounding is a multiplication by `1 + δ` with `|δ| ≤ 2 ^ (-24)`. -/
theorem binary32_factor (x : ℚ) (hx : x = 0 ∨ (2 : ℚ) ^ (-126 : Int) ≤ |x|) :
    ∃ δ : ℚ, |δ| ≤ 1 / 2 ^ 24 ∧ binary32 x = x * (1 + δ) := by
  rcases hx with h | h
  · subst h
    exact ⟨0, by norm_num, by simp [binary32]⟩
  · have hpos : 0 < |x| := lt_of_lt_of_le (zpow_pos (by norm_num) _) h
    have hx0 : x ≠ 0 := abs_pos.mp hpos
    refine ⟨(binary32 x - x) / x, ?_, by field_simp⟩
    rw [abs_div, div_le_iff₀ hpos]
    have := binary32_rel_err x h
    calc |binary32 x - x| ≤ |x| / 2 ^ 24 := this
      _ = 1 / 2 ^ 24 * |x| := by ring

theorem round_half_even_eq (q : ℚ) (m : Int) (h : |q - m| < 1 / 2) :
    round_half_even q = m := by
  rw [abs_lt] at h
  unfold round_half_even
  by_cases hq : (m : ℚ) ≤ q
  · have hf : ⌊q⌋ = m := by
      rw [Int.floor_eq_iff]; constructor <;> linarith [h.1, h.2]
    rw [hf, if_pos (by linarith [h.2])]
  · push_neg at hq
    have hf : ⌊q⌋ = m - 1 := by
      rw [Int.floor_eq_iff]; push_cast; constructor <;> linarith [h.1, h.2]
    rw [hf]
    push_cast
    rw [if_neg (by linarith [h.1]), if_pos (by linarith [h.1])]
    ring

/-- The binary32 value of a positive rational with known exponent `e` and
significand `m`. -/
theorem binary32_value (x : ℚ) (e m : Int) (hx : 0 < x) (he : -126 ≤ e)
    (hlo : (2 : ℚ) ^ e ≤ x) (hhi : x < (2 : ℚ) ^ (e + 1))
    (hm : |x / (2 : ℚ) ^ (e - 23) - m| < 1 / 2) :
    binary32 x = (m : ℚ) * (2 : ℚ) ^ (e - 23) := by
  have h1 : e ≤ Int.log 2 x := (Int.zpow_le_iff_le_log (by norm_num) hx).mp hlo
  have h2 : Int.log 2 x < e + 1 := (Int.lt_zpow_iff_log_lt (by norm_num) hx).mp hhi
  have h3 : Int.log 2 x = e := by omega
  have hmax : max (Int.log 2 x) (-126) = e := by rw [h3]; exact max_eq_left he
  rw [binary32_of_pos x hx, hmax, round_half_even_eq _ m hm]

theorem binary32_two_div_131 : binary32 (2 / 131) = 16393005 / 1073741824 := by
  rw [binary32_value (2 / 131) (-7) 16393005 (by norm_num) (by norm_num) (by norm_num)
    (by norm_num) (by norm_num [abs_lt])]
  norm_num

theorem binary32_scale_500 : binary32 (16393005 / 1073741824) = 16393005 / 1073741824 := by
  rw [binary32_value (16393005 / 1073741824) (-7) 16393005 (by norm_num) (by norm_num)
    (by norm_num) (by norm_num) (by norm_num [abs_lt])]
  norm_num

theorem binary32_655_scale_500 : binary32 (655 * (16393005 / 1073741824)) = 10 := by
  rw [binary32_value (655 * (16393005 / 1073741824)) 3 10485760 (by norm_num) (by norm_num)
    (by norm_num) (by norm_num) (by norm_num [abs_lt])]
  norm_num

theorem binary32_512_div_340 : binary32 (512 / 340) = 12632257 / 8388608 := by
  rw [binary32_value (512 / 340) 0 12632257 (by norm_num) (by norm_num) (by norm_num)
    (by norm_num) (by norm_num [abs_lt])]
  norm_num

theorem binary32_temperature_zero :
    binary32 (35 + 12632257 / 8388608) = 4784899 / 131072 := by
  rw [binary32_value (35 + 12632257 / 8388608) 5 9569798 (by norm_num) (by norm_num)
    (by norm_num) (by norm_num) (by norm_num [abs_lt])]
  norm_num

/-- The scale factor the driver uses for 500 deg/s, in binary32. -/
theorem GetGyroScale_binary32_500 (dev : mpu6000_dev)
    (h : dev.gyro_range = pios_mpu60x0_range.PIOS_MPU60X0_SCALE_500_DEG) :
    PIOS_MPU6000_GetGyroScale binary32 dev = 16393005 / 1073741824 := by
  have e1 : binary32 1 = 1 := by simpa using binary32_natCast 1 (by norm_num) (by norm_num)
  have e2 : binary32 (655 / 10) = 655 / 10 := by
    have := binary32_half 131 (by norm_num) (by norm_num)
    norm_num at this ⊢
    exact this
  simp only [PIOS_MPU6000_GetGyroScale, h, e1, e2]
  have e3 : (1 : ℚ) / (655 / 10) = 2 / 131 := by norm_num
  rw [e3, binary32_two_div_131]

theorem rounding_ratio (δ1 δ2 : ℚ) (h1 : |δ1| ≤ 1 / 2 ^ 24) (h2 : |δ2| ≤ 1 / 2 ^ 24) :
    |(1 + δ2) / (1 + δ1) - 1| ≤ 3 / 2 ^ 24 := by
  rw [abs_le] at h1 h2
  have hpos : 0 < 1 + δ1 := by norm_num at h1; linarith [h1.1]
  have e : (1 + δ2) / (1 + δ1) - 1 = (δ2 - δ1) / (1 + δ1) := by field_simp
  rw [e, abs_le]
  norm_num at h1 h2 ⊢
  constructor
  · rw [le_div_iff₀ hpos]; nlinarith [h1.1, h1.2, h2.1, h2.2]
  · rw [div_le_iff₀ hpos]; nlinarith [h1.1, h1.2, h2.1, h2.2]

theorem rounding_product (δ1 δ2 : ℚ) (h1 : |δ1| ≤ 1 / 2 ^ 24) (h2 : |δ2| ≤ 1 / 2 ^ 24) :
    |(1 + δ1) * (1 + δ2) - 1| ≤ 3 / 2 ^ 24 := by
  rw [abs_le] at h1 h2
  rw [abs_le]
  norm_num at h1 h2 ⊢
  constructor <;> nlinarith [h1.1, h1.2, h2.1, h2.2]

theorem rounding_third (ρ δ : ℚ) (h1 : |ρ - 1| ≤ 3 / 2 ^ 24) (h2 : |δ| ≤ 1 / 2 ^ 24) :
    |ρ * (1 + δ) - 1| ≤ 1 / 2 ^ 21 := by
  rw [abs_le] at h1 h2
  rw [abs_le]
  norm_num at h1 h2 ⊢
  constructor <;> nlinarith [h1.1, h1.2, h2.1, h2.2]

theorem two_zpow_neg_126_le : (2 : ℚ) ^ (-126 : Int) ≤ 1 / 2 ^ 21 := by
  rw [zpow_neg, ← one_div]
  apply one_div_le_one_div_of_le (by positivity)
  norm_cast

/-- The binary32 reciprocal of a binary32 constant between 1 and 256 is the
exact reciprocal times a factor within `3 / 2 ^ 24` of 1. -/
theorem binary32_recip (d : ℚ) (h1 : 1 ≤ d) (h2 : d ≤ 256) :
    ∃ ρ : ℚ, |ρ - 1| ≤ 3 / 2 ^ 24 ∧ binary32 (binary32 1 / binary32 d) = 1 / d * ρ := by
  have e1 : binary32 1 = 1 := by simpa using binary32_natCast 1 (by norm_num) (by norm_num)
  have hd0 : 0 < d := by linarith
  have hsmall := two_zpow_neg_126_le
  obtain ⟨δ1, hδ1, hb1⟩ := binary32_factor d (Or.inr (by
    rw [abs_of_pos hd0]; norm_num at hsmall ⊢; linarith))
  have hδ1' := abs_le.mp hδ1
  norm_num at hδ1'
  have hpos1 : 0 < 1 + δ1 := by linarith [hδ1'.1]
  have hdpos : 0 < d * (1 + δ1) := mul_pos hd0 hpos1
  have hdle : d * (1 + δ1) ≤ 512 := by nlinarith [hδ1'.2]
  obtain ⟨δ2, hδ2, hb2⟩ := binary32_factor (1 / (d * (1 + δ1))) (Or.inr (by
    rw [abs_of_pos (by positivity)]
    have : (1 : ℚ) / 512 ≤ 1 / (d * (1 + δ1)) := one_div_le_one_div_of_le hdpos hdle
    norm_num at hsmall this ⊢
    linarith))
  refine ⟨(1 + δ2) / (1 + δ1), rounding_ratio δ1 δ2 hδ1 hδ2, ?_⟩
  rw [e1, hb1, hb2]
  field_simp

/-- The binary32 quotient of a constant `g ≥ 1` by a natural number up to 16384,
as the exact quotient times a factor within `3 / 2 ^ 24` of 1. -/
theorem binary32_quot (g : ℚ) (D : ℕ) (h1 : 1 ≤ g) (hD1 : 0 < D) (hD2 : D ≤ 16384) :
    ∃ ρ : ℚ, |ρ - 1| ≤ 3 / 2 ^ 24 ∧ binary32 (binary32 g / binary32 (D : ℚ)) = g / D * ρ := by
  have e1 : binary32 (D : ℚ) = D := binary32_natCast D hD1 (by omega)
  have hg0 : 0 < g := by linarith
  have hD0 : (0 : ℚ) < D := by exact_mod_cast hD1
  have hDle : (D : ℚ) ≤ 16384 := by exact_mod_cast hD2
  have hsmall := two_zpow_neg_126_le
  obtain ⟨δ1, hδ1, hb1⟩ := binary32_factor g (Or.inr (by
    rw [abs_of_pos hg0]; norm_num at hsmall ⊢; linarith))
  have hδ1' := abs_le.mp hδ1
  norm_num at hδ1'
  have hpos1 : 0 < 1 + δ1 := by linarith [hδ1'.1]
  have hgpos : 0 < g * (1 + δ1) := mul_pos hg0 hpos1
  have hgge : 1 / 2 ≤ g * (1 + δ1) := by nlinarith [hδ1'.1]
  obtain ⟨δ2, hδ2, hb2⟩ := binary32_factor (g * (1 + δ1) / D) (Or.inr (by
    rw [abs_of_pos (by positivity)]
    have : (1 : ℚ) / 2 / 16384 ≤ g * (1 + δ1) / D := by
      calc (1 : ℚ) / 2 / 16384 ≤ g * (1 + δ1) / 16384 :=
            div_le_div_of_nonneg_right hgge (by norm_num)
        _ ≤ g * (1 + δ1) / D := div_le_div_of_nonneg_left hgpos.le hD0 hDle
    norm_num at hsmall this ⊢
    linarith))
  refine ⟨(1 + δ1) * (1 + δ2), rounding_product δ1 δ2 hδ1 hδ2, ?_⟩
  rw [e1, hb1, hb2]
  ring

/-- One scaled axis in binary32: an integer times a rounded scale factor, rounded. -/
theorem binary32_axis (k : Int) (s spec ρ : ℚ) (hs : s = spec * ρ)
    (hρ : |ρ - 1| ≤ 3 / 2 ^ 24) (hspec : 1 / 2 ^ 20 ≤ spec) :
    |binary32 ((k : ℚ) * s) - (k : ℚ) * spec| ≤ |(k : ℚ) * spec| / 2 ^ 21 := by
  have hsmall := two_zpow_neg_126_le
  have hρ' := abs_le.mp hρ
  norm_num at hρ'
  have hspec0 : 0 < spec := lt_of_lt_of_le (by positivity) hspec
  have hρ0 : 1 / 2 ≤ ρ := by linarith [hρ'.1]
  by_cases hk : k = 0
  · subst hk
    simp [binary32]
  · have hk1 : (1 : ℚ) ≤ |(k : ℚ)| := by
      have : (1 : Int) ≤ |k| := Int.one_le_abs hk
      exact_mod_cast this
    have hsρ : 1 / 2 ^ 21 ≤ spec * ρ := by
      have : spec * (1 / 2) ≤ spec * ρ := mul_le_mul_of_nonneg_left hρ0 hspec0.le
      norm_num at hspec this ⊢
      linarith
    have hsρ0 : 0 < spec * ρ := lt_of_lt_of_le (by positivity) hsρ
    obtain ⟨δ, hδ, hb⟩ := binary32_factor ((k : ℚ) * s) (Or.inr (by
      rw [hs, abs_mul, abs_of_pos hsρ0]
      calc (2 : ℚ) ^ (-126 : Int) ≤ 1 / 2 ^ 21 := hsmall
        _ ≤ spec * ρ := hsρ
        _ = 1 * (spec * ρ) := (one_mul _).symm
        _ ≤ |(k : ℚ)| * (spec * ρ) := mul_le_mul_of_nonneg_right hk1 hsρ0.le))
    have e : binary32 ((k : ℚ) * s) - (k : ℚ) * spec =
        ((k : ℚ) * spec) * (ρ * (1 + δ) - 1) := by
      rw [hb, hs]; ring
    rw [e, abs_mul, div_eq_mul_one_div]
    exact mul_le_mul_of_nonneg_left (rounding_third ρ δ hρ hδ) (abs_nonneg _)

theorem GetGyroScale_factor (dev : mpu6000_dev) :
    ∃ ρ : ℚ, |ρ - 1| ≤ 3 / 2 ^ 24 ∧
      PIOS_MPU6000_GetGyroScale binary32 dev = spec_gyro_scale dev.gyro_range * ρ := by
  cases hg : dev.gyro_range <;> simp only [PIOS_MPU6000_GetGyroScale, spec_gyro_scale, hg]
  · exact binary32_recip 131 (by norm_num) (by norm_num)
  · exact binary32_recip (655 / 10) (by norm_num) (by norm_num)
  · exact binary32_recip (328 / 10) (by norm_num) (by norm_num)
  · exact binary32_recip (164 / 10) (by norm_num) (by norm_num)

theorem GetAccelScale_factor (H : pios_mpu60x0_hdr) (dev : mpu6000_dev)
    (hg : 1 ≤ H.GRAVITY) :
    ∃ ρ : ℚ, |ρ - 1| ≤ 3 / 2 ^ 24 ∧
      PIOS_MPU6000_GetAccelScale binary32 H dev =
        spec_accel_scale H.GRAVITY dev.accel_range * ρ := by
  have h1 := binary32_quot H.GRAVITY 16384 hg (by norm_num) (by norm_num)
  have h2 := binary32_quot H.GRAVITY 8192 hg (by norm_num) (by norm_num)
  have h3 := binary32_quot H.GRAVITY 4096 hg (by norm_num) (by norm_num)
  have h4 := binary32_quot H.GRAVITY 2048 hg (by norm_num) (by norm_num)
  simp only [Nat.cast_ofNat] at h1 h2 h3 h4
  cases ha : dev.accel_range <;>
    simp only [PIOS_MPU6000_GetAccelScale, spec_accel_scale, ha]
  · exact h1
  · exact h2
  · exact h3
  · exact h4

theorem spec_gyro_scale_ge (r : pios_mpu60x0_range) : 1 / 2 ^ 20 ≤ spec_gyro_scale r := by
  cases r <;> simp only [spec_gyro_scale] <;> norm_num

theorem spec_accel_scale_ge (g : ℚ) (hg : 1 ≤ g) (r : pios_mpu60x0_accel_range) :
    1 / 2 ^ 20 ≤ spec_accel_scale g r := by
  cases r <;> simp only [spec_accel_scale] <;> norm_num <;> linarith

/-- The conversions of the raw 16-bit integers to float are exact in binary32. -/
theorem rotate_accel_gyro_binary32 (o : pios_mpu60x0_orientation) (b : Nat → Nat)
    (a0 : pios_sensor_accel_data) (g0 : pios_sensor_gyro_data) :
    rotate_accel_gyro binary32 o b a0 g0 = rotate_accel_gyro id o b a0 g0 := by
  have key1 : ∀ hi lo : Nat, binary32 ((int16_of_bytes b hi lo : Int) : ℚ) =
      ((int16_of_bytes b hi lo : Int) : ℚ) := by
    intro hi lo
    have hr := be_int16_range (b hi) (b lo)
    rw [int16_of_bytes_eq]
    exact binary32_intCast _ (by omega) (by omega)
  have key2 : ∀ hi lo : Nat, binary32 ((-(int16_of_bytes b hi lo) : Int) : ℚ) =
      ((-(int16_of_bytes b hi lo) : Int) : ℚ) := by
    intro hi lo
    have hr := be_int16_range (b hi) (b lo)
    rw [int16_of_bytes_eq]
    exact binary32_intCast _ (by omega) (by omega)
  cases o <;> simp only [rotate_accel_gyro, id, key1, key2]

/-- The values the orientation switch assigns are integers. -/
theorem rotate_accel_gyro_int (o : pios_mpu60x0_orientation) (b : Nat → Nat)
    (a0 : pios_sensor_accel_data) (g0 : pios_sensor_gyro_data) :
    (∃ k : Int, (rotate_accel_gyro id o b a0 g0).1.x = k) ∧
    (∃ k : Int, (rotate_accel_gyro id o b a0 g0).1.y = k) ∧
    (∃ k : Int, (rotate_accel_gyro id o b a0 g0).1.z = k) ∧
    (∃ k : Int, (rotate_accel_gyro id o b a0 g0).2.x = k) ∧
    (∃ k : Int, (rotate_accel_gyro id o b a0 g0).2.y = k) ∧
    (∃ k : Int, (rotate_accel_gyro id o b a0 g0).2.z = k) := by
  cases o <;> exact ⟨⟨_, rfl⟩, ⟨_, rfl⟩, ⟨_, rfl⟩, ⟨_, rfl⟩, ⟨_, rfl⟩, ⟨_, rfl⟩⟩

/-- A scaled axis in binary32, for a value the orientation switch assigned. -/
theorem binary32_scaled_axis (v s spec : ℚ) (hv : ∃ k : Int, v = k)
    (hs : ∃ ρ : ℚ, |ρ - 1| ≤ 3 / 2 ^ 24 ∧ s = spec * ρ) (hspec : 1 / 2 ^ 20 ≤ spec) :
    |binary32 (v * s) - v * spec| ≤ |v * spec| / 2 ^ 21 := by
  obtain ⟨k, rfl⟩ := hv
  obtain ⟨ρ, hρ, hs⟩ := hs
  exact binary32_axis k s spec ρ hs hρ hspec


/-- The temperature in binary32 is within `2 ^ (-16)` of the exact formula. -/
theorem task_temperature_binary32_err (b : Nat → Nat) :
    |task_temperature binary32 b -
        (35 + ((be_int16 (b IDX_TEMP_OUT_H) (b IDX_TEMP_OUT_L) : ℚ) + 512) / 340)| ≤
      1 / 2 ^ 16 := by
  have hr := be_int16_range (b IDX_TEMP_OUT_H) (b IDX_TEMP_OUT_L)
  simp only [task_temperature, int16_of_bytes_eq]
  generalize be_int16 (b IDX_TEMP_OUT_H) (b IDX_TEMP_OUT_L) = t at hr ⊢
  have e35 : binary32 35 = 35 := by
    simpa using binary32_natCast 35 (by norm_num) (by norm_num)
  have e512 : binary32 512 = 512 := by
    simpa using binary32_natCast 512 (by norm_num) (by norm_num)
  have e340 : binary32 340 = 340 := by
    simpa using binary32_natCast 340 (by norm_num) (by norm_num)
  have et : binary32 (t : ℚ) = t := binary32_intCast t (by omega) (by omega)
  have es : binary32 ((t : ℚ) + 512) = (t : ℚ) + 512 := by
    have := binary32_intCast (t + 512) (by omega) (by omega)
    push_cast at this
    exact this
  rw [e35, e512, e340, et, es]
  have ht1 : (-32768 : ℚ) ≤ t := by exact_mod_cast hr.1
  have ht2 : (t : ℚ) ≤ 32767 := by exact_mod_cast hr.2
  set q : ℚ := ((t : ℚ) + 512) / 340 with hq
  have hq1 : -98 ≤ q := by rw [hq, le_div_iff₀ (by norm_num)]; linarith
  have hq2 : q ≤ 98 := by rw [hq, div_le_iff₀ (by norm_num)]; linarith
  have a1 := binary32_abs_err q 6 (by norm_num) (by
    rw [abs_lt]; norm_num; constructor <;> linarith)
  norm_num at a1
  have a1' := abs_le.mp a1
  have a2 := binary32_abs_err (35 + binary32 q) 7 (by norm_num) (by
    rw [abs_lt]; norm_num; constructor <;> linarith [a1'.1, a1'.2])
  norm_num at a2
  have a2' := abs_le.mp a2
  rw [abs_le]
  norm_num
  constructor <;> linarith [a1'.1, a1'.2, a2'.1, a2'.2]

/-- The temperature the driver computes in binary32 from `t = 0`. -/
theorem task_temperature_binary32_zero :
    task_temperature binary32 (fun _ => 0) = 4784899 / 131072 := by
  have h : int16_of_bytes (fun _ => 0) IDX_TEMP_OUT_H IDX_TEMP_OUT_L = 0 := by decide
  have e35 : binary32 35 = 35 := by
    simpa using binary32_natCast 35 (by norm_num) (by norm_num)
  have e512 : binary32 512 = 512 := by
    simpa using binary32_natCast 512 (by norm_num) (by norm_num)
  have e340 : binary32 340 = 340 := by
    simpa using binary32_natCast 340 (by norm_num) (by norm_num)
  have e0 : binary32 0 = 0 := by simp [binary32]
  simp only [task_temperature, h, Int.cast_zero, e0, e35, e512, e340, zero_add]
  rw [binary32_512_div_340, binary32_temperature_zero]

/-! ## Lemmas: bus protocol and register access -/

theorem land_7f_byte (reg : Nat) : (0x7f &&& reg % 256) % 256 = reg &&& 0x7f := by
  have h1 : ∀ x : Nat, x &&& 0x7f = x % 128 := fun x => Nat.and_pow_two_sub_one_eq_mod x 7
  rw [Nat.and_comm, h1, h1]
  omega

theorem ClaimBus_of_invalid (P : Platform) (dev : Option mpu6000_dev) (l : Bool)
    (tr : List Event) (h : PIOS_MPU6000_Validate dev ≠ 0) :
    PIOS_MPU6000_ClaimBus P dev l tr = (-1, tr) := by
  simp [PIOS_MPU6000_ClaimBus, h]

theorem ClaimBus_of_valid (P : Platform) (d : mpu6000_dev) (l : Bool)
    (tr : List Event) (h : PIOS_MPU6000_Validate (some d) = 0) :
    PIOS_MPU6000_ClaimBus P (some d) l tr =
      if P.PIOS_SPI_ClaimBus (tr ++ [Event.spi_claim d.spi_id]) ≠ 0 then
        (-2, tr ++ [Event.spi_claim d.spi_id])
      else
        (0, tr ++ [Event.spi_claim d.spi_id] ++
          (if l then [Event.spi_set_clock d.spi_id MPU6000_SPI_LOW_SPEED] else []) ++
          [Event.spi_rc_pin d.spi_id d.slave_num 0]) := by
  cases l <;> simp [PIOS_MPU6000_ClaimBus, h]

theorem ReleaseBus_of_valid (B : Build) (P : Platform) (d : mpu6000_dev) (l : Bool)
    (tr : List Event) (h : PIOS_MPU6000_Validate (some d) = 0) :
    (PIOS_MPU6000_ReleaseBus B P (some d) l tr).2 =
      tr ++ [Event.spi_rc_pin d.spi_id d.slave_num 1] ++
        (if l then [Event.spi_set_clock d.spi_id (MPU6000_SPI_HIGH_SPEED B)] else []) ++
        [Event.spi_release d.spi_id] := by
  cases l <;> simp [PIOS_MPU6000_ReleaseBus, h]

theorem ClaimBus_code (P : Platform) (dev : Option mpu6000_dev) (l : Bool) (tr : List Event) :
    (PIOS_MPU6000_ClaimBus P dev l tr).1 = 0 ↔
      ∃ d, dev = some d ∧ PIOS_MPU6000_Validate (some d) = 0 ∧
        P.PIOS_SPI_ClaimBus (tr ++ [Event.spi_claim d.spi_id]) = 0 := by
  cases dev with
  | none => simp [PIOS_MPU6000_ClaimBus, PIOS_MPU6000_Validate]
  | some d =>
    by_cases hv : PIOS_MPU6000_Validate (some d) = 0
    · rw [ClaimBus_of_valid P d l tr hv]
      by_cases hc : P.PIOS_SPI_ClaimBus (tr ++ [Event.spi_claim d.spi_id]) = 0 <;> simp [hv, hc]
    · rw [ClaimBus_of_invalid P (some d) l tr hv]
      simp [hv]

theorem SetReg_of_valid (B : Build) (P : Platform) (d : mpu6000_dev) (reg data : Nat)
    (tr : List Event) (hv : PIOS_MPU6000_Validate (some d) = 0) :
    PIOS_MPU6000_SetReg B P (some d) reg data tr =
      if P.PIOS_SPI_ClaimBus (tr ++ [Event.spi_claim d.spi_id]) ≠ 0 then
        (-1, tr ++ [Event.spi_claim d.spi_id])
      else if P.PIOS_SPI_TransferByte (tr ++ [Event.spi_claim d.spi_id,
          Event.spi_set_clock d.spi_id MPU6000_SPI_LOW_SPEED,
          Event.spi_rc_pin d.spi_id d.slave_num 0,
          Event.spi_transfer_byte d.spi_id (reg &&& 0x7f)]) ≠ 0 then
        (-2, tr ++ [Event.spi_claim d.spi_id,
          Event.spi_set_clock d.spi_id MPU6000_SPI_LOW_SPEED,
          Event.spi_rc_pin d.spi_id d.slave_num 0,
          Event.spi_transfer_byte d.spi_id (reg &&& 0x7f),
          Event.spi_rc_pin d.spi_id d.slave_num 1,
          Event.spi_set_clock d.spi_id (MPU6000_SPI_HIGH_SPEED B),
          Event.spi_release d.spi_id])
      else
        (if P.PIOS_SPI_TransferByte (tr ++ [Event.spi_claim d.spi_id,
            Event.spi_set_clock d.spi_id MPU6000_SPI_LOW_SPEED,
            Event.spi_rc_pin d.spi_id d.slave_num 0,
            Event.spi_transfer_byte d.spi_id (reg &&& 0x7f),
            Event.spi_transfer_byte d.spi_id (data % 256)]) ≠ 0 then -3 else 0,
          tr ++ [Event.spi_claim d.spi_id,
            Event.spi_set_clock d.spi_id MPU6000_SPI_LOW_SPEED,
            Event.spi_rc_pin d.spi_id d.slave_num 0,
            Event.spi_transfer_byte d.spi_id (reg &&& 0x7f),
            Event.spi_transfer_byte d.spi_id (data % 256),
            Event.spi_rc_pin d.spi_id d.slave_num 1,
            Event.spi_set_clock d.spi_id (MPU6000_SPI_HIGH_SPEED B),
            Event.spi_release d.spi_id]) := by
  have hb := land_7f_byte reg
  simp only [PIOS_MPU6000_SetReg, ClaimBus_of_valid P d true tr hv,
    ReleaseBus_of_valid B P d true _ hv, hb]
  by_cases hc : P.PIOS_SPI_ClaimBus (tr ++ [Event.spi_claim d.spi_id]) = 0
  · simp only [hc, ne_eq, not_true_eq_false, if_false, if_true, List.append_assoc,
      List.singleton_append, List.cons_append, List.nil_append]
    split_ifs <;> rfl
  · simp [hc]

theorem GetReg_of_valid (B : Build) (P : Platform) (d : mpu6000_dev) (reg : Nat)
    (tr : List Event) (hv : PIOS_MPU6000_Validate (some d) = 0) :
    PIOS_MPU6000_GetReg B P (some d) reg tr =
      if P.PIOS_SPI_ClaimBus (tr ++ [Event.spi_claim d.spi_id]) ≠ 0 then
        (-1, tr ++ [Event.spi_claim d.spi_id])
      else
        (P.PIOS_SPI_TransferByte (tr ++ [Event.spi_claim d.spi_id,
            Event.spi_set_clock d.spi_id MPU6000_SPI_LOW_SPEED,
            Event.spi_rc_pin d.spi_id d.slave_num 0,
            Event.spi_transfer_byte d.spi_id ((0x80 ||| reg % 256) % 256),
            Event.spi_transfer_byte d.spi_id 0]) % 256,
          tr ++ [Event.spi_claim d.spi_id,
            Event.spi_set_clock d.spi_id MPU6000_SPI_LOW_SPEED,
            Event.spi_rc_pin d.spi_id d.slave_num 0,
            Event.spi_transfer_byte d.spi_id ((0x80 ||| reg % 256) % 256),
            Event.spi_transfer_byte d.spi_id 0,
            Event.spi_rc_pin d.spi_id d.slave_num 1,
            Event.spi_set_clock d.spi_id (MPU6000_SPI_HIGH_SPEED B),
            Event.spi_release d.spi_id]) := by
  simp only [PIOS_MPU6000_GetReg, ClaimBus_of_valid P d true tr hv,
    ReleaseBus_of_valid B P d true _ hv]
  by_cases hc : P.PIOS_SPI_ClaimBus (tr ++ [Event.spi_claim d.spi_id]) = 0
  · simp [hc]
  · simp [hc]

theorem SetReg_of_invalid (B : Build) (P : Platform) (dev : Option mpu6000_dev)
    (reg data : Nat) (tr : List Event) (hv : PIOS_MPU6000_Validate dev ≠ 0) :
    PIOS_MPU6000_SetReg B P dev reg data tr = (-1, tr) := by
  simp [PIOS_MPU6000_SetReg, ClaimBus_of_invalid P dev true tr hv]

theorem GetReg_of_invalid (B : Build) (P : Platform) (dev : Option mpu6000_dev)
    (reg : Nat) (tr : List Event) (hv : PIOS_MPU6000_Validate dev ≠ 0) :
    PIOS_MPU6000_GetReg B P dev reg tr = (-1, tr) := by
  simp [PIOS_MPU6000_GetReg, ClaimBus_of_invalid P dev true tr hv]

/-! ## Lemmas: acquisition task -/

theorem takes_append (l1 l2 : List Event) : takes (l1 ++ l2) = takes l1 + takes l2 := by
  induction l1 with
  | nil => simp [takes]
  | cons e l ih =>
    cases e <;> simp [takes, ih]
    omega

theorem Task_body_of_valid (rnd : ℚ → ℚ) (H : pios_mpu60x0_hdr) (B : Build) (P : Platform)
    (dev : mpu6000_dev) (accel_data0 : pios_sensor_accel_data)
    (gyro_data0 : pios_sensor_gyro_data) (tr : List Event)
    (hv : PIOS_MPU6000_Validate (some dev) = 0) :
    PIOS_MPU6000_Task_body rnd H B P dev accel_data0 gyro_data0 tr =
      if P.PIOS_Semaphore_Take (tr ++ [Event.sem_take dev.data_ready_sema]) ≠ true then
        (loop_ctl.next, tr ++ [Event.sem_take dev.data_ready_sema])
      else if P.PIOS_SPI_ClaimBus (tr ++ [Event.sem_take dev.data_ready_sema,
          Event.spi_claim dev.spi_id]) ≠ 0 then
        (loop_ctl.next, tr ++ [Event.sem_take dev.data_ready_sema, Event.spi_claim dev.spi_id])
      else if (P.PIOS_SPI_TransferBlock (tr ++ [Event.sem_take dev.data_ready_sema,
          Event.spi_claim dev.spi_id, Event.spi_rc_pin dev.spi_id dev.slave_num 0,
          Event.spi_transfer_block dev.spi_id (mpu6000_send_buf H) BUFFER_SIZE])).1 < 0 then
        (loop_ctl.next, tr ++ [Event.sem_take dev.data_ready_sema,
          Event.spi_claim dev.spi_id, Event.spi_rc_pin dev.spi_id dev.slave_num 0,
          Event.spi_transfer_block dev.spi_id (mpu6000_send_buf H) BUFFER_SIZE,
          Event.spi_rc_pin dev.spi_id dev.slave_num 1, Event.spi_release dev.spi_id])
      else if B.PIOS_MPU6000_ACCEL = true then
        (loop_ctl.next, tr ++ [Event.sem_take dev.data_ready_sema,
          Event.spi_claim dev.spi_id, Event.spi_rc_pin dev.spi_id dev.slave_num 0,
          Event.spi_transfer_block dev.spi_id (mpu6000_send_buf H) BUFFER_SIZE,
          Event.spi_rc_pin dev.spi_id dev.slave_num 1, Event.spi_release dev.spi_id,
          Event.queue_send_accel dev.accel_queue
            (task_samples_accel rnd H dev (P.PIOS_SPI_TransferBlock (tr ++
              [Event.sem_take dev.data_ready_sema,
                Event.spi_claim dev.spi_id, Event.spi_rc_pin dev.spi_id dev.slave_num 0,
                Event.spi_transfer_block dev.spi_id (mpu6000_send_buf H) BUFFER_SIZE])).2
              accel_data0 gyro_data0).1 0,
          Event.queue_send_gyro dev.gyro_queue
            (task_samples_accel rnd H dev (P.PIOS_SPI_TransferBlock (tr ++
              [Event.sem_take dev.data_ready_sema,
                Event.spi_claim dev.spi_id, Event.spi_rc_pin dev.spi_id dev.slave_num 0,
                Event.spi_transfer_block dev.spi_id (mpu6000_send_buf H) BUFFER_SIZE])).2
              accel_data0 gyro_data0).2 0])
      else
        (loop_ctl.next, tr ++ [Event.sem_take dev.data_ready_sema,
          Event.spi_claim dev.spi_id, Event.spi_rc_pin dev.spi_id dev.slave_num 0,
          Event.spi_transfer_block dev.spi_id (mpu6000_send_buf H) BUFFER_SIZE,
          Event.spi_rc_pin dev.spi_id dev.slave_num 1, Event.spi_release dev.spi_id,
          Event.queue_send_gyro dev.gyro_queue
            (task_sample_gyro rnd dev (P.PIOS_SPI_TransferBlock (tr ++
              [Event.sem_take dev.data_ready_sema,
                Event.spi_claim dev.spi_id, Event.spi_rc_pin dev.spi_id dev.slave_num 0,
                Event.spi_transfer_block dev.spi_id (mpu6000_send_buf H) BUFFER_SIZE])).2
              gyro_data0) 0]) := by
  simp only [PIOS_MPU6000_Task_body, ClaimBus_of_valid P dev false _ hv,
    ReleaseBus_of_valid B P dev false _ hv]
  by_cases hw : P.PIOS_Semaphore_Take (tr ++ [Event.sem_take dev.data_ready_sema]) = true
  · by_cases hc : P.PIOS_SPI_ClaimBus (tr ++ [Event.sem_take dev.data_ready_sema,
        Event.spi_claim dev.spi_id]) = 0
    · simp only [hw, List.append_assoc, List.singleton_append, List.cons_append,
        List.nil_append, hc, ne_eq, not_true_eq_false, if_false, Bool.false_eq_true]
    · simp [hw, hc]
  · simp [hw]

theorem Task_body_of_invalid (rnd : ℚ → ℚ) (H : pios_mpu60x0_hdr) (B : Build) (P : Platform)
    (dev : mpu6000_dev) (accel_data0 : pios_sensor_accel_data)
    (gyro_data0 : pios_sensor_gyro_data) (tr : List Event)
    (hv : PIOS_MPU6000_Validate (some dev) ≠ 0) :
    PIOS_MPU6000_Task_body rnd H B P dev accel_data0 gyro_data0 tr =
      (loop_ctl.next, tr ++ [Event.sem_take dev.data_ready_sema]) := by
  simp [PIOS_MPU6000_Task_body, ClaimBus_of_invalid P (some dev) false _ hv]

theorem Task_body_next (rnd : ℚ → ℚ) (H : pios_mpu60x0_hdr) (B : Build) (P : Platform)
    (dev : mpu6000_dev) (accel_data0 : pios_sensor_accel_data)
    (gyro_data0 : pios_sensor_gyro_data) (tr : List Event) :
    (PIOS_MPU6000_Task_body rnd H B P dev accel_data0 gyro_data0 tr).1 = loop_ctl.next ∧
    takes (PIOS_MPU6000_Task_body rnd H B P dev accel_data0 gyro_data0 tr).2 =
      takes tr + 1 := by
  by_cases hv : PIOS_MPU6000_Validate (some dev) = 0
  · rw [Task_body_of_valid rnd H B P dev accel_data0 gyro_data0 tr hv]
    split_ifs <;> simp [takes_append, takes]
  · rw [Task_body_of_invalid rnd H B P dev accel_data0 gyro_data0 tr hv]
    simp [takes_append, takes]

theorem Task_runs (rnd : ℚ → ℚ) (H : pios_mpu60x0_hdr) (B : Build) (P : Platform)
    (dev : mpu6000_dev) (accel_data0 : pios_sensor_accel_data)
    (gyro_data0 : pios_sensor_gyro_data) (n : Nat) :
    ∀ tr : List Event,
      (PIOS_MPU6000_Task rnd H B P dev accel_data0 gyro_data0 n tr).1 = loop_ctl.next ∧
      takes (PIOS_MPU6000_Task rnd H B P dev accel_data0 gyro_data0 n tr).2 =
        takes tr + n := by
  induction n with
  | zero => intro tr; simp [PIOS_MPU6000_Task]
  | succ n ih =>
    intro tr
    have hb := Task_body_next rnd H B P dev accel_data0 gyro_data0 tr
    rw [PIOS_MPU6000_Task]
    rcases hbody : PIOS_MPU6000_Task_body rnd H B P dev accel_data0 gyro_data0 tr with ⟨c, tr1⟩
    rw [hbody] at hb
    simp only at hb
    obtain ⟨hc, ht⟩ := hb
    subst hc
    simp only
    have := ih tr1
    rw [ht] at this
    exact ⟨this.1, by omega⟩

/-! ## Lemmas: configuration -/

theorem ReleaseBus_of_invalid (B : Build) (P : Platform) (dev : Option mpu6000_dev)
    (l : Bool) (tr : List Event) (h : PIOS_MPU6000_Validate dev ≠ 0) :
    PIOS_MPU6000_ReleaseBus B P dev l tr = (-1, tr) := by
  simp [PIOS_MPU6000_ReleaseBus, h]

theorem faulty_reply_append (tr : List Event) (id b : Nat) :
    faulty_reply (tr ++ [Event.spi_transfer_byte id b]) = if b = 0 then 0 else 1 := by
  induction tr with
  | nil => simp [faulty_reply]
  | cons e tr ih =>
    cases tr with
    | nil => cases e <;> simp [faulty_reply]
    | cons e2 tr2 =>
      simp only [List.cons_append] at ih ⊢
      rw [faulty_reply]
      exact ih

theorem poll_until_clear_one (B : Build) (P : Platform) (d : mpu6000_dev) (reg mask : Nat)
    (fuel : Nat) (tr : List Event) (hv : PIOS_MPU6000_Validate (some d) = 0)
    (hc : ∀ t, P.PIOS_SPI_ClaimBus t = 0)
    (h0 : ∀ t id, P.PIOS_SPI_TransferByte (t ++ [Event.spi_transfer_byte id 0]) = 0) :
    poll_until_clear B P (some d) reg mask (fuel + 1) tr =
      some (PIOS_MPU6000_GetReg B P (some d) reg (tr ++ [Event.delay_ms 5])).2 := by
  have h : (PIOS_MPU6000_GetReg B P (some d) reg (tr ++ [Event.delay_ms 5])).1 = 0 := by
    rw [GetReg_of_valid B P d reg _ hv]
    simp only [hc, ne_eq, not_true_eq_false, if_false]
    have := h0 (tr ++ [Event.delay_ms 5] ++ [Event.spi_claim d.spi_id,
            Event.spi_set_clock d.spi_id MPU6000_SPI_LOW_SPEED,
            Event.spi_rc_pin d.spi_id d.slave_num 0,
            Event.spi_transfer_byte d.spi_id ((0x80 ||| reg % 256) % 256)]) d.spi_id
    simp only [List.append_assoc, List.singleton_append, List.cons_append,
      List.nil_append] at this ⊢
    rw [this]; rfl
  simp [poll_until_clear, h, int32_and]

theorem Config_full_sequence_returns (rnd : ℚ → ℚ) (H : pios_mpu60x0_hdr) (B : Build)
    (P : Platform) (cfg : pios_mpu60x0_cfg) (d : mpu6000_dev) (fuel : Nat) (tr : List Event)
    (hv : PIOS_MPU6000_Validate (some d) = 0)
    (hc : ∀ t, P.PIOS_SPI_ClaimBus t = 0)
    (h0 : ∀ t id, P.PIOS_SPI_TransferByte (t ++ [Event.spi_transfer_byte id 0]) = 0) :
    ∃ s, Config_full_sequence rnd H B P cfg d (fuel + 1) tr = some s := by
  simp only [Config_full_sequence, poll_until_clear_one B P d _ _ fuel _ hv hc h0]
  exact ⟨_, rfl⟩

theorem Config_some (rnd : ℚ → ℚ) (H : pios_mpu60x0_hdr) (B : Build) (P : Platform)
    (cfg : pios_mpu60x0_cfg) (dev : mpu6000_dev) (fuel : Nat) (tr : List Event)
    (s : mpu6000_dev × List Event)
    (h : PIOS_MPU6000_Config rnd H B P cfg dev fuel tr = some s) :
    s.1.configured = true ∧
    ∃ r, (if B.PIOS_MPU6000_SIMPLE_INIT_SEQUENCE then
          some (Config_simple_sequence rnd H B P cfg dev tr)
        else Config_full_sequence rnd H B P cfg dev fuel tr) = some r ∧
      s = ({ r.1 with configured := true }, r.2) := by
  unfold PIOS_MPU6000_Config at h
  generalize (if B.PIOS_MPU6000_SIMPLE_INIT_SEQUENCE then
          some (Config_simple_sequence rnd H B P cfg dev tr)
        else Config_full_sequence rnd H B P cfg dev fuel tr) = r at h ⊢
  cases r with
  | none => simp at h
  | some r0 =>
    simp only [Option.some.injEq] at h
    subst h
    exact ⟨rfl, r0, rfl, rfl⟩

theorem ClaimBus_extends (P : Platform) (dev : Option mpu6000_dev) (l : Bool)
    (tr : List Event) : tr <+: (PIOS_MPU6000_ClaimBus P dev l tr).2 := by
  by_cases hv : PIOS_MPU6000_Validate dev = 0
  · cases dev with
    | none => simp [PIOS_MPU6000_Validate] at hv
    | some d =>
      rw [ClaimBus_of_valid P d l tr hv]
      split_ifs <;> simp
  · rw [ClaimBus_of_invalid P dev l tr hv]

theorem ReleaseBus_extends (B : Build) (P : Platform) (dev : Option mpu6000_dev) (l : Bool)
    (tr : List Event) : tr <+: (PIOS_MPU6000_ReleaseBus B P dev l tr).2 := by
  by_cases hv : PIOS_MPU6000_Validate dev = 0
  · cases dev with
    | none => simp [PIOS_MPU6000_Validate] at hv
    | some d =>
      rw [ReleaseBus_of_valid B P d l tr hv]
      simp only [List.append_assoc]; exact List.prefix_append _ _
  · simp [PIOS_MPU6000_ReleaseBus, hv]

theorem SetReg_extends (B : Build) (P : Platform) (dev : Option mpu6000_dev)
    (reg data : Nat) (tr : List Event) :
    tr <+: (PIOS_MPU6000_SetReg B P dev reg data tr).2 := by
  by_cases hv : PIOS_MPU6000_Validate dev = 0
  · cases dev with
    | none => simp [PIOS_MPU6000_Validate] at hv
    | some d =>
      rw [SetReg_of_valid B P d reg data tr hv]
      split_ifs <;> exact List.prefix_append _ _
  · rw [SetReg_of_invalid B P dev reg data tr hv]

theorem GetReg_extends (B : Build) (P : Platform) (dev : Option mpu6000_dev)
    (reg : Nat) (tr : List Event) :
    tr <+: (PIOS_MPU6000_GetReg B P dev reg tr).2 := by
  by_cases hv : PIOS_MPU6000_Validate dev = 0
  · cases dev with
    | none => simp [PIOS_MPU6000_Validate] at hv
    | some d =>
      rw [GetReg_of_valid B P d reg tr hv]
      split_ifs <;> exact List.prefix_append _ _
  · rw [GetReg_of_invalid B P dev reg tr hv]

theorem poll_until_clear_extends (B : Build) (P : Platform) (dev : Option mpu6000_dev)
    (reg mask : Nat) (fuel : Nat) :
    ∀ tr tr', poll_until_clear B P dev reg mask fuel tr = some tr' → tr <+: tr' := by
  induction fuel with
  | zero => intro tr tr' h; simp [poll_until_clear] at h
  | succ n ih =>
    intro tr tr' h
    have hp : tr <+: (PIOS_MPU6000_GetReg B P dev reg (tr ++ [Event.delay_ms 5])).2 :=
      (List.prefix_append _ _).trans (GetReg_extends B P dev reg _)
    simp only [poll_until_clear] at h
    split_ifs at h with hm
    · exact hp.trans (ih _ _ h)
    · cases h; exact hp

/-- A register write depends on the handle only through the bus id, the slave
number and the magic tag. -/
theorem SetReg_congr (B : Build) (P : Platform) (d d' : mpu6000_dev)
    (h1 : d.spi_id = d'.spi_id) (h2 : d.slave_num = d'.slave_num) (h3 : d.magic = d'.magic)
    (reg data : Nat) (tr : List Event) :
    PIOS_MPU6000_SetReg B P (some d) reg data tr =
      PIOS_MPU6000_SetReg B P (some d') reg data tr := by
  simp [PIOS_MPU6000_SetReg, PIOS_MPU6000_ClaimBus, PIOS_MPU6000_ReleaseBus,
    PIOS_MPU6000_Validate, h1, h2, h3]

theorem GetReg_congr (B : Build) (P : Platform) (d d' : mpu6000_dev)
    (h1 : d.spi_id = d'.spi_id) (h2 : d.slave_num = d'.slave_num) (h3 : d.magic = d'.magic)
    (reg : Nat) (tr : List Event) :
    PIOS_MPU6000_GetReg B P (some d) reg tr = PIOS_MPU6000_GetReg B P (some d') reg tr := by
  simp [PIOS_MPU6000_GetReg, PIOS_MPU6000_ClaimBus, PIOS_MPU6000_ReleaseBus,
    PIOS_MPU6000_Validate, h1, h2, h3]

theorem SetGyroRange_extends (H : pios_mpu60x0_hdr) (B : Build) (P : Platform)
    (dev : mpu6000_dev) (r : pios_mpu60x0_range) (tr : List Event) :
    tr <+: (PIOS_MPU6000_SetGyroRange H B P dev r tr).2 := by
  cases r <;>
    exact (SetReg_extends B P (some dev) _ _ tr).trans (List.prefix_append _ _)

theorem SetAccelRange_extends (H : pios_mpu60x0_hdr) (B : Build) (P : Platform)
    (dev : mpu6000_dev) (r : pios_mpu60x0_accel_range) (tr : List Event) :
    tr <+: (PIOS_MPU6000_SetAccelRange H B P dev r tr).2 :=
  SetReg_extends B P (some dev) _ _ tr

theorem SetLPF_SetSampleRate (rnd : ℚ → ℚ) (H : pios_mpu60x0_hdr) (B : Build)
    (P : Platform) (cfg : pios_mpu60x0_cfg) (d dev : mpu6000_dev) (tr0 : List Event)
    (h1 : d.spi_id = dev.spi_id) (h2 : d.slave_num = dev.slave_num)
    (h3 : d.magic = dev.magic) :
    (PIOS_MPU6000_SetSampleRate rnd H B P
        (PIOS_MPU6000_SetLPF H B P d cfg.default_filter tr0).1 cfg.default_samplerate
        (PIOS_MPU6000_SetLPF H B P d cfg.default_filter tr0).2).2 =
      lpf_then_samplerate rnd H B P cfg dev tr0 := by
  simp only [PIOS_MPU6000_SetSampleRate, PIOS_MPU6000_SetLPF, lpf_then_samplerate]
  rw [SetReg_congr B P { d with filter := cfg.default_filter } dev h1 h2 h3,
    SetReg_congr B P d dev h1 h2 h3]

theorem Config_simple_sequence_order (rnd : ℚ → ℚ) (H : pios_mpu60x0_hdr) (B : Build)
    (P : Platform) (cfg : pios_mpu60x0_cfg) (dev : mpu6000_dev) (tr : List Event) :
    (Config_simple_sequence rnd H B P cfg dev tr).1.filter = cfg.default_filter ∧
    ∃ tr0, tr <+: tr0 ∧
      lpf_then_samplerate rnd H B P cfg dev tr0 <+:
        (Config_simple_sequence rnd H B P cfg dev tr).2 := by
  constructor
  · simp only [Config_simple_sequence, PIOS_MPU6000_SetLPF, PIOS_MPU6000_SetGyroRange,
      PIOS_MPU6000_SetAccelRange]
    split_ifs <;> rfl
  · simp only [Config_simple_sequence,
      SetLPF_SetSampleRate rnd H B P cfg dev dev _ rfl rfl rfl]
    have p1 := SetReg_extends B P (some dev) H.PIOS_MPU60X0_PWR_MGMT_REG
      H.PIOS_MPU60X0_PWRMGMT_IMU_RST tr
    generalize PIOS_MPU6000_SetReg B P (some dev) H.PIOS_MPU60X0_PWR_MGMT_REG
      H.PIOS_MPU60X0_PWRMGMT_IMU_RST tr = r1 at p1 ⊢
    have p2 := SetReg_extends B P (some dev) H.PIOS_MPU60X0_USER_CTRL_REG
      H.PIOS_MPU60X0_USERCTL_GYRO_RST r1.2
    generalize PIOS_MPU6000_SetReg B P (some dev) H.PIOS_MPU60X0_USER_CTRL_REG
      H.PIOS_MPU60X0_USERCTL_GYRO_RST r1.2 = r2 at p2 ⊢
    have p3 := SetReg_extends B P (some dev) H.PIOS_MPU60X0_PWR_MGMT_REG
      cfg.Pwr_mgmt_clk (r2.2 ++ [Event.delay_ms 10])
    generalize PIOS_MPU6000_SetReg B P (some dev) H.PIOS_MPU60X0_PWR_MGMT_REG
      cfg.Pwr_mgmt_clk (r2.2 ++ [Event.delay_ms 10]) = r3 at p3 ⊢
    have p4 := SetReg_extends B P (some dev) H.PIOS_MPU60X0_USER_CTRL_REG
      cfg.User_ctl r3.2
    generalize PIOS_MPU6000_SetReg B P (some dev) H.PIOS_MPU60X0_USER_CTRL_REG
      cfg.User_ctl r3.2 = r4 at p4 ⊢
    refine ⟨r4.2, p1.trans (p2.trans ((List.prefix_append _ _).trans (p3.trans p4))), ?_⟩
    generalize lpf_then_samplerate rnd H B P cfg dev r4.2 = L
    generalize PIOS_MPU6000_SetLPF H B P dev cfg.default_filter r4.2 = l
    have p5 := SetGyroRange_extends H B P l.1 pios_mpu60x0_range.PIOS_MPU60X0_SCALE_500_DEG L
    generalize PIOS_MPU6000_SetGyroRange H B P l.1
      pios_mpu60x0_range.PIOS_MPU60X0_SCALE_500_DEG L = g at p5 ⊢
    have p6 := SetAccelRange_extends H B P g.1
      pios_mpu60x0_accel_range.PIOS_MPU60X0_ACCEL_8G g.2
    generalize PIOS_MPU6000_SetAccelRange H B P g.1
      pios_mpu60x0_accel_range.PIOS_MPU60X0_ACCEL_8G g.2 = a at p6 ⊢
    have p7 : L <+: (if B.PIOS_MPU6000_ACCEL = true then a else g).2 := by
      split_ifs
      · exact p5.trans p6
      · exact p5
    generalize (if B.PIOS_MPU6000_ACCEL = true then a else g) = s at p7 ⊢
    exact p7.trans ((SetReg_extends _ _ _ _ _ _).trans (SetReg_extends _ _ _ _ _ _))

theorem Config_full_sequence_tail_order (rnd : ℚ → ℚ) (H : pios_mpu60x0_hdr) (B : Build)
    (P : Platform) (cfg : pios_mpu60x0_cfg) (dev : mpu6000_dev) (tr : List Event) :
    (Config_full_sequence_tail rnd H B P cfg dev tr).1.filter = cfg.default_filter ∧
    ∃ tr0, tr <+: tr0 ∧
      lpf_then_samplerate rnd H B P cfg dev tr0 <+:
        (Config_full_sequence_tail rnd H B P cfg dev tr).2 := by
  constructor
  · simp only [Config_full_sequence_tail, PIOS_MPU6000_SetLPF, PIOS_MPU6000_SetGyroRange,
      PIOS_MPU6000_SetAccelRange]
  · simp only [Config_full_sequence_tail]
    have p1 := SetReg_extends B P (some dev) H.PIOS_MPU60X0_PWR_MGMT_REG
      cfg.Pwr_mgmt_clk (tr ++ [Event.delay_ms 25])
    generalize PIOS_MPU6000_SetReg B P (some dev) H.PIOS_MPU60X0_PWR_MGMT_REG
      cfg.Pwr_mgmt_clk (tr ++ [Event.delay_ms 25]) = r1 at p1 ⊢
    have p2 := SetReg_extends B P (some dev) H.PIOS_MPU60X0_INT_CFG_REG
      cfg.interrupt_cfg r1.2
    generalize PIOS_MPU6000_SetReg B P (some dev) H.PIOS_MPU60X0_INT_CFG_REG
      cfg.interrupt_cfg r1.2 = r2 at p2 ⊢
    have p3 := SetReg_extends B P (some dev) H.PIOS_MPU60X0_INT_EN_REG
      cfg.interrupt_en r2.2
    generalize PIOS_MPU6000_SetReg B P (some dev) H.PIOS_MPU60X0_INT_EN_REG
      cfg.interrupt_en r2.2 = r3 at p3 ⊢
    have p4 : r3.2 <+: (if B.PIOS_MPU6000_ACCEL = true then
        PIOS_MPU6000_SetAccelRange H B P dev
          pios_mpu60x0_accel_range.PIOS_MPU60X0_ACCEL_8G r3.2 else (dev, r3.2)).2 := by
      split_ifs
      · exact SetAccelRange_extends _ _ _ _ _ _
      · exact List.prefix_refl _
    have k : (if B.PIOS_MPU6000_ACCEL = true then
        PIOS_MPU6000_SetAccelRange H B P dev
          pios_mpu60x0_accel_range.PIOS_MPU60X0_ACCEL_8G r3.2 else (dev, r3.2)).1.spi_id
          = dev.spi_id ∧
        (if B.PIOS_MPU6000_ACCEL = true then
        PIOS_MPU6000_SetAccelRange H B P dev
          pios_mpu60x0_accel_range.PIOS_MPU60X0_ACCEL_8G r3.2 else (dev, r3.2)).1.slave_num
          = dev.slave_num ∧
        (if B.PIOS_MPU6000_ACCEL = true then
        PIOS_MPU6000_SetAccelRange H B P dev
          pios_mpu60x0_accel_range.PIOS_MPU60X0_ACCEL_8G r3.2 else (dev, r3.2)).1.magic
          = dev.magic := by
      split_ifs <;> exact ⟨rfl, rfl, rfl⟩
    generalize (if B.PIOS_MPU6000_ACCEL = true then
        PIOS_MPU6000_SetAccelRange H B P dev
          pios_mpu60x0_accel_range.PIOS_MPU60X0_ACCEL_8G r3.2 else (dev, r3.2)) = a at p4 k ⊢
    rw [SetLPF_SetSampleRate rnd H B P cfg a.1 dev a.2 k.1 k.2.1 k.2.2]
    refine ⟨a.2, (List.prefix_append _ _).trans (p1.trans (p2.trans (p3.trans p4))), ?_⟩
    generalize lpf_then_samplerate rnd H B P cfg dev a.2 = L
    generalize PIOS_MPU6000_SetLPF H B P a.1 cfg.default_filter a.2 = l
    have p5 := SetGyroRange_extends H B P l.1 pios_mpu60x0_range.PIOS_MPU60X0_SCALE_500_DEG L
    generalize PIOS_MPU6000_SetGyroRange H B P l.1
      pios_mpu60x0_range.PIOS_MPU60X0_SCALE_500_DEG L = g at p5 ⊢
    exact p5.trans ((SetReg_extends _ _ _ _ _ _).trans ((SetReg_extends _ _ _ _ _ _).trans
      ((SetReg_extends _ _ _ _ _ _).trans (SetReg_extends _ _ _ _ _ _))))

theorem SetReg_eq_with (B : Build) (P : Platform) (d : mpu6000_dev) (reg data : Nat)
    (tr : List Event) :
    PIOS_MPU6000_SetReg B P (some d) reg data tr =
      SetReg_with B P d.spi_id d.slave_num d.magic reg data tr :=
  SetReg_congr B P d _ rfl rfl rfl reg data tr

theorem Config_simple_sequence_filter (rnd : ℚ → ℚ) (H : pios_mpu60x0_hdr) (B : Build)
    (P : Platform) (cfg : pios_mpu60x0_cfg) (dev : mpu6000_dev) (f : Nat)
    (tr : List Event) :
    Config_simple_sequence rnd H B P cfg { dev with filter := f } tr =
      Config_simple_sequence rnd H B P cfg dev tr := by
  simp only [Config_simple_sequence, PIOS_MPU6000_SetLPF, PIOS_MPU6000_SetSampleRate,
    PIOS_MPU6000_SetGyroRange, PIOS_MPU6000_SetAccelRange]
  simp only [SetReg_eq_with B P]

theorem poll_until_clear_congr (B : Build) (P : Platform) (d d' : mpu6000_dev)
    (h1 : d.spi_id = d'.spi_id) (h2 : d.slave_num = d'.slave_num) (h3 : d.magic = d'.magic)
    (reg mask fuel : Nat) :
    ∀ tr, poll_until_clear B P (some d) reg mask fuel tr =
      poll_until_clear B P (some d') reg mask fuel tr := by
  induction fuel with
  | zero => intro tr; rfl
  | succ n ih =>
    intro tr
    simp only [poll_until_clear, GetReg_congr B P d d' h1 h2 h3, ih]

theorem Config_full_sequence_tail_filter (rnd : ℚ → ℚ) (H : pios_mpu60x0_hdr) (B : Build)
    (P : Platform) (cfg : pios_mpu60x0_cfg) (dev : mpu6000_dev) (f : Nat)
    (tr : List Event) :
    Config_full_sequence_tail rnd H B P cfg { dev with filter := f } tr =
      Config_full_sequence_tail rnd H B P cfg dev tr := by
  simp only [Config_full_sequence_tail, PIOS_MPU6000_SetLPF, PIOS_MPU6000_SetSampleRate,
    PIOS_MPU6000_SetGyroRange, PIOS_MPU6000_SetAccelRange]
  simp only [SetReg_eq_with B P]
  split_ifs <;> rfl

theorem Config_full_sequence_filter (rnd : ℚ → ℚ) (H : pios_mpu60x0_hdr) (B : Build)
    (P : Platform) (cfg : pios_mpu60x0_cfg) (dev : mpu6000_dev) (f : Nat) (fuel : Nat)
    (tr : List Event) :
    Config_full_sequence rnd H B P cfg { dev with filter := f } fuel tr =
      Config_full_sequence rnd H B P cfg dev fuel tr := by
  have hc : ∀ l t, PIOS_MPU6000_ClaimBus P (some { dev with filter := f }) l t =
      PIOS_MPU6000_ClaimBus P (some dev) l t := by
    intro l t; simp [PIOS_MPU6000_ClaimBus, PIOS_MPU6000_Validate]
  have hr : ∀ l t, PIOS_MPU6000_ReleaseBus B P (some { dev with filter := f }) l t =
      PIOS_MPU6000_ReleaseBus B P (some dev) l t := by
    intro l t; simp [PIOS_MPU6000_ReleaseBus, PIOS_MPU6000_Validate]
  simp only [Config_full_sequence, hc, hr,
    SetReg_congr B P { dev with filter := f } dev rfl rfl rfl,
    poll_until_clear_congr B P { dev with filter := f } dev rfl rfl rfl,
    Config_full_sequence_tail_filter]

theorem Config_filter (rnd : ℚ → ℚ) (H : pios_mpu60x0_hdr) (B : Build)
    (P : Platform) (cfg : pios_mpu60x0_cfg) (dev : mpu6000_dev) (f : Nat) (fuel : Nat)
    (tr : List Event) :
    PIOS_MPU6000_Config rnd H B P cfg { dev with filter := f } fuel tr =
      PIOS_MPU6000_Config rnd H B P cfg dev fuel tr := by
  simp only [PIOS_MPU6000_Config, Config_simple_sequence_filter, Config_full_sequence_filter]

theorem Config_full_sequence_order (rnd : ℚ → ℚ) (H : pios_mpu60x0_hdr) (B : Build)
    (P : Platform) (cfg : pios_mpu60x0_cfg) (dev : mpu6000_dev) (fuel : Nat)
    (tr : List Event) (r : mpu6000_dev × List Event)
    (h : Config_full_sequence rnd H B P cfg dev fuel tr = some r) :
    r.1.filter = cfg.default_filter ∧
    ∃ tr0, tr <+: tr0 ∧ lpf_then_samplerate rnd H B P cfg dev tr0 <+: r.2 := by
  simp only [Config_full_sequence] at h
  have q1 : tr <+: (PIOS_MPU6000_SetReg B P (some dev) H.PIOS_MPU60X0_PWR_MGMT_REG
      (0x80 ||| cfg.Pwr_mgmt_clk)
      ((PIOS_MPU6000_ReleaseBus B P (some dev) true
        ((PIOS_MPU6000_ClaimBus P (some dev) true tr).2 ++ [Event.delay_ms 1])).2 ++
        [Event.delay_ms 10])).2 :=
    (ClaimBus_extends P (some dev) true tr).trans ((List.prefix_append _ _).trans
      ((ReleaseBus_extends B P (some dev) true _).trans ((List.prefix_append _ _).trans
        (SetReg_extends _ _ _ _ _ _))))
  generalize (PIOS_MPU6000_SetReg B P (some dev) H.PIOS_MPU60X0_PWR_MGMT_REG
      (0x80 ||| cfg.Pwr_mgmt_clk)
      ((PIOS_MPU6000_ReleaseBus B P (some dev) true
        ((PIOS_MPU6000_ClaimBus P (some dev) true tr).2 ++ [Event.delay_ms 1])).2 ++
        [Event.delay_ms 10])).2 = t1 at q1 h
  cases hp1 : poll_until_clear B P (some dev) H.PIOS_MPU60X0_PWR_MGMT_REG 0x80 fuel t1 with
  | none => simp [hp1] at h
  | some t2 =>
    have q2 := poll_until_clear_extends B P (some dev) _ _ fuel t1 t2 hp1
    simp only [hp1] at h
    have q3 : t2 <+: (PIOS_MPU6000_SetReg B P (some dev) H.PIOS_MPU60X0_USER_CTRL_REG
        (0x80 ||| 0x01 ||| 0x02 ||| 0x04) (t2 ++ [Event.delay_ms 25])).2 :=
      (List.prefix_append _ _).trans (SetReg_extends _ _ _ _ _ _)
    generalize (PIOS_MPU6000_SetReg B P (some dev) H.PIOS_MPU60X0_USER_CTRL_REG
        (0x80 ||| 0x01 ||| 0x02 ||| 0x04) (t2 ++ [Event.delay_ms 25])).2 = t3 at q3 h
    cases hp2 : poll_until_clear B P (some dev) H.PIOS_MPU60X0_USER_CTRL_REG 0x07 fuel t3 with
    | none => simp [hp2] at h
    | some t4 =>
      have q4 := poll_until_clear_extends B P (some dev) _ _ fuel t3 t4 hp2
      simp only [hp2, Option.some.injEq] at h
      subst h
      obtain ⟨hf, tr0, h0, h1⟩ := Config_full_sequence_tail_order rnd H B P cfg dev t4
      exact ⟨hf, tr0, q1.trans (q2.trans (q3.trans (q4.trans h0))), h1⟩

/-! ## Lemmas: orientation matrices -/

theorem unit_burst_values :
    (∀ j : Fin 3, int16_of_bytes (unit_burst j) IDX_GYRO_XOUT_H IDX_GYRO_XOUT_L =
        if j = 0 then 1 else 0) ∧
    (∀ j : Fin 3, int16_of_bytes (unit_burst j) IDX_GYRO_YOUT_H IDX_GYRO_YOUT_L =
        if j = 1 then 1 else 0) ∧
    (∀ j : Fin 3, int16_of_bytes (unit_burst j) IDX_GYRO_ZOUT_H IDX_GYRO_ZOUT_L =
        if j = 2 then 1 else 0) ∧
    (∀ j : Fin 3, int16_of_bytes (unit_burst j) IDX_ACCEL_XOUT_H IDX_ACCEL_XOUT_L =
        if j = 0 then 1 else 0) ∧
    (∀ j : Fin 3, int16_of_bytes (unit_burst j) IDX_ACCEL_YOUT_H IDX_ACCEL_YOUT_L =
        if j = 1 then 1 else 0) ∧
    (∀ j : Fin 3, int16_of_bytes (unit_burst j) IDX_ACCEL_ZOUT_H IDX_ACCEL_ZOUT_L =
        if j = 2 then 1 else 0) := by
  decide

theorem rotate_gyro_fields (o : pios_mpu60x0_orientation) (b : Nat → Nat)
    (a0 : pios_sensor_accel_data) (g0 : pios_sensor_gyro_data) :
    ∀ i : Fin 3,
      ![(rotate_accel_gyro id o b a0 g0).2.x, (rotate_accel_gyro id o b a0 g0).2.y,
          (rotate_accel_gyro id o b a0 g0).2.z] i =
        ((gyro_matrix o).mulVec (fun j => (raw_gyro b j : ℚ))) i := by
  obtain ⟨h1, h2, h3, -, -, -⟩ := unit_burst_values
  intro i
  simp only [gyro_matrix, Matrix.mulVec, Matrix.dotProduct, Fin.sum_univ_three,
    Matrix.of_apply, raw_gyro, ← int16_of_bytes_eq]
  cases o <;> fin_cases i <;> simp [rotate_accel_gyro, h1, h2, h3]

theorem rotate_accel_fields (o : pios_mpu60x0_orientation) (b : Nat → Nat)
    (a0 : pios_sensor_accel_data) (g0 : pios_sensor_gyro_data) :
    ∀ i : Fin 3,
      ![(rotate_accel_gyro id o b a0 g0).1.x, (rotate_accel_gyro id o b a0 g0).1.y,
          (rotate_accel_gyro id o b a0 g0).1.z] i =
        ((accel_matrix o).mulVec (fun j => (raw_accel b j : ℚ))) i := by
  obtain ⟨-, -, -, h4, h5, h6⟩ := unit_burst_values
  intro i
  simp only [accel_matrix, Matrix.mulVec, Matrix.dotProduct, Fin.sum_univ_three,
    Matrix.of_apply, raw_accel, ← int16_of_bytes_eq]
  cases o <;> fin_cases i <;> simp [rotate_accel_gyro, h4, h5, h6]

theorem faulty_platform_write_fails (reg data : Nat) (t : List Event)
    (h : reg &&& 0x7f ≠ 0) :
    (PIOS_MPU6000_SetReg sample_build_full faulty_platform (some sample_dev_fresh)
      reg data t).1 = -2 := by
  have hr : faulty_platform.PIOS_SPI_TransferByte (t ++ [Event.spi_claim sample_dev_fresh.spi_id,
      Event.spi_set_clock sample_dev_fresh.spi_id MPU6000_SPI_LOW_SPEED,
      Event.spi_rc_pin sample_dev_fresh.spi_id sample_dev_fresh.slave_num 0,
      Event.spi_transfer_byte sample_dev_fresh.spi_id (reg &&& 0x7f)]) = 1 := by
    have := faulty_reply_append (t ++ [Event.spi_claim sample_dev_fresh.spi_id,
      Event.spi_set_clock sample_dev_fresh.spi_id MPU6000_SPI_LOW_SPEED,
      Event.spi_rc_pin sample_dev_fresh.spi_id sample_dev_fresh.slave_num 0])
      sample_dev_fresh.spi_id (reg &&& 0x7f)
    simp only [List.append_assoc, List.cons_append, List.nil_append, h, if_false] at this
    exact this
  have hc : faulty_platform.PIOS_SPI_ClaimBus
      (t ++ [Event.spi_claim sample_dev_fresh.spi_id]) = 0 := rfl
  rw [SetReg_of_valid sample_build_full faulty_platform sample_dev_fresh reg data t
    (by decide)]
  simp [hc, hr]

/-! ## The properties -/

/-- C1: `PIOS_MPU6000_Validate` returns -1 exactly for the null handle, -2
exactly for a non-null handle with a wrong magic tag (whatever its bus id), -3
exactly for a non-null handle with the right tag and bus id 0, and 0 exactly
for a non-null handle with the right tag and a non-zero bus id; so the codes
are distinct and checked in that order. -/
theorem PIOS_MPU6000_Validate_codes (dev : Option mpu6000_dev) :
    (PIOS_MPU6000_Validate dev = -1 ↔ dev = none) ∧
    (PIOS_MPU6000_Validate dev = -2 ↔
      ∃ d, dev = some d ∧ d.magic ≠ PIOS_MPU6000_DEV_MAGIC) ∧
    (PIOS_MPU6000_Validate dev = -3 ↔
      ∃ d, dev = some d ∧ d.magic = PIOS_MPU6000_DEV_MAGIC ∧ d.spi_id = 0) ∧
    (PIOS_MPU6000_Validate dev = 0 ↔
      ∃ d, dev = some d ∧ d.magic = PIOS_MPU6000_DEV_MAGIC ∧ d.spi_id ≠ 0) := by
  cases dev with
  | none => simp [PIOS_MPU6000_Validate]
  | some d =>
    by_cases hm : d.magic = PIOS_MPU6000_DEV_MAGIC <;> by_cases hs : d.spi_id = 0 <;>
      simp [PIOS_MPU6000_Validate, hm, hs]

/-- C2: for a requested rate `r` with `1 ≤ r ≤ 65535`, `PIOS_MPU6000_SetSampleRate`
is the write, to the sample-rate-divider register, of the integer
`clamp(floor(F / min(r, F) + 1/2) - 1, 0, 255)`, where `F` is 8000 if the
handle's filter is the 256 Hz setting and 1000 otherwise; this holds with the
float arithmetic done in IEEE binary32 and also in exact arithmetic.  The value
is in `[0, 255]`; `r = 500` with `F = 8000` gives 15, `r = 1000` with
`F = 1000` gives 0 and `r = 20000` with `F = 1000` gives 0. -/
theorem PIOS_MPU6000_SetSampleRate_divisor (H : pios_mpu60x0_hdr) (B : Build)
    (P : Platform) (dev : mpu6000_dev) (r : Nat) (tr : List Event)
    (hr1 : 1 ≤ r) (hr2 : r ≤ 65535) :
    (PIOS_MPU6000_SetSampleRate binary32 H B P dev r tr =
      PIOS_MPU6000_SetReg B P (some dev) H.PIOS_MPU60X0_SMPLRT_DIV_REG
        (spec_divisor (if dev.filter = H.PIOS_MPU60X0_LOWPASS_256_HZ then 8000 else 1000)
          r).toNat tr) ∧
    (PIOS_MPU6000_SetSampleRate id H B P dev r tr =
      PIOS_MPU6000_SetReg B P (some dev) H.PIOS_MPU60X0_SMPLRT_DIV_REG
        (spec_divisor (if dev.filter = H.PIOS_MPU60X0_LOWPASS_256_HZ then 8000 else 1000)
          r).toNat tr) ∧
    (0 ≤ spec_divisor (if dev.filter = H.PIOS_MPU60X0_LOWPASS_256_HZ then 8000 else 1000) r ∧
      spec_divisor (if dev.filter = H.PIOS_MPU60X0_LOWPASS_256_HZ then 8000 else 1000) r
        ≤ 255) ∧
    (sample_rate_divisor binary32 H H.PIOS_MPU60X0_LOWPASS_256_HZ 500 = 15 ∧
      sample_rate_divisor binary32 H (H.PIOS_MPU60X0_LOWPASS_256_HZ + 1) 1000 = 0 ∧
      sample_rate_divisor binary32 H (H.PIOS_MPU60X0_LOWPASS_256_HZ + 1) 20000 = 0) := by
  have hrange := spec_divisor_range
    (if dev.filter = H.PIOS_MPU60X0_LOWPASS_256_HZ then 8000 else 1000) r
  have hmod : spec_divisor (if dev.filter = H.PIOS_MPU60X0_LOWPASS_256_HZ then 8000 else 1000)
      r % 256 =
      spec_divisor (if dev.filter = H.PIOS_MPU60X0_LOWPASS_256_HZ then 8000 else 1000) r :=
    Int.emod_eq_of_lt hrange.1 (by omega)
  refine ⟨?_, ?_, hrange, ?_, ?_, ?_⟩
  · simp only [PIOS_MPU6000_SetSampleRate]
    rw [Nat.mod_eq_of_lt (by omega : r < 65536),
      sample_rate_divisor_binary32 H dev.filter r hr1, hmod]
  · simp only [PIOS_MPU6000_SetSampleRate]
    rw [Nat.mod_eq_of_lt (by omega : r < 65536),
      sample_rate_divisor_exact H dev.filter r hr1, hmod]
  · rw [sample_rate_divisor_binary32 H _ 500 (by norm_num), if_pos rfl]
    exact spec_divisor_8000_500
  · rw [sample_rate_divisor_binary32 H _ 1000 (by norm_num), if_neg (by omega)]
    exact spec_divisor_1000_1000
  · rw [sample_rate_divisor_binary32 H _ 20000 (by norm_num), if_neg (by omega)]
    exact spec_divisor_1000_20000

/-- Instance of C2: the sample handle (256 Hz filter) asked for 500 Hz. -/
theorem PIOS_MPU6000_SetSampleRate_divisor_witness :
    (1 ≤ 500 ∧ 500 ≤ 65535) ∧
    PIOS_MPU6000_SetSampleRate binary32 sample_hdr sample_build sample_platform sample_dev 500 [] =
      PIOS_MPU6000_SetReg sample_build sample_platform (some sample_dev) 0x19 15 [] := by
  refine ⟨by decide, ?_⟩
  have h := (PIOS_MPU6000_SetSampleRate_divisor sample_hdr sample_build sample_platform
    sample_dev 500 [] (by decide) (by decide)).1
  rw [h]
  have e : (if sample_dev.filter = sample_hdr.PIOS_MPU60X0_LOWPASS_256_HZ then 8000 else 1000)
      = 8000 := by decide
  rw [e, spec_divisor_8000_500]
  rfl

/-- C3: `PIOS_MPU6000_Test`. With a null handle the claim fails and the result
is -1.  With a handle `d`, let the byte read be the reply to the second byte
transfer of the WHOAMI read, reduced to a `uint8_t` (so it is in 0..255): the
result is 0 exactly when the bus claim succeeds and the byte is 0x68, -2 exactly
when the claim succeeds and the byte is anything else, and -1 exactly when the
claim fails. -/
theorem PIOS_MPU6000_Test_codes (H : pios_mpu60x0_hdr) (B : Build) (P : Platform)
    (d : mpu6000_dev) (tr : List Event) :
    ((PIOS_MPU6000_Test H B P none tr).1 = -1 ∧
      (PIOS_MPU6000_ClaimBus P none true tr).1 ≠ 0) ∧
    (0 ≤ P.PIOS_SPI_TransferByte ((PIOS_MPU6000_ClaimBus P (some d) true tr).2 ++
        [Event.spi_transfer_byte d.spi_id ((0x80 ||| H.PIOS_MPU60X0_WHOAMI % 256) % 256),
          Event.spi_transfer_byte d.spi_id 0]) % 256 ∧
      P.PIOS_SPI_TransferByte ((PIOS_MPU6000_ClaimBus P (some d) true tr).2 ++
        [Event.spi_transfer_byte d.spi_id ((0x80 ||| H.PIOS_MPU60X0_WHOAMI % 256) % 256),
          Event.spi_transfer_byte d.spi_id 0]) % 256 ≤ 255) ∧
    ((PIOS_MPU6000_Test H B P (some d) tr).1 = 0 ↔
      (PIOS_MPU6000_ClaimBus P (some d) true tr).1 = 0 ∧
      P.PIOS_SPI_TransferByte ((PIOS_MPU6000_ClaimBus P (some d) true tr).2 ++
        [Event.spi_transfer_byte d.spi_id ((0x80 ||| H.PIOS_MPU60X0_WHOAMI % 256) % 256),
          Event.spi_transfer_byte d.spi_id 0]) % 256 = 0x68) ∧
    ((PIOS_MPU6000_Test H B P (some d) tr).1 = -2 ↔
      (PIOS_MPU6000_ClaimBus P (some d) true tr).1 = 0 ∧
      P.PIOS_SPI_TransferByte ((PIOS_MPU6000_ClaimBus P (some d) true tr).2 ++
        [Event.spi_transfer_byte d.spi_id ((0x80 ||| H.PIOS_MPU60X0_WHOAMI % 256) % 256),
          Event.spi_transfer_byte d.spi_id 0]) % 256 ≠ 0x68) ∧
    ((PIOS_MPU6000_Test H B P (some d) tr).1 = -1 ↔
      (PIOS_MPU6000_ClaimBus P (some d) true tr).1 ≠ 0) := by
  have hnone : PIOS_MPU6000_Validate none ≠ 0 := by simp [PIOS_MPU6000_Validate]
  refine ⟨⟨?_, ?_⟩, ⟨Int.emod_nonneg _ (by decide), ?_⟩, ?_⟩
  · simp [PIOS_MPU6000_Test, PIOS_MPU6000_ReadID, GetReg_of_invalid B P none _ tr hnone]
  · simp [ClaimBus_of_invalid P none true tr hnone]
  · have := Int.emod_lt_of_pos (P.PIOS_SPI_TransferByte
      ((PIOS_MPU6000_ClaimBus P (some d) true tr).2 ++
        [Event.spi_transfer_byte d.spi_id ((0x80 ||| H.PIOS_MPU60X0_WHOAMI % 256) % 256),
          Event.spi_transfer_byte d.spi_id 0])) (show (0 : Int) < 256 by decide)
    omega
  · by_cases hv : PIOS_MPU6000_Validate (some d) = 0
    · simp only [PIOS_MPU6000_Test, PIOS_MPU6000_ReadID, GetReg_of_valid B P d _ tr hv,
        ClaimBus_of_valid P d true tr hv]
      by_cases hc : P.PIOS_SPI_ClaimBus (tr ++ [Event.spi_claim d.spi_id]) = 0
      · simp only [hc, ne_eq, not_true_eq_false, if_false, if_true, List.append_assoc,
          List.singleton_append, List.cons_append, List.nil_append]
        generalize P.PIOS_SPI_TransferByte _ = v
        have h0 : 0 ≤ v % 256 := Int.emod_nonneg _ (by decide)
        have h0' : ¬ v % 256 < 0 := by omega
        by_cases h68 : v % 256 = 0x68
        · simp [h68]
        · simp [h0', h68]
      · simp [hc]
    · simp [PIOS_MPU6000_Test, PIOS_MPU6000_ReadID, GetReg_of_invalid B P (some d) _ tr hv,
        ClaimBus_of_invalid P (some d) true tr hv]

/-- C4: `PIOS_MPU6000_SetReg`. With a null handle nothing is done and -1 is
returned.  Otherwise the calls it adds to the history are such that: if the bus
claim fails the result is -1 and no byte is transferred; else `reg & 0x7F` is
transferred first, and if its reply is non-zero the result is -2 and the value
byte is never transferred; else the value byte is transferred, and the result is
-3 if its reply is non-zero and 0 if both replies are zero.  The four codes are
pairwise distinct. -/
theorem PIOS_MPU6000_SetReg_codes (B : Build) (P : Platform) (d : mpu6000_dev)
    (reg data : Nat) (tr : List Event) :
    PIOS_MPU6000_SetReg B P none reg data tr = (-1, tr) ∧
    (∃ ev, (PIOS_MPU6000_SetReg B P (some d) reg data tr).2 = tr ++ ev ∧
      (if (PIOS_MPU6000_ClaimBus P (some d) true tr).1 ≠ 0 then
        (PIOS_MPU6000_SetReg B P (some d) reg data tr).1 = -1 ∧ bytes_sent ev = []
      else if P.PIOS_SPI_TransferByte ((PIOS_MPU6000_ClaimBus P (some d) true tr).2 ++
          [Event.spi_transfer_byte d.spi_id (reg &&& 0x7f)]) ≠ 0 then
        (PIOS_MPU6000_SetReg B P (some d) reg data tr).1 = -2 ∧
          bytes_sent ev = [reg &&& 0x7f]
      else if P.PIOS_SPI_TransferByte ((PIOS_MPU6000_ClaimBus P (some d) true tr).2 ++
          [Event.spi_transfer_byte d.spi_id (reg &&& 0x7f)] ++
          [Event.spi_transfer_byte d.spi_id (data % 256)]) ≠ 0 then
        (PIOS_MPU6000_SetReg B P (some d) reg data tr).1 = -3 ∧
          bytes_sent ev = [reg &&& 0x7f, data % 256]
      else
        (PIOS_MPU6000_SetReg B P (some d) reg data tr).1 = 0 ∧
          bytes_sent ev = [reg &&& 0x7f, data % 256])) ∧
    ((-1 : Int) ≠ -2 ∧ (-1 : Int) ≠ -3 ∧ (-1 : Int) ≠ 0 ∧ (-2 : Int) ≠ -3 ∧
      (-2 : Int) ≠ 0 ∧ (-3 : Int) ≠ 0) := by
  refine ⟨SetReg_of_invalid B P none reg data tr (by simp [PIOS_MPU6000_Validate]), ?_,
    by decide⟩
  by_cases hv : PIOS_MPU6000_Validate (some d) = 0
  · rw [SetReg_of_valid B P d reg data tr hv, ClaimBus_of_valid P d true tr hv]
    by_cases hc : P.PIOS_SPI_ClaimBus (tr ++ [Event.spi_claim d.spi_id]) = 0
    · by_cases h1 : P.PIOS_SPI_TransferByte (tr ++ [Event.spi_claim d.spi_id,
          Event.spi_set_clock d.spi_id MPU6000_SPI_LOW_SPEED,
          Event.spi_rc_pin d.spi_id d.slave_num 0,
          Event.spi_transfer_byte d.spi_id (reg &&& 0x7f)]) = 0
      · refine ⟨[Event.spi_claim d.spi_id,
            Event.spi_set_clock d.spi_id MPU6000_SPI_LOW_SPEED,
            Event.spi_rc_pin d.spi_id d.slave_num 0,
            Event.spi_transfer_byte d.spi_id (reg &&& 0x7f),
            Event.spi_transfer_byte d.spi_id (data % 256),
            Event.spi_rc_pin d.spi_id d.slave_num 1,
            Event.spi_set_clock d.spi_id (MPU6000_SPI_HIGH_SPEED B),
            Event.spi_release d.spi_id], ?_, ?_⟩
        · simp [hc, h1]
        · by_cases h2 : P.PIOS_SPI_TransferByte (tr ++ [Event.spi_claim d.spi_id,
              Event.spi_set_clock d.spi_id MPU6000_SPI_LOW_SPEED,
              Event.spi_rc_pin d.spi_id d.slave_num 0,
              Event.spi_transfer_byte d.spi_id (reg &&& 0x7f),
              Event.spi_transfer_byte d.spi_id (data % 256)]) = 0 <;>
            simp [hc, h1, h2, bytes_sent]
      · exact ⟨[Event.spi_claim d.spi_id,
            Event.spi_set_clock d.spi_id MPU6000_SPI_LOW_SPEED,
            Event.spi_rc_pin d.spi_id d.slave_num 0,
            Event.spi_transfer_byte d.spi_id (reg &&& 0x7f),
            Event.spi_rc_pin d.spi_id d.slave_num 1,
            Event.spi_set_clock d.spi_id (MPU6000_SPI_HIGH_SPEED B),
            Event.spi_release d.spi_id], by simp [hc, h1], by simp [hc, h1, bytes_sent]⟩
    · exact ⟨[Event.spi_claim d.spi_id], by simp [hc], by simp [hc, bytes_sent]⟩
  · rw [SetReg_of_invalid B P (some d) reg data tr hv, ClaimBus_of_invalid P (some d) true tr hv]
    exact ⟨[], by simp, by simp [bytes_sent]⟩

/-- C5: `PIOS_MPU6000_SetReg` and `PIOS_MPU6000_GetReg` on a valid handle, when
the platform grants the bus: whatever the replies to the transferred bytes, the
calls added to the history are the platform claim, the switch to the low-speed
clock and the chip-select assert, then only byte transfers, then the
chip-select deassert, the switch to the high-speed clock and one platform
release, which is the last call. -/
theorem SetReg_GetReg_bracket (B : Build) (P : Platform) (d : mpu6000_dev)
    (reg data : Nat) (tr : List Event)
    (hv : PIOS_MPU6000_Validate (some d) = 0)
    (hc : P.PIOS_SPI_ClaimBus (tr ++ [Event.spi_claim d.spi_id]) = 0) :
    (∃ xs, (∀ e ∈ xs, ∃ b, e = Event.spi_transfer_byte d.spi_id b) ∧
      (PIOS_MPU6000_SetReg B P (some d) reg data tr).2 =
        tr ++ [Event.spi_claim d.spi_id,
            Event.spi_set_clock d.spi_id MPU6000_SPI_LOW_SPEED,
            Event.spi_rc_pin d.spi_id d.slave_num 0] ++ xs ++
          [Event.spi_rc_pin d.spi_id d.slave_num 1,
            Event.spi_set_clock d.spi_id (MPU6000_SPI_HIGH_SPEED B),
            Event.spi_release d.spi_id]) ∧
    (∃ xs, (∀ e ∈ xs, ∃ b, e = Event.spi_transfer_byte d.spi_id b) ∧
      (PIOS_MPU6000_GetReg B P (some d) reg tr).2 =
        tr ++ [Event.spi_claim d.spi_id,
            Event.spi_set_clock d.spi_id MPU6000_SPI_LOW_SPEED,
            Event.spi_rc_pin d.spi_id d.slave_num 0] ++ xs ++
          [Event.spi_rc_pin d.spi_id d.slave_num 1,
            Event.spi_set_clock d.spi_id (MPU6000_SPI_HIGH_SPEED B),
            Event.spi_release d.spi_id]) := by
  constructor
  · rw [SetReg_of_valid B P d reg data tr hv]
    by_cases h1 : P.PIOS_SPI_TransferByte (tr ++ [Event.spi_claim d.spi_id,
        Event.spi_set_clock d.spi_id MPU6000_SPI_LOW_SPEED,
        Event.spi_rc_pin d.spi_id d.slave_num 0,
        Event.spi_transfer_byte d.spi_id (reg &&& 0x7f)]) = 0
    · refine ⟨[Event.spi_transfer_byte d.spi_id (reg &&& 0x7f),
          Event.spi_transfer_byte d.spi_id (data % 256)], ?_, ?_⟩
      · intro e he
        simp only [List.mem_cons, List.mem_singleton, List.not_mem_nil, or_false] at he
        rcases he with he | he
        · exact ⟨_, he⟩
        · exact ⟨_, he⟩
      · simp [hc, h1]
    · refine ⟨[Event.spi_transfer_byte d.spi_id (reg &&& 0x7f)], ?_, ?_⟩
      · intro e he
        exact ⟨_, List.mem_singleton.mp he⟩
      · simp [hc, h1]
  · rw [GetReg_of_valid B P d reg tr hv]
    refine ⟨[Event.spi_transfer_byte d.spi_id ((0x80 ||| reg % 256) % 256),
        Event.spi_transfer_byte d.spi_id 0], ?_, ?_⟩
    · intro e he
      simp only [List.mem_cons, List.mem_singleton, List.not_mem_nil, or_false] at he
      rcases he with he | he
      · exact ⟨_, he⟩
      · exact ⟨_, he⟩
    · simp [hc]

/-- Instance of C5: a register write and a register read on the sample handle
and platform, from the empty history. -/
theorem SetReg_GetReg_bracket_witness :
    (PIOS_MPU6000_Validate (some sample_dev) = 0 ∧
      sample_platform.PIOS_SPI_ClaimBus ([] ++ [Event.spi_claim sample_dev.spi_id]) = 0) ∧
    (∃ xs, (∀ e ∈ xs, ∃ b, e = Event.spi_transfer_byte sample_dev.spi_id b) ∧
      (PIOS_MPU6000_SetReg sample_build sample_platform (some sample_dev) 0x19 15 []).2 =
        [] ++ [Event.spi_claim sample_dev.spi_id,
            Event.spi_set_clock sample_dev.spi_id MPU6000_SPI_LOW_SPEED,
            Event.spi_rc_pin sample_dev.spi_id sample_dev.slave_num 0] ++ xs ++
          [Event.spi_rc_pin sample_dev.spi_id sample_dev.slave_num 1,
            Event.spi_set_clock sample_dev.spi_id (MPU6000_SPI_HIGH_SPEED sample_build),
            Event.spi_release sample_dev.spi_id]) ∧
    (∃ xs, (∀ e ∈ xs, ∃ b, e = Event.spi_transfer_byte sample_dev.spi_id b) ∧
      (PIOS_MPU6000_GetReg sample_build sample_platform (some sample_dev) 0x19 []).2 =
        [] ++ [Event.spi_claim sample_dev.spi_id,
            Event.spi_set_clock sample_dev.spi_id MPU6000_SPI_LOW_SPEED,
            Event.spi_rc_pin sample_dev.spi_id sample_dev.slave_num 0] ++ xs ++
          [Event.spi_rc_pin sample_dev.spi_id sample_dev.slave_num 1,
            Event.spi_set_clock sample_dev.spi_id (MPU6000_SPI_HIGH_SPEED sample_build),
            Event.spi_release sample_dev.spi_id]) :=
  ⟨⟨by decide, rfl⟩,
    SetReg_GetReg_bracket sample_build sample_platform sample_dev 0x19 15 [] (by decide) rfl⟩

/-- C6 at a failing input: in binary32, with range 500 deg/s and the orientation
top, 0 degrees, the raw gyroscope Y value 1 is assigned to `x` as 1, and the
sample's `x` is 16393005/1073741824, which is not `1 * (1 / 65.5)`. -/
theorem task_samples_scaling_inexact :
    (rotate_accel_gyro binary32 sample_dev.cfg.orientation sample_burst sample_accel_data0
        sample_gyro_data0).2.x = 1 ∧
    spec_gyro_scale sample_dev.gyro_range = 1 / (655 / 10) ∧
    (task_samples_accel binary32 sample_hdr sample_dev sample_burst sample_accel_data0
        sample_gyro_data0).2.x = 16393005 / 1073741824 ∧
    (task_samples_accel binary32 sample_hdr sample_dev sample_burst sample_accel_data0
        sample_gyro_data0).2.x ≠
      (rotate_accel_gyro binary32 sample_dev.cfg.orientation sample_burst sample_accel_data0
        sample_gyro_data0).2.x * spec_gyro_scale sample_dev.gyro_range := by
  have h : int16_of_bytes sample_burst IDX_GYRO_YOUT_H IDX_GYRO_YOUT_L = 1 := by decide
  have e1 : binary32 1 = 1 := by simpa using binary32_natCast 1 (by norm_num) (by norm_num)
  have hrot : (rotate_accel_gyro binary32 sample_dev.cfg.orientation sample_burst
      sample_accel_data0 sample_gyro_data0).2.x = 1 := by
    simp only [rotate_accel_gyro, sample_dev, sample_cfg, h, Int.cast_one, e1]
  have hs := GetGyroScale_binary32_500 sample_dev rfl
  have hval : (task_samples_accel binary32 sample_hdr sample_dev sample_burst
      sample_accel_data0 sample_gyro_data0).2.x = 16393005 / 1073741824 := by
    simp only [task_samples_accel]
    rw [hs, hrot, one_mul, binary32_scale_500]
  refine ⟨hrot, rfl, hval, ?_⟩
  rw [hval, hrot]
  simp only [sample_dev, spec_gyro_scale]
  norm_num

/-- C6 as amended: for a gravity constant between 1 and 16, each axis of the
samples an acquisition cycle builds is the value the orientation switch assigned
to it (an integer, converted to float exactly) multiplied in float arithmetic by
the scale factor of the range recorded in the handle.  Over exact rationals it
is the product with 1/131, 1/65.5, 1/32.8, 1/16.4 for the gyroscope ranges 250,
500, 1000, 2000 deg/s and with g/16384, g/8192, g/4096, g/2048 for the
accelerometer ranges 2g, 4g, 8g, 16g; in binary32 it differs from that product
by at most the product's magnitude times `2 ^ (-21)`.  With range 500 deg/s a
raw 655 gives 10 (over exact rationals and in binary32); with range 8g a raw
4096 gives g over exact rationals. -/
theorem task_samples_scaling (H : pios_mpu60x0_hdr) (dev : mpu6000_dev) (rec_buf : Nat → Nat)
    (accel_data0 : pios_sensor_accel_data) (gyro_data0 : pios_sensor_gyro_data)
    (hg1 : 1 ≤ H.GRAVITY) (_hg2 : H.GRAVITY ≤ 16) :
    (((task_samples_accel id H dev rec_buf accel_data0 gyro_data0).2.x =
        (rotate_accel_gyro id dev.cfg.orientation rec_buf accel_data0 gyro_data0).2.x *
          spec_gyro_scale dev.gyro_range ∧
      (task_samples_accel id H dev rec_buf accel_data0 gyro_data0).2.y =
        (rotate_accel_gyro id dev.cfg.orientation rec_buf accel_data0 gyro_data0).2.y *
          spec_gyro_scale dev.gyro_range ∧
      (task_samples_accel id H dev rec_buf accel_data0 gyro_data0).2.z =
        (rotate_accel_gyro id dev.cfg.orientation rec_buf accel_data0 gyro_data0).2.z *
          spec_gyro_scale dev.gyro_range) ∧
     ((task_samples_accel id H dev rec_buf accel_data0 gyro_data0).1.x =
        (rotate_accel_gyro id dev.cfg.orientation rec_buf accel_data0 gyro_data0).1.x *
          spec_accel_scale H.GRAVITY dev.accel_range ∧
      (task_samples_accel id H dev rec_buf accel_data0 gyro_data0).1.y =
        (rotate_accel_gyro id dev.cfg.orientation rec_buf accel_data0 gyro_data0).1.y *
          spec_accel_scale H.GRAVITY dev.accel_range ∧
      (task_samples_accel id H dev rec_buf accel_data0 gyro_data0).1.z =
        (rotate_accel_gyro id dev.cfg.orientation rec_buf accel_data0 gyro_data0).1.z *
          spec_accel_scale H.GRAVITY dev.accel_range)) ∧
    (rotate_accel_gyro binary32 dev.cfg.orientation rec_buf accel_data0 gyro_data0 =
      rotate_accel_gyro id dev.cfg.orientation rec_buf accel_data0 gyro_data0) ∧
    ((|(task_samples_accel binary32 H dev rec_buf accel_data0 gyro_data0).2.x -
          (rotate_accel_gyro id dev.cfg.orientation rec_buf accel_data0 gyro_data0).2.x *
            spec_gyro_scale dev.gyro_range| ≤
        |(rotate_accel_gyro id dev.cfg.orientation rec_buf accel_data0 gyro_data0).2.x *
            spec_gyro_scale dev.gyro_range| / 2 ^ 21 ∧
      |(task_samples_accel binary32 H dev rec_buf accel_data0 gyro_data0).2.y -
          (rotate_accel_gyro id dev.cfg.orientation rec_buf accel_data0 gyro_data0).2.y *
            spec_gyro_scale dev.gyro_range| ≤
        |(rotate_accel_gyro id dev.cfg.orientation rec_buf accel_data0 gyro_data0).2.y *
            spec_gyro_scale dev.gyro_range| / 2 ^ 21 ∧
      |(task_samples_accel binary32 H dev rec_buf accel_data0 gyro_data0).2.z -
          (rotate_accel_gyro id dev.cfg.orientation rec_buf accel_data0 gyro_data0).2.z *
            spec_gyro_scale dev.gyro_range| ≤
        |(rotate_accel_gyro id dev.cfg.orientation rec_buf accel_data0 gyro_data0).2.z *
            spec_gyro_scale dev.gyro_range| / 2 ^ 21) ∧
     (|(task_samples_accel binary32 H dev rec_buf accel_data0 gyro_data0).1.x -
          (rotate_accel_gyro id dev.cfg.orientation rec_buf accel_data0 gyro_data0).1.x *
            spec_accel_scale H.GRAVITY dev.accel_range| ≤
        |(rotate_accel_gyro id dev.cfg.orientation rec_buf accel_data0 gyro_data0).1.x *
            spec_accel_scale H.GRAVITY dev.accel_range| / 2 ^ 21 ∧
      |(task_samples_accel binary32 H dev rec_buf accel_data0 gyro_data0).1.y -
          (rotate_accel_gyro id dev.cfg.orientation rec_buf accel_data0 gyro_data0).1.y *
            spec_accel_scale H.GRAVITY dev.accel_range| ≤
        |(rotate_accel_gyro id dev.cfg.orientation rec_buf accel_data0 gyro_data0).1.y *
            spec_accel_scale H.GRAVITY dev.accel_range| / 2 ^ 21 ∧
      |(task_samples_accel binary32 H dev rec_buf accel_data0 gyro_data0).1.z -
          (rotate_accel_gyro id dev.cfg.orientation rec_buf accel_data0 gyro_data0).1.z *
            spec_accel_scale H.GRAVITY dev.accel_range| ≤
        |(rotate_accel_gyro id dev.cfg.orientation rec_buf accel_data0 gyro_data0).1.z *
            spec_accel_scale H.GRAVITY dev.accel_range| / 2 ^ 21)) ∧
    ((task_samples_accel id H sample_dev sample_burst_scale accel_data0 gyro_data0).2.y = 10 ∧
      (task_samples_accel id H sample_dev sample_burst_scale accel_data0 gyro_data0).1.y =
        H.GRAVITY ∧
      (task_samples_accel binary32 H sample_dev sample_burst_scale accel_data0
        gyro_data0).2.y = 10) := by
  have hrot := rotate_accel_gyro_binary32 dev.cfg.orientation rec_buf accel_data0 gyro_data0
  have hint := rotate_accel_gyro_int dev.cfg.orientation rec_buf accel_data0 gyro_data0
  have hgs := GetGyroScale_factor dev
  have has := GetAccelScale_factor H dev hg1
  have hgge := spec_gyro_scale_ge dev.gyro_range
  have hage := spec_accel_scale_ge H.GRAVITY hg1 dev.accel_range
  refine ⟨⟨?_, ?_⟩, hrot, ⟨⟨?_, ?_, ?_⟩, ⟨?_, ?_, ?_⟩⟩, ?_, ?_, ?_⟩
  · cases hg : dev.gyro_range <;>
      simp [task_samples_accel, PIOS_MPU6000_GetGyroScale, spec_gyro_scale, hg]
  · cases ha : dev.accel_range <;>
      simp [task_samples_accel, PIOS_MPU6000_GetAccelScale, spec_accel_scale, ha]
  · show |binary32 (_ * _) - _| ≤ _
    rw [hrot]
    exact binary32_scaled_axis _ _ _ hint.2.2.2.1 hgs hgge
  · show |binary32 (_ * _) - _| ≤ _
    rw [hrot]
    exact binary32_scaled_axis _ _ _ hint.2.2.2.2.1 hgs hgge
  · show |binary32 (_ * _) - _| ≤ _
    rw [hrot]
    exact binary32_scaled_axis _ _ _ hint.2.2.2.2.2 hgs hgge
  · show |binary32 (_ * _) - _| ≤ _
    rw [hrot]
    exact binary32_scaled_axis _ _ _ hint.1 has hage
  · show |binary32 (_ * _) - _| ≤ _
    rw [hrot]
    exact binary32_scaled_axis _ _ _ hint.2.1 has hage
  · show |binary32 (_ * _) - _| ≤ _
    rw [hrot]
    exact binary32_scaled_axis _ _ _ hint.2.2.1 has hage
  · have h : int16_of_bytes sample_burst_scale IDX_GYRO_XOUT_H IDX_GYRO_XOUT_L = 655 := by
      decide
    simp only [task_samples_accel, rotate_accel_gyro, sample_dev, sample_cfg,
      PIOS_MPU6000_GetGyroScale, h, id]
    norm_num
  · have h : int16_of_bytes sample_burst_scale IDX_ACCEL_XOUT_H IDX_ACCEL_XOUT_L = 4096 := by
      decide
    simp only [task_samples_accel, rotate_accel_gyro, sample_dev, sample_cfg,
      PIOS_MPU6000_GetAccelScale, h, id]
    push_cast
    ring
  · have h : int16_of_bytes sample_burst_scale IDX_GYRO_XOUT_H IDX_GYRO_XOUT_L = 655 := by
      decide
    have hs := GetGyroScale_binary32_500 sample_dev rfl
    have e : binary32 (((655 : Int) : ℚ)) = ((655 : Int) : ℚ) :=
      binary32_intCast 655 (by decide) (by decide)
    simp only [task_samples_accel]
    rw [hs]
    simp only [rotate_accel_gyro, sample_dev, sample_cfg, h]
    rw [e]
    push_cast
    exact binary32_655_scale_500

/-- Instance of C6 as amended: the sample header (g = 9.805) and the sample handle on the
sample burst, gyroscope `x` in binary32. -/
theorem task_samples_scaling_witness :
    (1 ≤ sample_hdr.GRAVITY ∧ sample_hdr.GRAVITY ≤ 16) ∧
    |(task_samples_accel binary32 sample_hdr sample_dev sample_burst sample_accel_data0
          sample_gyro_data0).2.x -
        (rotate_accel_gyro id sample_dev.cfg.orientation sample_burst sample_accel_data0
          sample_gyro_data0).2.x * spec_gyro_scale sample_dev.gyro_range| ≤
      |(rotate_accel_gyro id sample_dev.cfg.orientation sample_burst sample_accel_data0
          sample_gyro_data0).2.x * spec_gyro_scale sample_dev.gyro_range| / 2 ^ 21 :=
  ⟨⟨by norm_num [sample_hdr], by norm_num [sample_hdr]⟩,
    (task_samples_scaling sample_hdr sample_dev sample_burst sample_accel_data0
      sample_gyro_data0 (by norm_num [sample_hdr]) (by norm_num [sample_hdr])).2.2.1.1.1⟩

/-- C7 at a failing input: in binary32 the temperature bytes (0, 0), `t = 0`,
give the temperature 4784899/131072, which is not `35 + 512 / 340`. -/
theorem task_temperature_inexact :
    be_int16 0 0 = 0 ∧
    (task_samples_accel binary32 sample_hdr sample_dev (fun _ => 0) sample_accel_data0
        sample_gyro_data0).1.temperature = 4784899 / 131072 ∧
    (task_samples_accel binary32 sample_hdr sample_dev (fun _ => 0) sample_accel_data0
        sample_gyro_data0).1.temperature ≠
      35 + ((be_int16 0 0 : ℚ) + 512) / 340 := by
  have h : be_int16 0 0 = 0 := by decide
  refine ⟨h, task_temperature_binary32_zero, ?_⟩
  show task_temperature binary32 (fun _ => 0) ≠ _
  rw [task_temperature_binary32_zero, h]
  norm_num

/-- C7 as amended: the temperature of the accelerometer sample, of the gyroscope
sample and of the gyro-only sample is `35 + (t + 512) / 340` computed in float
arithmetic, where `t` is the big-endian signed 16-bit value of the two
temperature bytes: over exact rationals it is that value, in binary32 it is
within `2 ^ (-16)` of it.  The two samples of a cycle carry the same temperature
(whatever the rounding); `t = -512` gives 35 (over exact rationals and in
binary32); `t = 0` gives `35 + 512 / 340` over exact rationals and
4784899/131072 in binary32. -/
theorem task_temperature_formula (H : pios_mpu60x0_hdr) (dev : mpu6000_dev)
    (rec_buf : Nat → Nat) (accel_data0 : pios_sensor_accel_data)
    (gyro_data0 : pios_sensor_gyro_data) :
    ((task_samples_accel id H dev rec_buf accel_data0 gyro_data0).1.temperature =
        35 + ((be_int16 (rec_buf IDX_TEMP_OUT_H) (rec_buf IDX_TEMP_OUT_L) : ℚ) + 512) / 340 ∧
      (task_samples_accel id H dev rec_buf accel_data0 gyro_data0).2.temperature =
        35 + ((be_int16 (rec_buf IDX_TEMP_OUT_H) (rec_buf IDX_TEMP_OUT_L) : ℚ) + 512) / 340 ∧
      (task_sample_gyro id dev rec_buf gyro_data0).temperature =
        35 + ((be_int16 (rec_buf IDX_TEMP_OUT_H) (rec_buf IDX_TEMP_OUT_L) : ℚ) + 512) / 340) ∧
    (|(task_samples_accel binary32 H dev rec_buf accel_data0 gyro_data0).1.temperature -
          (35 + ((be_int16 (rec_buf IDX_TEMP_OUT_H) (rec_buf IDX_TEMP_OUT_L) : ℚ) + 512) / 340)|
        ≤ 1 / 2 ^ 16 ∧
      |(task_samples_accel binary32 H dev rec_buf accel_data0 gyro_data0).2.temperature -
          (35 + ((be_int16 (rec_buf IDX_TEMP_OUT_H) (rec_buf IDX_TEMP_OUT_L) : ℚ) + 512) / 340)|
        ≤ 1 / 2 ^ 16 ∧
      |(task_sample_gyro binary32 dev rec_buf gyro_data0).temperature -
          (35 + ((be_int16 (rec_buf IDX_TEMP_OUT_H) (rec_buf IDX_TEMP_OUT_L) : ℚ) + 512) / 340)|
        ≤ 1 / 2 ^ 16) ∧
    (∀ rnd : ℚ → ℚ,
      (task_samples_accel rnd H dev rec_buf accel_data0 gyro_data0).1.temperature =
        (task_samples_accel rnd H dev rec_buf accel_data0 gyro_data0).2.temperature) ∧
    (be_int16 (sample_burst IDX_TEMP_OUT_H) (sample_burst IDX_TEMP_OUT_L) = -512 ∧
      (task_samples_accel id H dev sample_burst accel_data0 gyro_data0).2.temperature = 35 ∧
      (task_samples_accel binary32 H dev sample_burst accel_data0 gyro_data0).2.temperature =
        35) ∧
    (be_int16 0 0 = 0 ∧
      (task_samples_accel id H dev (fun _ => 0) accel_data0 gyro_data0).2.temperature =
        35 + 512 / 340 ∧
      (task_samples_accel binary32 H dev (fun _ => 0) accel_data0 gyro_data0).2.temperature =
        4784899 / 131072) := by
  have herr := task_temperature_binary32_err rec_buf
  refine ⟨⟨?_, ?_, ?_⟩, ⟨herr, herr, herr⟩, fun rnd => rfl, ⟨by decide, ?_, ?_⟩,
    ⟨by decide, ?_, task_temperature_binary32_zero⟩⟩
  · simp [task_samples_accel, task_temperature, int16_of_bytes_eq]
  · simp [task_samples_accel, task_temperature, int16_of_bytes_eq]
  · simp [task_sample_gyro, task_temperature, int16_of_bytes_eq]
  · have h : int16_of_bytes sample_burst IDX_TEMP_OUT_H IDX_TEMP_OUT_L = -512 := by decide
    simp only [task_samples_accel, task_temperature, h, id]
    norm_num
  · have h : int16_of_bytes sample_burst IDX_TEMP_OUT_H IDX_TEMP_OUT_L = -512 := by decide
    have e1 : binary32 (((-512 : Int) : ℚ)) = ((-512 : Int) : ℚ) :=
      binary32_intCast (-512) (by decide) (by decide)
    have e2 : binary32 (((512 : Int) : ℚ)) = ((512 : Int) : ℚ) :=
      binary32_intCast 512 (by decide) (by decide)
    have e3 : binary32 (((340 : Int) : ℚ)) = ((340 : Int) : ℚ) :=
      binary32_intCast 340 (by decide) (by decide)
    have e4 : binary32 (((35 : Int) : ℚ)) = ((35 : Int) : ℚ) :=
      binary32_intCast 35 (by decide) (by decide)
    have e5 : binary32 (((0 : Int) : ℚ)) = ((0 : Int) : ℚ) :=
      binary32_intCast 0 (by decide) (by decide)
    push_cast at e1 e2 e3 e4 e5
    simp only [task_samples_accel, task_temperature, h]
    push_cast
    rw [e1, e2, e3, e4]
    norm_num
    rw [e5, zero_div, e5, add_zero, e4]
  · have h : int16_of_bytes (fun _ => 0) IDX_TEMP_OUT_H IDX_TEMP_OUT_L = 0 := by decide
    simp only [task_samples_accel, task_temperature, h, id]
    norm_num

/-- C8: for the orientation top, 0 degrees, and any conversion to float that is
exact on the integers from -32768 to 32768, the gyroscope fields before scaling
are `y = rawX`, `x = rawY` and `z = -rawZ`, the raw values being the big-endian
signed 16-bit values of the byte pairs; X bytes (0x01, 0x00) give `y = 256` and
Y bytes (0x00, 0x01) give `x = 1`. -/
theorem rotate_top_0deg_gyro (rnd : ℚ → ℚ)
    (hrnd : ∀ k : Int, -32768 ≤ k → k ≤ 32768 → rnd (k : ℚ) = k)
    (rec_buf : Nat → Nat) (accel_data0 : pios_sensor_accel_data)
    (gyro_data0 : pios_sensor_gyro_data) :
    ((rotate_accel_gyro rnd pios_mpu60x0_orientation.PIOS_MPU60X0_TOP_0DEG rec_buf
          accel_data0 gyro_data0).2.y =
        be_int16 (rec_buf IDX_GYRO_XOUT_H) (rec_buf IDX_GYRO_XOUT_L) ∧
      (rotate_accel_gyro rnd pios_mpu60x0_orientation.PIOS_MPU60X0_TOP_0DEG rec_buf
          accel_data0 gyro_data0).2.x =
        be_int16 (rec_buf IDX_GYRO_YOUT_H) (rec_buf IDX_GYRO_YOUT_L) ∧
      (rotate_accel_gyro rnd pios_mpu60x0_orientation.PIOS_MPU60X0_TOP_0DEG rec_buf
          accel_data0 gyro_data0).2.z =
        -(be_int16 (rec_buf IDX_GYRO_ZOUT_H) (rec_buf IDX_GYRO_ZOUT_L) : ℚ)) ∧
    ((sample_burst IDX_GYRO_XOUT_H = 0x01 ∧ sample_burst IDX_GYRO_XOUT_L = 0x00 ∧
        (rotate_accel_gyro rnd pios_mpu60x0_orientation.PIOS_MPU60X0_TOP_0DEG sample_burst
          accel_data0 gyro_data0).2.y = 256) ∧
      (sample_burst IDX_GYRO_YOUT_H = 0x00 ∧ sample_burst IDX_GYRO_YOUT_L = 0x01 ∧
        (rotate_accel_gyro rnd pios_mpu60x0_orientation.PIOS_MPU60X0_TOP_0DEG sample_burst
          accel_data0 gyro_data0).2.x = 1)) := by
  have key : ∀ (b : Nat → Nat) (hi lo : Nat),
      rnd ((int16_of_bytes b hi lo : Int) : ℚ) = be_int16 (b hi) (b lo) ∧
      rnd ((-(int16_of_bytes b hi lo) : Int) : ℚ) = -(be_int16 (b hi) (b lo) : ℚ) := by
    intro b hi lo
    have hr := be_int16_range (b hi) (b lo)
    rw [int16_of_bytes_eq]
    constructor
    · exact hrnd _ (by omega) (by omega)
    · rw [hrnd _ (by omega) (by omega)]; push_cast; ring
  refine ⟨⟨?_, ?_, ?_⟩, ⟨by decide, by decide, ?_⟩, ⟨by decide, by decide, ?_⟩⟩
  · exact (key rec_buf _ _).1
  · exact (key rec_buf _ _).1
  · exact (key rec_buf _ _).2
  · have h : be_int16 (sample_burst IDX_GYRO_XOUT_H) (sample_burst IDX_GYRO_XOUT_L) = 256 := by
      decide
    show rnd _ = 256
    rw [(key sample_burst _ _).1, h]; norm_num
  · have h : be_int16 (sample_burst IDX_GYRO_YOUT_H) (sample_burst IDX_GYRO_YOUT_L) = 1 := by
      decide
    show rnd _ = 1
    rw [(key sample_burst _ _).1, h]; norm_num

/-- Instance of C8: binary32 conversion on the sample burst. -/
theorem rotate_top_0deg_gyro_witness :
    (∀ k : Int, -32768 ≤ k → k ≤ 32768 → binary32 (k : ℚ) = k) ∧
    (rotate_accel_gyro binary32 pios_mpu60x0_orientation.PIOS_MPU60X0_TOP_0DEG sample_burst
      sample_accel_data0 sample_gyro_data0).2.y = 256 ∧
    (rotate_accel_gyro binary32 pios_mpu60x0_orientation.PIOS_MPU60X0_TOP_0DEG sample_burst
      sample_accel_data0 sample_gyro_data0).2.x = 1 :=
  ⟨fun k h1 h2 => binary32_intCast k (by omega) (by omega),
    (rotate_top_0deg_gyro binary32
      (fun k h1 h2 => binary32_intCast k (by omega) (by omega))
      sample_burst sample_accel_data0 sample_gyro_data0).2.1.2.2,
    (rotate_top_0deg_gyro binary32
      (fun k h1 h2 => binary32_intCast k (by omega) (by omega))
      sample_burst sample_accel_data0 sample_gyro_data0).2.2.2.2⟩

/-- C9: with `PIOS_MPU6000_ACCEL` defined, for each orientation there are a
bijection `p` of the three axes and signs `s` (each 1 or -1) such that, for
every burst, output axis `i` of the accelerometer is `s i` times raw
accelerometer axis `p i` and output axis `i` of the gyroscope is `s i` times raw
gyroscope axis `p i` (the same `p` and `s` for both), the product being that of
the integers: a raw -32768 that is negated gives 32768. -/
theorem rotate_signed_permutation (rnd : ℚ → ℚ)
    (hrnd : ∀ k : Int, -32768 ≤ k → k ≤ 32768 → rnd (k : ℚ) = k)
    (orientation : pios_mpu60x0_orientation) :
    (∃ (p : Fin 3 → Fin 3) (s : Fin 3 → Int),
      Function.Bijective p ∧ (∀ i, s i = 1 ∨ s i = -1) ∧
      ∀ (rec_buf : Nat → Nat) (accel_data0 : pios_sensor_accel_data)
        (gyro_data0 : pios_sensor_gyro_data) (i : Fin 3),
        (![(rotate_accel_gyro rnd orientation rec_buf accel_data0 gyro_data0).1.x,
            (rotate_accel_gyro rnd orientation rec_buf accel_data0 gyro_data0).1.y,
            (rotate_accel_gyro rnd orientation rec_buf accel_data0 gyro_data0).1.z] i =
          ((s i * raw_accel rec_buf (p i) : Int) : ℚ)) ∧
        (![(rotate_accel_gyro rnd orientation rec_buf accel_data0 gyro_data0).2.x,
            (rotate_accel_gyro rnd orientation rec_buf accel_data0 gyro_data0).2.y,
            (rotate_accel_gyro rnd orientation rec_buf accel_data0 gyro_data0).2.z] i =
          ((s i * raw_gyro rec_buf (p i) : Int) : ℚ))) ∧
    (raw_gyro sample_burst_min 2 = -32768 ∧
      ∀ (accel_data0 : pios_sensor_accel_data) (gyro_data0 : pios_sensor_gyro_data),
        (rotate_accel_gyro rnd pios_mpu60x0_orientation.PIOS_MPU60X0_TOP_0DEG sample_burst_min
          accel_data0 gyro_data0).2.z = 32768) := by
  have key1 : ∀ (b : Nat → Nat) (hi lo : Nat),
      rnd ((int16_of_bytes b hi lo : Int) : ℚ) = be_int16 (b hi) (b lo) :=
    fun b hi lo => (rnd_int16_of_bytes rnd hrnd b hi lo).1
  have key2 : ∀ (b : Nat → Nat) (hi lo : Nat),
      rnd (-((int16_of_bytes b hi lo : Int) : ℚ)) = -(be_int16 (b hi) (b lo) : ℚ) := by
    intro b hi lo
    simpa using (rnd_int16_of_bytes rnd hrnd b hi lo).2
  constructor
  · cases orientation
    case PIOS_MPU60X0_TOP_0DEG =>
      refine ⟨![1, 0, 2], ![1, 1, -1], by decide, by decide, ?_⟩
      intro b a0 g0 i
      fin_cases i <;> simp [rotate_accel_gyro, raw_accel, raw_gyro, key1, key2]
    case PIOS_MPU60X0_TOP_90DEG =>
      refine ⟨![0, 1, 2], ![1, -1, -1], by decide, by decide, ?_⟩
      intro b a0 g0 i
      fin_cases i <;> simp [rotate_accel_gyro, raw_accel, raw_gyro, key1, key2]
    case PIOS_MPU60X0_TOP_180DEG =>
      refine ⟨![1, 0, 2], ![-1, -1, -1], by decide, by decide, ?_⟩
      intro b a0 g0 i
      fin_cases i <;> simp [rotate_accel_gyro, raw_accel, raw_gyro, key1, key2]
    case PIOS_MPU60X0_TOP_270DEG =>
      refine ⟨![0, 1, 2], ![-1, 1, -1], by decide, by decide, ?_⟩
      intro b a0 g0 i
      fin_cases i <;> simp [rotate_accel_gyro, raw_accel, raw_gyro, key1, key2]
    case PIOS_MPU60X0_BOTTOM_0DEG =>
      refine ⟨![1, 0, 2], ![1, -1, 1], by decide, by decide, ?_⟩
      intro b a0 g0 i
      fin_cases i <;> simp [rotate_accel_gyro, raw_accel, raw_gyro, key1, key2]
    case PIOS_MPU60X0_BOTTOM_90DEG =>
      refine ⟨![0, 1, 2], ![-1, 1, 1], by decide, by decide, ?_⟩
      intro b a0 g0 i
      fin_cases i <;> simp [rotate_accel_gyro, raw_accel, raw_gyro, key1, key2]
    case PIOS_MPU60X0_BOTTOM_180DEG =>
      refine ⟨![1, 0, 2], ![-1, 1, 1], by decide, by decide, ?_⟩
      intro b a0 g0 i
      fin_cases i <;> simp [rotate_accel_gyro, raw_accel, raw_gyro, key1, key2]
    case PIOS_MPU60X0_BOTTOM_270DEG =>
      refine ⟨![0, 1, 2], ![1, -1, 1], by decide, by decide, ?_⟩
      intro b a0 g0 i
      fin_cases i <;> simp [rotate_accel_gyro, raw_accel, raw_gyro, key1, key2]
  · refine ⟨by decide, fun a0 g0 => ?_⟩
    have h : be_int16 (sample_burst_min IDX_GYRO_ZOUT_H) (sample_burst_min IDX_GYRO_ZOUT_L)
        = -32768 := by decide
    show rnd _ = 32768
    have := (rnd_int16_of_bytes rnd hrnd sample_burst_min IDX_GYRO_ZOUT_H IDX_GYRO_ZOUT_L).2
    rw [this, h]; norm_num

/-- Instance of C9: binary32 conversion, negation of -32768. -/
theorem rotate_signed_permutation_witness :
    (∀ k : Int, -32768 ≤ k → k ≤ 32768 → binary32 (k : ℚ) = k) ∧
    raw_gyro sample_burst_min 2 = -32768 ∧
    (rotate_accel_gyro binary32 pios_mpu60x0_orientation.PIOS_MPU60X0_TOP_0DEG
      sample_burst_min sample_accel_data0 sample_gyro_data0).2.z = 32768 :=
  ⟨fun k h1 h2 => binary32_intCast k (by omega) (by omega),
    (rotate_signed_permutation binary32
      (fun k h1 h2 => binary32_intCast k (by omega) (by omega))
      pios_mpu60x0_orientation.PIOS_MPU60X0_TOP_0DEG).2.1,
    (rotate_signed_permutation binary32
      (fun k h1 h2 => binary32_intCast k (by omega) (by omega))
      pios_mpu60x0_orientation.PIOS_MPU60X0_TOP_0DEG).2.2 sample_accel_data0 sample_gyro_data0⟩

/-- C10: one iteration of the task with `PIOS_MPU6000_ACCEL` defined, after the
semaphore was taken.  If the bus claim fails, the only call made is at most the
platform claim (no transfer, no send).  Else, if the block transfer reports a
negative status, the calls are claim, chip-select assert, transfer, chip-select
deassert, release, and no send.  Else the same calls are followed by one send
to the accelerometer queue and one send to the gyroscope queue, both with
timeout 0, after the release.  Whatever happens the loop goes on: after any
number `n` of iterations the task is still in the loop and has taken the
semaphore `n` more times. -/
theorem PIOS_MPU6000_Task_cycle (rnd : ℚ → ℚ) (H : pios_mpu60x0_hdr) (B : Build)
    (P : Platform) (dev : mpu6000_dev) (accel_data0 : pios_sensor_accel_data)
    (gyro_data0 : pios_sensor_gyro_data) (tr : List Event)
    (hB : B.PIOS_MPU6000_ACCEL = true)
    (hw : P.PIOS_Semaphore_Take (tr ++ [Event.sem_take dev.data_ready_sema]) = true) :
    (if (PIOS_MPU6000_ClaimBus P (some dev) false
          (tr ++ [Event.sem_take dev.data_ready_sema])).1 ≠ 0 then
        (PIOS_MPU6000_Task_body rnd H B P dev accel_data0 gyro_data0 tr).2 =
            tr ++ [Event.sem_take dev.data_ready_sema] ∨
          (PIOS_MPU6000_Task_body rnd H B P dev accel_data0 gyro_data0 tr).2 =
            tr ++ [Event.sem_take dev.data_ready_sema, Event.spi_claim dev.spi_id]
      else if (P.PIOS_SPI_TransferBlock (tr ++ [Event.sem_take dev.data_ready_sema,
          Event.spi_claim dev.spi_id, Event.spi_rc_pin dev.spi_id dev.slave_num 0,
          Event.spi_transfer_block dev.spi_id (mpu6000_send_buf H) BUFFER_SIZE])).1 < 0 then
        (PIOS_MPU6000_Task_body rnd H B P dev accel_data0 gyro_data0 tr).2 =
          tr ++ [Event.sem_take dev.data_ready_sema,
            Event.spi_claim dev.spi_id, Event.spi_rc_pin dev.spi_id dev.slave_num 0,
            Event.spi_transfer_block dev.spi_id (mpu6000_send_buf H) BUFFER_SIZE,
            Event.spi_rc_pin dev.spi_id dev.slave_num 1, Event.spi_release dev.spi_id]
      else
        (PIOS_MPU6000_Task_body rnd H B P dev accel_data0 gyro_data0 tr).2 =
          tr ++ [Event.sem_take dev.data_ready_sema,
            Event.spi_claim dev.spi_id, Event.spi_rc_pin dev.spi_id dev.slave_num 0,
            Event.spi_transfer_block dev.spi_id (mpu6000_send_buf H) BUFFER_SIZE,
            Event.spi_rc_pin dev.spi_id dev.slave_num 1, Event.spi_release dev.spi_id,
            Event.queue_send_accel dev.accel_queue
              (task_samples_accel rnd H dev (P.PIOS_SPI_TransferBlock (tr ++
                [Event.sem_take dev.data_ready_sema,
                  Event.spi_claim dev.spi_id, Event.spi_rc_pin dev.spi_id dev.slave_num 0,
                  Event.spi_transfer_block dev.spi_id (mpu6000_send_buf H) BUFFER_SIZE])).2
                accel_data0 gyro_data0).1 0,
            Event.queue_send_gyro dev.gyro_queue
              (task_samples_accel rnd H dev (P.PIOS_SPI_TransferBlock (tr ++
                [Event.sem_take dev.data_ready_sema,
                  Event.spi_claim dev.spi_id, Event.spi_rc_pin dev.spi_id dev.slave_num 0,
                  Event.spi_transfer_block dev.spi_id (mpu6000_send_buf H) BUFFER_SIZE])).2
                accel_data0 gyro_data0).2 0]) ∧
    (∀ n : Nat,
      (PIOS_MPU6000_Task rnd H B P dev accel_data0 gyro_data0 n tr).1 = loop_ctl.next ∧
      takes (PIOS_MPU6000_Task rnd H B P dev accel_data0 gyro_data0 n tr).2 =
        takes tr + n) := by
  refine ⟨?_, fun n => Task_runs rnd H B P dev accel_data0 gyro_data0 n tr⟩
  by_cases hv : PIOS_MPU6000_Validate (some dev) = 0
  · rw [Task_body_of_valid rnd H B P dev accel_data0 gyro_data0 tr hv,
      ClaimBus_of_valid P dev false _ hv]
    by_cases hc : P.PIOS_SPI_ClaimBus (tr ++ [Event.sem_take dev.data_ready_sema,
        Event.spi_claim dev.spi_id]) = 0
    · by_cases ht : (P.PIOS_SPI_TransferBlock (tr ++ [Event.sem_take dev.data_ready_sema,
          Event.spi_claim dev.spi_id, Event.spi_rc_pin dev.spi_id dev.slave_num 0,
          Event.spi_transfer_block dev.spi_id (mpu6000_send_buf H) BUFFER_SIZE])).1 < 0
      · simp [hw, hc, ht]
      · simp [hw, hc, ht, hB]
    · simp [hw, hc]
  · rw [Task_body_of_invalid rnd H B P dev accel_data0 gyro_data0 tr hv,
      ClaimBus_of_invalid P (some dev) false _ hv]
    simp

/-- Instance of C10: one iteration on the sample handle and platform, on which
every call succeeds. -/
theorem PIOS_MPU6000_Task_cycle_witness :
    (sample_build.PIOS_MPU6000_ACCEL = true ∧
      sample_platform.PIOS_Semaphore_Take
        ([] ++ [Event.sem_take sample_dev.data_ready_sema]) = true) ∧
    (PIOS_MPU6000_Task_body id sample_hdr sample_build sample_platform sample_dev
        sample_accel_data0 sample_gyro_data0 []).2 =
      [Event.sem_take 3, Event.spi_claim 1, Event.spi_rc_pin 1 0 0,
        Event.spi_transfer_block 1 (mpu6000_send_buf sample_hdr) 15,
        Event.spi_rc_pin 1 0 1, Event.spi_release 1,
        Event.queue_send_accel 1
          (task_samples_accel id sample_hdr sample_dev sample_burst
            sample_accel_data0 sample_gyro_data0).1 0,
        Event.queue_send_gyro 2
          (task_samples_accel id sample_hdr sample_dev sample_burst
            sample_accel_data0 sample_gyro_data0).2 0] := by
  refine ⟨⟨rfl, rfl⟩, ?_⟩
  have h := (PIOS_MPU6000_Task_cycle id sample_hdr sample_build sample_platform sample_dev
    sample_accel_data0 sample_gyro_data0 [] rfl rfl).1
  rw [if_neg (by decide), if_neg (by decide)] at h
  exact h

/-- Counterexample to C11: on a platform that answers 1 to the address byte,
the first register write of the short sequence returns -2, and the
configuration still returns with the flag set. -/
theorem Config_sets_configured_after_failed_write :
    (PIOS_MPU6000_SetReg sample_build faulty_platform (some sample_dev_fresh)
        sample_hdr.PIOS_MPU60X0_PWR_MGMT_REG sample_hdr.PIOS_MPU60X0_PWRMGMT_IMU_RST []).1
      = -2 ∧
    sample_dev_fresh.configured = false ∧
    ∃ s, PIOS_MPU6000_Config id sample_hdr sample_build faulty_platform sample_cfg
        sample_dev_fresh 0 [] = some s ∧ s.1.configured = true := by
  refine ⟨by decide, rfl, _, rfl, rfl⟩

/-- C11 as amended: when `PIOS_MPU6000_Config` returns, the flag `configured` is
true, whatever the register writes returned.  The short sequence always
returns; the long one returns, on the platform on which every register write
fails with -2 and every register read gives 0, after the first poll of each
loop. -/
theorem Config_configured (rnd : ℚ → ℚ) (H : pios_mpu60x0_hdr) (B : Build) (P : Platform)
    (cfg : pios_mpu60x0_cfg) (dev : mpu6000_dev) (fuel : Nat) (tr : List Event)
    (s : mpu6000_dev × List Event)
    (h : PIOS_MPU6000_Config rnd H B P cfg dev fuel tr = some s) :
    s.1.configured = true ∧
    (∃ s1, PIOS_MPU6000_Config rnd H
        { B with PIOS_MPU6000_SIMPLE_INIT_SEQUENCE := true } P cfg dev fuel tr = some s1 ∧
      s1.1.configured = true) ∧
    ((∀ reg data t, reg &&& 0x7f ≠ 0 →
        (PIOS_MPU6000_SetReg sample_build_full faulty_platform (some sample_dev_fresh)
          reg data t).1 = -2) ∧
      ∃ s2, PIOS_MPU6000_Config rnd H sample_build_full faulty_platform cfg sample_dev_fresh
        (fuel + 1) tr = some s2 ∧ s2.1.configured = true) := by
  refine ⟨?_, ⟨_, rfl, rfl⟩, faulty_platform_write_fails, ?_⟩
  · exact (Config_some rnd H B P cfg dev fuel tr s h).1
  · obtain ⟨s2, hs2⟩ := Config_full_sequence_returns rnd H sample_build_full
      faulty_platform cfg sample_dev_fresh fuel tr (by decide) (fun _ => rfl)
      (fun t id => by
        show faulty_reply (t ++ [Event.spi_transfer_byte id 0]) = 0
        rw [faulty_reply_append]; rfl)
    refine ⟨({ s2.1 with configured := true }, s2.2), ?_, rfl⟩
    have hb : sample_build_full.PIOS_MPU6000_SIMPLE_INIT_SEQUENCE = false := rfl
    simp only [PIOS_MPU6000_Config, hb, Bool.false_eq_true, if_false, hs2]

/-- Instance of C11 as amended: the short sequence on the platform on which
every register write fails. -/
theorem Config_configured_witness :
    PIOS_MPU6000_Config id sample_hdr sample_build faulty_platform sample_cfg
        sample_dev_fresh 0 [] =
      some ({ (Config_simple_sequence id sample_hdr sample_build faulty_platform sample_cfg
          sample_dev_fresh []).1 with configured := true },
        (Config_simple_sequence id sample_hdr sample_build faulty_platform sample_cfg
          sample_dev_fresh []).2) ∧
    ({ (Config_simple_sequence id sample_hdr sample_build faulty_platform sample_cfg
        sample_dev_fresh []).1 with configured := true } : mpu6000_dev).configured = true :=
  ⟨rfl, (Config_configured id sample_hdr sample_build faulty_platform sample_cfg
    sample_dev_fresh 0 [] _ rfl).1⟩

/-- Counterexample to C12: `PIOS_MPU6000_Validate` tells the null handle, the
altered magic tag and the zero bus id apart, but claim and release return the
same result for all three. -/
theorem invalid_handle_codes_coincide :
    (PIOS_MPU6000_Validate none ≠ PIOS_MPU6000_Validate (some sample_dev_bad_magic) ∧
      PIOS_MPU6000_Validate (some sample_dev_bad_magic) ≠
        PIOS_MPU6000_Validate (some sample_dev_no_bus)) ∧
    ((PIOS_MPU6000_ClaimBus sample_platform none true []).1 =
        (PIOS_MPU6000_ClaimBus sample_platform (some sample_dev_bad_magic) true []).1 ∧
      (PIOS_MPU6000_ClaimBus sample_platform (some sample_dev_bad_magic) true []).1 =
        (PIOS_MPU6000_ClaimBus sample_platform (some sample_dev_no_bus) true []).1) ∧
    ((PIOS_MPU6000_ReleaseBus sample_build sample_platform none true []).1 =
        (PIOS_MPU6000_ReleaseBus sample_build sample_platform
          (some sample_dev_bad_magic) true []).1 ∧
      (PIOS_MPU6000_ReleaseBus sample_build sample_platform
          (some sample_dev_bad_magic) true []).1 =
        (PIOS_MPU6000_ReleaseBus sample_build sample_platform
          (some sample_dev_no_bus) true []).1) := by
  decide

/-- C12 as amended: for every handle that fails validation (null, altered magic
tag or bus id 0) the bus claim, the bus release, the register read and the
register write all return -1 and call no platform service. -/
theorem invalid_handle_single_code (B : Build) (P : Platform) (dev : Option mpu6000_dev)
    (lowspeed : Bool) (reg data : Nat) (tr : List Event)
    (hv : PIOS_MPU6000_Validate dev ≠ 0) :
    PIOS_MPU6000_ClaimBus P dev lowspeed tr = (-1, tr) ∧
    PIOS_MPU6000_ReleaseBus B P dev lowspeed tr = (-1, tr) ∧
    PIOS_MPU6000_GetReg B P dev reg tr = (-1, tr) ∧
    PIOS_MPU6000_SetReg B P dev reg data tr = (-1, tr) :=
  ⟨ClaimBus_of_invalid P dev lowspeed tr hv, ReleaseBus_of_invalid B P dev lowspeed tr hv,
    GetReg_of_invalid B P dev reg tr hv, SetReg_of_invalid B P dev reg data tr hv⟩

/-- Instance of C12 as amended: the handle whose bus id is 0. -/
theorem invalid_handle_single_code_witness :
    PIOS_MPU6000_Validate (some sample_dev_no_bus) ≠ 0 ∧
    PIOS_MPU6000_ClaimBus sample_platform (some sample_dev_no_bus) true [] = (-1, []) ∧
    PIOS_MPU6000_ReleaseBus sample_build sample_platform (some sample_dev_no_bus) true [] =
      (-1, []) ∧
    PIOS_MPU6000_GetReg sample_build sample_platform (some sample_dev_no_bus) 0x75 [] =
      (-1, []) ∧
    PIOS_MPU6000_SetReg sample_build sample_platform (some sample_dev_no_bus) 0x75 15 [] =
      (-1, []) :=
  ⟨by decide,
    invalid_handle_single_code sample_build sample_platform (some sample_dev_no_bus) true
      0x75 15 [] (by decide)⟩

/-- Counterexample to C13: on a handle with an altered magic tag each setter
changes the field it records. -/
theorem setters_record_on_invalid_handle :
    PIOS_MPU6000_Validate (some sample_dev_bad_magic) ≠ 0 ∧
    (PIOS_MPU6000_SetGyroRange sample_hdr sample_build sample_platform sample_dev_bad_magic
        pios_mpu60x0_range.PIOS_MPU60X0_SCALE_2000_DEG []).1.gyro_range ≠
      sample_dev_bad_magic.gyro_range ∧
    (PIOS_MPU6000_SetAccelRange sample_hdr sample_build sample_platform sample_dev_bad_magic
        pios_mpu60x0_accel_range.PIOS_MPU60X0_ACCEL_2G []).1.accel_range ≠
      sample_dev_bad_magic.accel_range ∧
    (PIOS_MPU6000_SetLPF sample_hdr sample_build sample_platform sample_dev_bad_magic
        3 []).1.filter ≠ sample_dev_bad_magic.filter := by
  decide

/-- C13 as amended: on a handle with a wrong magic tag or a zero bus id the
setters make no bus call, and each still records the requested value in its own
field and leaves the other fields as they were; `PIOS_MPU6000_SetGyroRange`
also still reports the maximum rate. -/
theorem setters_on_invalid_handle (H : pios_mpu60x0_hdr) (B : Build) (P : Platform)
    (dev : mpu6000_dev) (gyro_range : pios_mpu60x0_range)
    (accel_range : pios_mpu60x0_accel_range) (filter : Nat) (tr : List Event)
    (hv : PIOS_MPU6000_Validate (some dev) ≠ 0) :
    PIOS_MPU6000_SetGyroRange H B P dev gyro_range tr =
      ({ dev with gyro_range := gyro_range },
        tr ++ [Event.sensors_set_max_gyro (max_gyro_rate gyro_range)]) ∧
    PIOS_MPU6000_SetAccelRange H B P dev accel_range tr =
      ({ dev with accel_range := accel_range }, tr) ∧
    PIOS_MPU6000_SetLPF H B P dev filter tr = ({ dev with filter := filter }, tr) := by
  refine ⟨?_, ?_, ?_⟩
  · cases gyro_range <;>
      simp [PIOS_MPU6000_SetGyroRange, SetReg_of_invalid B P (some dev) _ _ tr hv,
        max_gyro_rate]
  · simp [PIOS_MPU6000_SetAccelRange, SetReg_of_invalid B P (some dev) _ _ tr hv]
  · simp [PIOS_MPU6000_SetLPF, SetReg_of_invalid B P (some dev) _ _ tr hv]

/-- Instance of C13 as amended: the handle whose bus id is 0. -/
theorem setters_on_invalid_handle_witness :
    PIOS_MPU6000_Validate (some sample_dev_no_bus) ≠ 0 ∧
    PIOS_MPU6000_SetGyroRange sample_hdr sample_build sample_platform sample_dev_no_bus
        pios_mpu60x0_range.PIOS_MPU60X0_SCALE_2000_DEG [] =
      ({ sample_dev_no_bus with
          gyro_range := pios_mpu60x0_range.PIOS_MPU60X0_SCALE_2000_DEG },
        [] ++ [Event.sensors_set_max_gyro
          (max_gyro_rate pios_mpu60x0_range.PIOS_MPU60X0_SCALE_2000_DEG)]) ∧
    PIOS_MPU6000_SetAccelRange sample_hdr sample_build sample_platform sample_dev_no_bus
        pios_mpu60x0_accel_range.PIOS_MPU60X0_ACCEL_2G [] =
      ({ sample_dev_no_bus with
          accel_range := pios_mpu60x0_accel_range.PIOS_MPU60X0_ACCEL_2G }, []) ∧
    PIOS_MPU6000_SetLPF sample_hdr sample_build sample_platform sample_dev_no_bus 3 [] =
      ({ sample_dev_no_bus with filter := 3 }, []) :=
  ⟨by decide,
    setters_on_invalid_handle sample_hdr sample_build sample_platform sample_dev_no_bus
      pios_mpu60x0_range.PIOS_MPU60X0_SCALE_2000_DEG
      pios_mpu60x0_accel_range.PIOS_MPU60X0_ACCEL_2G 3 [] (by decide)⟩

/-- C14 at failing inputs: when the second queue creation fails, `PIOS_MPU6000_alloc`
returns `NULL` after freeing the memory only, and the first queue stays held
(`PIOS_MPU6000_Init` returns -1 without a bus call); when the semaphore creation
fails both queues stay held.  When the first queue creation fails nothing stays
held. -/
theorem alloc_leaks_queues :
    (PIOS_MPU6000_alloc sample_build allocator_second_queue_fails sample_dev [] [] =
        (none, [resource.queue 200],
          [Event.malloc, Event.queue_create 2, Event.queue_create 2, Event.free 100]) ∧
      PIOS_MPU6000_Init id sample_hdr sample_build sample_platform
          allocator_second_queue_fails 1 0 sample_cfg sample_dev 1 [] [] =
        some (-1, none, [resource.queue 200],
          [Event.malloc, Event.queue_create 2, Event.queue_create 2, Event.free 100])) ∧
    (PIOS_MPU6000_alloc sample_build allocator_semaphore_fails sample_dev [] [] =
        (none, [resource.queue 200, resource.queue 201],
          [Event.malloc, Event.queue_create 2, Event.queue_create 2,
            Event.semaphore_create, Event.free 100]) ∧
      PIOS_MPU6000_Init id sample_hdr sample_build sample_platform
          allocator_semaphore_fails 1 0 sample_cfg sample_dev 1 [] [] =
        some (-1, none, [resource.queue 200, resource.queue 201],
          [Event.malloc, Event.queue_create 2, Event.queue_create 2,
            Event.semaphore_create, Event.free 100])) ∧
    PIOS_MPU6000_alloc sample_build allocator_first_queue_fails sample_dev [] [] =
      (none, [], [Event.malloc, Event.queue_create 2, Event.free 100]) := by
  refine ⟨⟨?_, ?_⟩, ⟨?_, ?_⟩, ?_⟩ <;> decide

/-- C15: whenever `PIOS_MPU6000_Config` returns (either sequence), its history
contains, after the history it started from, the write of `default_filter` to
the filter register followed at once by the write, to the divider register, of
the divisor computed from `default_filter` and `default_samplerate`; the handle
then records `default_filter`; the result is the same whatever the filter field
held before; and in binary32, for a rate of at least 1, that divisor is the
specified one with base 8000 exactly when `default_filter` is the 256 Hz
setting (for the rate as configured, and for the rate as the `uint16_t` the
setter receives). -/
theorem Config_filter_before_samplerate (rnd : ℚ → ℚ) (H : pios_mpu60x0_hdr) (B : Build)
    (P : Platform) (cfg : pios_mpu60x0_cfg) (dev : mpu6000_dev) (fuel : Nat)
    (tr : List Event) (s : mpu6000_dev × List Event)
    (h : PIOS_MPU6000_Config rnd H B P cfg dev fuel tr = some s) :
    (∃ tr0, tr <+: tr0 ∧ lpf_then_samplerate rnd H B P cfg dev tr0 <+: s.2) ∧
    s.1.filter = cfg.default_filter ∧
    (∀ f, PIOS_MPU6000_Config rnd H B P cfg { dev with filter := f } fuel tr = some s) ∧
    (1 ≤ cfg.default_samplerate →
      sample_rate_divisor binary32 H cfg.default_filter cfg.default_samplerate =
        spec_divisor
          (if cfg.default_filter = H.PIOS_MPU60X0_LOWPASS_256_HZ then 8000 else 1000)
          cfg.default_samplerate) ∧
    (1 ≤ cfg.default_samplerate % 65536 →
      sample_rate_divisor binary32 H cfg.default_filter (cfg.default_samplerate % 65536) =
        spec_divisor
          (if cfg.default_filter = H.PIOS_MPU60X0_LOWPASS_256_HZ then 8000 else 1000)
          (cfg.default_samplerate % 65536)) := by
  obtain ⟨-, r, hr1, hs⟩ := Config_some rnd H B P cfg dev fuel tr s h
  have key : r.1.filter = cfg.default_filter ∧
      ∃ tr0, tr <+: tr0 ∧ lpf_then_samplerate rnd H B P cfg dev tr0 <+: r.2 := by
    by_cases hb : B.PIOS_MPU6000_SIMPLE_INIT_SEQUENCE = true
    · simp only [hb, if_true, Option.some.injEq] at hr1
      subst hr1
      exact Config_simple_sequence_order rnd H B P cfg dev tr
    · simp only [hb, if_false] at hr1
      exact Config_full_sequence_order rnd H B P cfg dev fuel tr r hr1
  subst hs
  refine ⟨key.2, key.1, fun f => ?_, fun hr => sample_rate_divisor_binary32 H _ _ hr,
    fun hr => sample_rate_divisor_binary32 H _ _ hr⟩
  rw [Config_filter, h]

/-- Instance of C15: the short sequence with the sample configuration (256 Hz
filter, 500 Hz) on a handle whose filter field held 5. -/
theorem Config_filter_before_samplerate_witness :
    PIOS_MPU6000_Config binary32 sample_hdr sample_build sample_platform sample_cfg
        sample_dev_fresh 0 [] = some sample_config_result ∧
    sample_config_result.1.filter = sample_cfg.default_filter ∧
    PIOS_MPU6000_Config binary32 sample_hdr sample_build sample_platform sample_cfg
        { sample_dev_fresh with filter := 5 } 0 [] = some sample_config_result ∧
    sample_rate_divisor binary32 sample_hdr sample_cfg.default_filter
        sample_cfg.default_samplerate = 15 := by
  have h := Config_filter_before_samplerate binary32 sample_hdr sample_build sample_platform
    sample_cfg sample_dev_fresh 0 [] sample_config_result rfl
  refine ⟨rfl, h.2.1, h.2.2.1 5, ?_⟩
  rw [h.2.2.2.1 (by decide)]
  exact spec_divisor_8000_500

/-- C16 at a failing input: waypoint 0 of path 7 is stored as `[1, 2, 3]` and no
waypoint 1 is stored; with one in-memory instance `[9, 9, 9]` the function
returns 0 and instance 0 is still `[9, 9, 9]`.  With no in-memory instance it
returns 0 and instance 0 is `[1, 2, 3]`. -/
theorem load_path_keeps_existing_instance :
    sample_waypoint_services.PIOS_FLASHFS_ObjLoad 7 0 = (0, [1, 2, 3]) ∧
    (sample_waypoint_services.PIOS_FLASHFS_ObjLoad 7 1).1 = -3 ∧
    pathplanner_load_path sample_waypoint_services 7 2 [[9, 9, 9]] =
      some (0, [[9, 9, 9]]) ∧
    pathplanner_load_path sample_waypoint_services 7 2 [] = some (0, [[1, 2, 3]]) := by
  decide

/-- C17 at failing inputs: the matrix of the mapping (which gives the outputs of
both channels from the raw axes, for every burst) has determinant -1 for the
orientations bottom 90 degrees and bottom 270 degrees, and determinant 1 for
the six others. -/
theorem orientation_determinants :
    ((gyro_matrix pios_mpu60x0_orientation.PIOS_MPU60X0_BOTTOM_90DEG).det = -1 ∧
      (accel_matrix pios_mpu60x0_orientation.PIOS_MPU60X0_BOTTOM_90DEG).det = -1 ∧
      (gyro_matrix pios_mpu60x0_orientation.PIOS_MPU60X0_BOTTOM_270DEG).det = -1 ∧
      (accel_matrix pios_mpu60x0_orientation.PIOS_MPU60X0_BOTTOM_270DEG).det = -1) ∧
    (∀ o : pios_mpu60x0_orientation,
      o ≠ pios_mpu60x0_orientation.PIOS_MPU60X0_BOTTOM_90DEG →
      o ≠ pios_mpu60x0_orientation.PIOS_MPU60X0_BOTTOM_270DEG →
      (gyro_matrix o).det = 1 ∧ (accel_matrix o).det = 1) ∧
    (∀ (o : pios_mpu60x0_orientation) (rec_buf : Nat → Nat)
        (accel_data0 : pios_sensor_accel_data) (gyro_data0 : pios_sensor_gyro_data),
      ![(rotate_accel_gyro id o rec_buf accel_data0 gyro_data0).2.x,
          (rotate_accel_gyro id o rec_buf accel_data0 gyro_data0).2.y,
          (rotate_accel_gyro id o rec_buf accel_data0 gyro_data0).2.z] =
        (gyro_matrix o).mulVec (fun j => (raw_gyro rec_buf j : ℚ)) ∧
      ![(rotate_accel_gyro id o rec_buf accel_data0 gyro_data0).1.x,
          (rotate_accel_gyro id o rec_buf accel_data0 gyro_data0).1.y,
          (rotate_accel_gyro id o rec_buf accel_data0 gyro_data0).1.z] =
        (accel_matrix o).mulVec (fun j => (raw_accel rec_buf j : ℚ))) := by
  obtain ⟨h1, h2, h3, h4, h5, h6⟩ := unit_burst_values
  refine ⟨⟨?_, ?_, ?_, ?_⟩, ?_, ?_⟩
  · simp [gyro_matrix, Matrix.det_fin_three, rotate_accel_gyro, h1, h2, h3]
  · simp [accel_matrix, Matrix.det_fin_three, rotate_accel_gyro, h4, h5, h6]
  · simp [gyro_matrix, Matrix.det_fin_three, rotate_accel_gyro, h1, h2, h3]
  · simp [accel_matrix, Matrix.det_fin_three, rotate_accel_gyro, h4, h5, h6]
  · intro o ho1 ho2
    cases o <;> first
      | exact absurd rfl ho1
      | exact absurd rfl ho2
      | (constructor
         · simp [gyro_matrix, Matrix.det_fin_three, rotate_accel_gyro, h1, h2, h3]
         · simp [accel_matrix, Matrix.det_fin_three, rotate_accel_gyro, h4, h5, h6])
  · intro o b a0 g0
    exact ⟨funext (rotate_gyro_fields o b a0 g0), funext (rotate_accel_fields o b a0 g0)⟩

/-- C18 at a failing input: for the orientation bottom, 0 degrees, range 500
deg/s and the sample burst (raw gyro 256, 1, 655), the gyro-only iteration sends
x and y scaled from what the local struct held before (131 and 262 give 2 and
4) and z = -10, while the iteration with the accelerometer sends x = 2/131,
y = -512/131, z = 10.  For the four top orientations the two samples are
equal. -/
theorem gyro_only_sample_differs (H : pios_mpu60x0_hdr) :
    (task_sample_gyro id sample_dev_bottom sample_burst sample_gyro_data_stale =
        { x := 2, y := 4, z := -10, temperature := 35 } ∧
      (task_samples_accel id H sample_dev_bottom sample_burst sample_accel_data0
          sample_gyro_data_stale).2 =
        { x := 2 / 131, y := -512 / 131, z := 10, temperature := 35 }) ∧
    ((PIOS_MPU6000_Task_body id sample_hdr sample_build_gyro_only sample_platform
          sample_dev_bottom sample_accel_data0 sample_gyro_data_stale []).2.getLast? =
        some (Event.queue_send_gyro 2
          (task_sample_gyro id sample_dev_bottom sample_burst sample_gyro_data_stale) 0) ∧
      (PIOS_MPU6000_Task_body id sample_hdr sample_build sample_platform
          sample_dev_bottom sample_accel_data0 sample_gyro_data_stale []).2.getLast? =
        some (Event.queue_send_gyro 2
          (task_samples_accel id sample_hdr sample_dev_bottom sample_burst
            sample_accel_data0 sample_gyro_data_stale).2 0)) ∧
    (∀ (rnd : ℚ → ℚ) (dev : mpu6000_dev) (rec_buf : Nat → Nat)
        (accel_data0 : pios_sensor_accel_data) (gyro_data0 : pios_sensor_gyro_data),
      (dev.cfg.orientation = pios_mpu60x0_orientation.PIOS_MPU60X0_TOP_0DEG ∨
        dev.cfg.orientation = pios_mpu60x0_orientation.PIOS_MPU60X0_TOP_90DEG ∨
        dev.cfg.orientation = pios_mpu60x0_orientation.PIOS_MPU60X0_TOP_180DEG ∨
        dev.cfg.orientation = pios_mpu60x0_orientation.PIOS_MPU60X0_TOP_270DEG) →
      task_sample_gyro rnd dev rec_buf gyro_data0 =
        (task_samples_accel rnd H dev rec_buf accel_data0 gyro_data0).2) := by
  have hx : int16_of_bytes sample_burst IDX_GYRO_XOUT_H IDX_GYRO_XOUT_L = 256 := by decide
  have hy : int16_of_bytes sample_burst IDX_GYRO_YOUT_H IDX_GYRO_YOUT_L = 1 := by decide
  have hz : int16_of_bytes sample_burst IDX_GYRO_ZOUT_H IDX_GYRO_ZOUT_L = 655 := by decide
  have ht : int16_of_bytes sample_burst IDX_TEMP_OUT_H IDX_TEMP_OUT_L = -512 := by decide
  refine ⟨⟨?_, ?_⟩, ⟨?_, ?_⟩, ?_⟩
  · simp only [task_sample_gyro, rotate_gyro, sample_dev_bottom, sample_dev,
      sample_gyro_data_stale, task_temperature, PIOS_MPU6000_GetGyroScale, hz, ht, id]
    norm_num
  · simp only [task_samples_accel, rotate_accel_gyro, sample_dev_bottom, sample_dev,
      sample_gyro_data_stale, task_temperature, PIOS_MPU6000_GetGyroScale, hx, hy, hz, ht, id]
    norm_num
  · rw [Task_body_of_valid _ _ _ _ _ _ _ _ (by decide)]
    simp [sample_platform, sample_build_gyro_only, sample_build]
    rfl
  · rw [Task_body_of_valid _ _ _ _ _ _ _ _ (by decide)]
    simp [sample_platform, sample_build]
    rfl
  · intro rnd dev b a0 g0 ho
    rcases ho with ho | ho | ho | ho <;>
      simp [task_sample_gyro, task_samples_accel, rotate_gyro, rotate_accel_gyro, ho,
        PIOS_MPU6000_GetGyroScale]

end TauLabs
